import Mathlib

/-!
# SIM subscriber subsystem of the layer23 host stack (`subscriber.c`)

A shallow embedding of `src/host/layer23/src/common/subscriber.c`.

* The subscriber record `struct gsm_subscriber` and the part of `struct osmocom_ms`
  the file touches are Lean structures; every C function `f(ms, ...)` that mutates
  the record becomes a function `f ms ... : Int × osmocom_ms` (return code, new state),
  a `void` function returns the new state only.
* Everything the file hands to its collaborators (jobs given to `sim_job`, signals
  given to `osmo_signal_dispatch`, texts given to `l23_vty_ms_notify`, the relay
  session calls) is appended, in program order, to `osmocom_ms.trace`.  The
  collaborators themselves (job queue, signal bus, VTY) are outside this file and
  are not run: a dispatched signal is only recorded.
* Allocation (`talloc_zero`, `gsm_sim_msgb_alloc`, `sim_open`) can fail in the C
  code.  The outcome of the coming allocation attempts is the tape
  `osmocom_ms.allocs` (`true` = success); an exhausted tape means success.
* Machine integers are `Nat` with explicit `% 2^w` where a store truncates.
* `LOGP` logging is dropped.
-/

namespace OsmocomBB

/-! ## Constants of the headers -/

/-- The errno values used by the file (Linux numbering). -/
def EINVAL : Int := 22
def ENOMEM : Int := 12
def EBUSY : Int := 16
def ENOTSUP : Int := 95

/-- The job kinds and result kinds of `sim.h`.  The header is not among the
sources: the numbers stand for the macro values, the functions below only compare
them by name, and no theorem depends on more than their being distinct. -/
def SIM_JOB_READ_BINARY : Nat := 0x01
def SIM_JOB_UPDATE_BINARY : Nat := 0x02
def SIM_JOB_READ_RECORD : Nat := 0x03
def SIM_JOB_RUN_GSM_ALGO : Nat := 0x09
def SIM_JOB_PIN1_UNLOCK : Nat := 0x10
def SIM_JOB_PIN1_CHANGE : Nat := 0x11
def SIM_JOB_PIN1_DISABLE : Nat := 0x12
def SIM_JOB_PIN1_ENABLE : Nat := 0x13
def SIM_JOB_PIN1_UNBLOCK : Nat := 0x14
def SIM_JOB_OK : Nat := 0x20
def SIM_JOB_ERROR : Nat := 0x21

/-- The cause bytes of an error response (`sim.h`, same remark). -/
def SIM_CAUSE_NO_SIM : Nat := 0x00
def SIM_CAUSE_SIM_ERROR : Nat := 0x01
def SIM_CAUSE_REQUEST_ERROR : Nat := 0x02
def SIM_CAUSE_PIN1_REQUIRED : Nat := 0x03
def SIM_CAUSE_PIN2_REQUIRED : Nat := 0x04
def SIM_CAUSE_PIN1_BLOCKED : Nat := 0x05
def SIM_CAUSE_PIN2_BLOCKED : Nat := 0x06
def SIM_CAUSE_PUC_BLOCKED : Nat := 0x07

/-- The card-kind selector of the settings (`uint8_t`, may hold an unknown value). -/
def GSM_SIM_TYPE_NONE : Nat := 0
def GSM_SIM_TYPE_L1PHY : Nat := 1
def GSM_SIM_TYPE_TEST : Nat := 2
def GSM_SIM_TYPE_SAP : Nat := 3

/-- The registration states (`enum` of `subscriber.h`, in the order of the name table). -/
def GSM_SIM_U0_NULL : Nat := 0
def GSM_SIM_U1_UPDATED : Nat := 1
def GSM_SIM_U2_NOT_UPDATED : Nat := 2
def GSM_SIM_U3_ROAMING_NA : Nat := 3

def GSM_SIM_GU0_NULL : Nat := 0
def GSM_SIM_GU1_UPDATED : Nat := 1
def GSM_SIM_GU2_NOT_UPDATED : Nat := 2
def GSM_SIM_GU3_ROAMING_NA : Nat := 3

def GSM_RESERVED_TMSI : Nat := 0xFFFFFFFF

/-- The status values of EF-LOCI and EF-LOCIGPRS (GSM 11.11). -/
def GSM1111_EF_LOCI_LUPD_ST_UPDATED : Nat := 0
def GSM1111_EF_LOCI_LUPD_ST_NOT_UPDATED : Nat := 1
def GSM1111_EF_LOCI_LUPD_ST_PLMN_NOT_ALLOWED : Nat := 2
def GSM1111_EF_LOCI_LUPD_ST_LA_NOT_ALLOWED : Nat := 3

def GSM1111_EF_LOCIGPRS_RAU_ST_UPDATED : Nat := 0
def GSM1111_EF_LOCIGPRS_RAU_ST_NOT_UPDATED : Nat := 1
def GSM1111_EF_LOCIGPRS_RAU_ST_PLMN_NOT_ALLOWED : Nat := 2
def GSM1111_EF_LOCIGPRS_RAU_ST_RA_NOT_ALLOWED : Nat := 3

def OSMO_IMSI_BUF_SIZE : Nat := 16

/-- The size of the packed `struct gsm1111_ef_adn`: length, TON/NPI, 10 number
bytes, capability and extension identifiers. -/
def sizeof_gsm1111_ef_adn : Nat := 14

/-- The size of the packed `struct gsm1111_ef_smsp`: indicator, 12 bytes TP-DA,
12 bytes TS-SCA, protocol id, coding scheme, validity period. -/
def sizeof_gsm1111_ef_smsp : Nat := 28

/-! ## Data model -/

/-- The card kind held by the record.  The C field only ever receives one of the
four enumerators, and the `default: OSMO_ASSERT(0)` arms of the dispatchers say so;
the enumeration makes those arms unreachable by typing. -/
inductive gsm_subscr_sim_type where
  | NONE
  | L1PHY
  | TEST
  | SAP
deriving DecidableEq, Repr

structure osmo_plmn_id where
  mcc : Nat
  mnc : Nat
  mnc_3_digits : Bool
deriving DecidableEq, Repr

structure osmo_location_area_id where
  plmn : osmo_plmn_id
  lac : Nat
deriving DecidableEq, Repr

structure gprs_ra_id where
  mcc : Nat
  mnc : Nat
  mnc_3_digits : Bool
  lac : Nat
  rac : Nat
deriving DecidableEq, Repr

/-- One entry of the preferred list (`plmn_list`). -/
structure gsm_sub_plmn_list where
  plmn : osmo_plmn_id
deriving DecidableEq, Repr

/-- One entry of the forbidden list (`plmn_na`).  The source stores `cause ? : -1`;
the value is kept as the integer the source writes. -/
structure gsm_sub_plmn_na where
  plmn : osmo_plmn_id
  cause : Int
deriving DecidableEq, Repr

structure gsm_subscriber_gprs where
  ptmsi : Nat
  ptmsi_sig : Nat
  rai : gprs_ra_id
  rai_valid : Bool
  gu_state : Nat
  imsi_attached : Bool
deriving DecidableEq, Repr

/-- The record `struct gsm_subscriber` (the back pointer `ms` is the enclosing
`osmocom_ms`).  Strings are the characters before the terminating NUL. -/
structure gsm_subscriber where
  sim_type : gsm_subscr_sim_type
  sim_valid : Bool
  sim_name : List Char
  sim_spn : List Char
  ustate : Nat
  imsi_attached : Bool
  msisdn : List Char
  iccid : List Char
  imsi : List Char
  sms_sca : List Char
  tmsi : Nat
  lai : osmo_location_area_id
  key_seq : Nat
  key : List Nat
  plmn_valid : Bool
  plmn : osmo_plmn_id
  acc_barr : Bool
  acc_class : Nat
  plmn_list : List gsm_sub_plmn_list
  plmn_na : List gsm_sub_plmn_na
  always_search_hplmn : Bool
  any_timeout : Nat
  t6m_hplmn : Nat
  sim_handle_query : Nat
  sim_handle_update : Nat
  sim_handle_key : Nat
  sim_file_index : Nat
  sim_pin_required : Bool
  gprs : gsm_subscriber_gprs
deriving DecidableEq, Repr

/-- The configured GPRS part of the test card. -/
structure test_sim_locigprs where
  ptmsi : Nat
  ptmsi_sig : Nat
  imsi_attached : Bool
  valid : Bool
  rai : gprs_ra_id
deriving DecidableEq, Repr

/-- The configured test card (`settings.test_sim`). -/
structure test_sim_settings where
  imsi : List Char
  imsi_attached : Bool
  barr : Bool
  rplmn_valid : Bool
  rplmn : osmo_plmn_id
  lac : Nat
  tmsi : Nat
  always_search_hplmn : Bool
  ki_type : Nat
  ki : List Nat
  locigprs : test_sim_locigprs
deriving DecidableEq, Repr

structure gsm_settings where
  sim_type : Nat
  any_timeout : Nat
  force_rekey : Bool
  test_sim : test_sim_settings
deriving DecidableEq, Repr

/-- The header `struct sim_hdr` of a job or of a response.  `path` holds the
components before the terminating 0. -/
structure sim_hdr where
  handle : Nat
  job_type : Nat
  path : List Nat
  file : Nat
  rec_no : Nat
  rec_mode : Nat
deriving DecidableEq, Repr

/-- A SIM message: the header and the bytes that follow it (`msg->data + sizeof(*sh)`,
`msg->len - sizeof(*sh)` of them). -/
structure msgb where
  sh : sim_hdr
  payload : List Nat
deriving DecidableEq, Repr

/-- The signals of subsystem `SS_L23_SUBSCR` the file dispatches. -/
inductive l23_subscr_signal where
  | S_L23_SUBSCR_SIM_ATTACHED
  | S_L23_SUBSCR_SIM_DETACHED
  | S_L23_SUBSCR_SIM_AUTH_RESP (sres : List Nat)
deriving DecidableEq, Repr

/-- The texts handed to `l23_vty_ms_notify`; `clear` is the call with a NULL text. -/
inductive vty_notice where
  | clear
  | give_pin (iccid : List Char) (tries : Nat)
  | pin_blocked
  | give_puc (iccid : List Char) (tries : Nat)
  | puc_blocked
  | sim_failed
  | sim_data_invalid
  | sap_connecting
  | sap_error
deriving DecidableEq, Repr

/-- What the file hands to its collaborators. -/
inductive effect where
  | job (msg : msgb)
  | signal (s : l23_subscr_signal)
  | notify (n : vty_notice)
  | sap_open
  | sap_close
deriving DecidableEq, Repr

/-- The mobile station as far as `subscriber.c` reads and writes it, together with
the environment: the allocation tape, the handle counter of `sim_open`, the result
the relay will give to `sap_open`, the function static buffer of `sim_decode_bcd`,
and the trace of effects. -/
structure osmocom_ms where
  settings : gsm_settings
  subscr : gsm_subscriber
  allocs : List Bool
  new_handle : Nat
  sap_open_rc : Int
  bcd_result : List Nat
  trace : List effect
deriving DecidableEq, Repr

/-- The record after `memset(subscr, 0, sizeof(*subscr))`. -/
def gsm_subscriber_zero : gsm_subscriber :=
  { sim_type := gsm_subscr_sim_type.NONE
    sim_valid := false
    sim_name := []
    sim_spn := []
    ustate := 0
    imsi_attached := false
    msisdn := []
    iccid := []
    imsi := []
    sms_sca := []
    tmsi := 0
    lai := { plmn := { mcc := 0, mnc := 0, mnc_3_digits := false }, lac := 0 }
    key_seq := 0
    key := List.replicate 8 0
    plmn_valid := false
    plmn := { mcc := 0, mnc := 0, mnc_3_digits := false }
    acc_barr := false
    acc_class := 0
    plmn_list := []
    plmn_na := []
    always_search_hplmn := false
    any_timeout := 0
    t6m_hplmn := 0
    sim_handle_query := 0
    sim_handle_update := 0
    sim_handle_key := 0
    sim_file_index := 0
    sim_pin_required := false
    gprs := { ptmsi := 0, ptmsi_sig := 0,
              rai := { mcc := 0, mnc := 0, mnc_3_digits := false, lac := 0, rac := 0 },
              rai_valid := false, gu_state := 0, imsi_attached := false } }

/-! ## Environment primitives -/

/-- One allocation attempt: consumes the head of the tape. -/
def try_alloc (ms : osmocom_ms) : Bool × osmocom_ms :=
  match ms.allocs with
  | [] => (true, ms)
  | b :: rest => (b, { ms with allocs := rest })

/-- Every coming allocation attempt succeeds. -/
def allocs_ok (ms : osmocom_ms) : Prop := ∀ b ∈ ms.allocs, b = true

instance (ms : osmocom_ms) : Decidable (allocs_ok ms) := by
  unfold allocs_ok; infer_instance

/-- The call `osmo_signal_dispatch(SS_L23_SUBSCR, s, ...)`. -/
def osmo_signal_dispatch (ms : osmocom_ms) (s : l23_subscr_signal) : osmocom_ms :=
  { ms with trace := ms.trace ++ [effect.signal s] }

/-- The call `l23_vty_ms_notify(ms, ...)`. -/
def l23_vty_ms_notify (ms : osmocom_ms) (n : vty_notice) : osmocom_ms :=
  { ms with trace := ms.trace ++ [effect.notify n] }

/-- The call `sim_job(ms, nmsg)`: the job is queued for the card. -/
def sim_job (ms : osmocom_ms) (nmsg : msgb) : osmocom_ms :=
  { ms with trace := ms.trace ++ [effect.job nmsg] }

/-- Modelled from the spec: `gsm_sim_msgb_alloc` (sim.c) is not among the sources.
It allocates a message whose header carries the handle and the job kind and is
otherwise zero, or returns NULL when the allocation fails. -/
def gsm_sim_msgb_alloc (ms : osmocom_ms) (handle : Nat) (job_type : Nat) :
    Option msgb × osmocom_ms :=
  let r := try_alloc ms
  if r.1 then
    (some { sh := { handle := handle, job_type := job_type, path := [], file := 0,
                    rec_no := 0, rec_mode := 0 },
            payload := [] }, r.2)
  else (none, r.2)

/-- Modelled from the spec: `sim_open` (sim.c) is not among the sources.  It
registers a callback and returns a fresh non-zero handle, or 0 when the handler
cannot be allocated. -/
def sim_open (ms : osmocom_ms) : Nat × osmocom_ms :=
  let r := try_alloc ms
  if r.1 then (r.2.new_handle + 1, { r.2 with new_handle := r.2.new_handle + 1 })
  else (0, r.2)

/-- Modelled from the spec: `sim_close` (sim.c) is not among the sources.  It
forgets the handler of the handle and has no effect on the record. -/
def sim_close (ms : osmocom_ms) (_handle : Nat) : osmocom_ms := ms

/-! ## Codec utilities -/

/-- The read `data[i]` of a byte buffer (`uint8_t`); a byte past the end of the list
reads as 0 (message buffers are zero-filled when allocated). -/
def rd (data : List Nat) (i : Nat) : Nat := data.getD i 0 % 256

/-- The C string that starts at offset `off` of a character buffer: the bytes
before the first NUL. -/
def cstr (buf : List Nat) (off : Nat) : List Char :=
  ((buf.drop off).takeWhile (fun b => b ≠ 0)).map Char.ofNat

/-- The loop of `sim_decode_bcd`, from nibble `i` with `j` characters written into
the static buffer `result`; the first argument bounds the remaining iterations.
The value is the buffer at the loop exit together with `j`. -/
def sim_decode_bcd_loop (data : List Nat) (length : Nat) :
    Nat → Nat → Nat → List Nat → List Nat × Nat
  | 0, _, j, result => (result, j)
  | fuel + 1, i, j, result =>
    if i < length * 2 then
      let c := if i % 2 = 1 then rd data (i / 2) / 16 else rd data (i / 2) % 16
      if c = 0xf then (result, j)
      else
        let result1 := result.set j (c + 48)
        if j + 1 = 32 - 1 then (result1, j + 1)
        else sim_decode_bcd_loop data length fuel (i + 1) (j + 1) result1
    else (result, j)

/-- The function `sim_decode_bcd(data, length)`.  Its result lives in a function
static 32 byte buffer that keeps its content between calls; the value is the
buffer after the call (the returned pointer is its start).  `length` is a
`uint8_t`, so the loop runs at most 510 times. -/
def sim_decode_bcd (result : List Nat) (data : List Nat) (length : Nat) : List Nat :=
  let r := sim_decode_bcd_loop data (length % 256) 510 0 0 result
  r.1.set r.2 0

/-- The helper `to_bcd` of libosmocore: the three low decimal digits, most
significant first. -/
def to_bcd (val : Nat) : List Nat := [val / 100 % 10, val / 10 % 10, val % 10]

/-- The libosmocore function `osmo_plmn_to_bcd(bcd_dst, plmn)`: the three bytes it
writes to `bcd_dst`. -/
def osmo_plmn_to_bcd (plmn : osmo_plmn_id) : List Nat :=
  let m := to_bcd plmn.mcc
  let n := to_bcd plmn.mnc
  let b0 := (rd m 0 ||| (rd m 1 <<< 4)) % 256
  if plmn.mnc_3_digits then
    [b0, (rd m 2 ||| (rd n 2 <<< 4)) % 256, (rd n 0 ||| (rd n 1 <<< 4)) % 256]
  else
    [b0, (rd m 2 ||| (0xf <<< 4)) % 256, (rd n 1 ||| (rd n 2 <<< 4)) % 256]

/-- The libosmocore function `osmo_plmn_from_bcd(bcd_src, plmn)`. -/
def osmo_plmn_from_bcd (b : List Nat) : osmo_plmn_id :=
  let mcc := (rd b 0 % 16) * 100 + (rd b 0 / 16 % 16) * 10 + (rd b 1 % 16)
  if rd b 1 / 16 % 16 = 0xf then
    { mcc := mcc, mnc := (rd b 2 % 16) * 10 + (rd b 2 / 16 % 16), mnc_3_digits := false }
  else
    { mcc := mcc,
      mnc := (rd b 2 % 16) * 100 + (rd b 2 / 16 % 16) * 10 + (rd b 1 / 16 % 16),
      mnc_3_digits := true }

/-- The libosmocore function `osmo_mnc_cmp`: below 100 the digit count
distinguishes MNCs, from 100 on both forms have three digits. -/
def osmo_mnc_cmp (a_mnc : Nat) (a_3 : Bool) (b_mnc : Nat) (b_3 : Bool) : Int :=
  if a_mnc < b_mnc then -1
  else if a_mnc > b_mnc then 1
  else if a_mnc > 99 then 0
  else if a_3 = b_3 then 0
  else if a_3 then 1 else -1

/-- The libosmocore function `osmo_plmn_cmp(a, b)`: 0 exactly when MCC, MNC and
MNC digit count agree. -/
def osmo_plmn_cmp (a b : osmo_plmn_id) : Int :=
  if a.mcc < b.mcc then -1
  else if a.mcc > b.mcc then 1
  else osmo_mnc_cmp a.mnc a.mnc_3_digits b.mnc b.mnc_3_digits

/-- The decimal value of an IMSI character as networks.c computes it:
`(c - '0') & 0x0f`. -/
def imsi_digit (imsi : List Char) (i : Nat) : Nat :=
  ((imsi.getD i (Char.ofNat 0)).toNat + 256 - 48) % 16

/-- Modelled from the spec: `gsm_match_mnc` (networks.c) is not among the sources.
A PLMN is the subscriber's home network when its MCC is the first three IMSI
digits and its MNC the following two (or three, for a 3-digit MNC). -/
def gsm_match_mnc (mcc mnc : Nat) (mnc_3_digits : Bool) (imsi : List Char) : Bool :=
  let sim_mcc := imsi_digit imsi 0 * 100 + imsi_digit imsi 1 * 10 + imsi_digit imsi 2
  if mcc ≠ sim_mcc then false
  else if mnc_3_digits then
    mnc = imsi_digit imsi 3 * 100 + imsi_digit imsi 4 * 10 + imsi_digit imsi 5
  else
    mnc = imsi_digit imsi 3 * 10 + imsi_digit imsi 4

/-- Big-endian value of `n` bytes at offset `off` (`ntohl`, `ntohs` of a packed
field). -/
def load_be (data : List Nat) (off : Nat) : Nat → Nat
  | 0 => 0
  | n + 1 => load_be data off n * 256 + rd data (off + n)

/-- The libosmocore function `gsm48_decode_lai2` on the five bytes at `off`. -/
def gsm48_decode_lai2 (data : List Nat) (off : Nat) : osmo_location_area_id :=
  { plmn := osmo_plmn_from_bcd (data.drop off), lac := load_be data (off + 3) 2 }

/-- The libosmocore function `gsm48_parse_ra` on the six bytes at `off`. -/
def gsm48_parse_ra (data : List Nat) (off : Nat) : gprs_ra_id :=
  let p := osmo_plmn_from_bcd (data.drop off)
  { mcc := p.mcc, mnc := p.mnc, mnc_3_digits := p.mnc_3_digits,
    lac := load_be data (off + 3) 2, rac := rd data (off + 5) }

/-- The digit table `bcd_num_digits` of libosmocore; nibble 15 is the NUL. -/
def bcd_num_digits (n : Nat) : Nat :=
  ([48, 49, 50, 51, 52, 53, 54, 55, 56, 57, 42, 35, 97, 98, 99, 0] : List Nat).getD n 0

/-- The libosmocore function `gsm48_decode_bcd_number2(output, output_len, bcd_lv,
input_len, h_len)`: the bytes it leaves at `output` (a NUL inside them ends the
string). -/
def gsm48_decode_bcd_number2 (output_len : Nat) (bcd_lv : List Nat) (input_len : Nat)
    (h_len : Nat) : List Nat :=
  if output_len < 1 then []
  else if input_len < 1 then []
  else
    let len := rd bcd_lv 0
    if input_len < len + 1 then []
    else
      let digits := (List.range (len - h_len)).flatMap fun k =>
        [bcd_num_digits (rd bcd_lv (1 + h_len + k) % 16),
         bcd_num_digits (rd bcd_lv (1 + h_len + k) / 16)]
      digits.take (output_len - 1)

/-! ## The decode functions of the file table -/

/-- The decoder `subscr_sim_iccid`.  The source copies with `strcpy` and `sprintf`
into fixed-size fields; what an over-long string does to the neighbouring fields is
a matter of memory layout and is not modelled. -/
def subscr_sim_iccid (ms : osmocom_ms) (data : List Nat) (length : Nat) :
    Int × osmocom_ms :=
  let buf := sim_decode_bcd ms.bcd_result data length
  let iccid := cstr buf 0
  (0, { ms with
        bcd_result := buf
        subscr := { ms.subscr with iccid := iccid, sim_name := "sim-".toList ++ iccid } })

/-- The value of `a - b` in `size_t` arithmetic (at least 32 bits wide). -/
def size_t_sub (a b : Nat) : Nat := (a + 2 ^ 32 - b % 2 ^ 32) % 2 ^ 32

/-- The decoder `subscr_sim_imsi`. -/
def subscr_sim_imsi (ms : osmocom_ms) (data : List Nat) (length : Nat) :
    Int × osmocom_ms :=
  if length < 1 then (-EINVAL, ms)
  else if rd data 0 + 1 < length then (-EINVAL, ms)
  else
    let length1 := rd data 0
    let buf := sim_decode_bcd ms.bcd_result (data.drop 1) length1
    let ms1 := { ms with bcd_result := buf }
    let n := (cstr buf 0).length
    if n ≥ OSMO_IMSI_BUF_SIZE ∨ size_t_sub n 1 < 6 then (-EINVAL, ms1)
    else
      (0, { ms1 with
            subscr := { ms1.subscr with imsi := (cstr buf 1).take (OSMO_IMSI_BUF_SIZE - 1) } })

/-- The decoder `subscr_sim_loci` (`struct gsm1111_ef_loci`: TMSI, LAI, TMSI time,
update status). -/
def subscr_sim_loci (ms : osmocom_ms) (data : List Nat) (length : Nat) :
    Int × osmocom_ms :=
  if length < 11 then (-EINVAL, ms)
  else
    let st := rd data 10 % 8
    let ustate :=
      if st = GSM1111_EF_LOCI_LUPD_ST_UPDATED then GSM_SIM_U1_UPDATED
      else if st = GSM1111_EF_LOCI_LUPD_ST_PLMN_NOT_ALLOWED
          ∨ st = GSM1111_EF_LOCI_LUPD_ST_LA_NOT_ALLOWED then GSM_SIM_U3_ROAMING_NA
      else GSM_SIM_U2_NOT_UPDATED
    (0, { ms with
          subscr := { ms.subscr with
                      tmsi := load_be data 0 4
                      lai := gsm48_decode_lai2 data 4
                      ustate := ustate } })

/-- The decoder `subscr_sim_locigprs` (`struct gsm1111_ef_locigprs`: P-TMSI, 16 bit
and 8 bit signature parts, RAI, update status; the 16 bit part is read in host
byte order, little-endian here). -/
def subscr_sim_locigprs (ms : osmocom_ms) (data : List Nat) (length : Nat) :
    Int × osmocom_ms :=
  if length < 11 then (-EINVAL, ms)
  else
    let sig_hi := rd data 4 + rd data 5 * 256
    let sig_lo := rd data 6
    let st := rd data 13 % 8
    let gu_state :=
      if st = GSM1111_EF_LOCIGPRS_RAU_ST_UPDATED then GSM_SIM_GU1_UPDATED
      else if st = GSM1111_EF_LOCIGPRS_RAU_ST_PLMN_NOT_ALLOWED
          ∨ st = GSM1111_EF_LOCIGPRS_RAU_ST_RA_NOT_ALLOWED then GSM_SIM_GU3_ROAMING_NA
      else GSM_SIM_GU2_NOT_UPDATED
    (0, { ms with
          subscr := { ms.subscr with
                      gprs := { ms.subscr.gprs with
                                ptmsi := load_be data 0 4
                                ptmsi_sig := (sig_hi <<< 8) ||| sig_lo
                                rai_valid := true
                                rai := gsm48_parse_ra data 7
                                gu_state := gu_state } } })

/-- The text a number of type `ton` starts with: `+` for 1, `0` for 2. -/
def ton_lead (ton_npi : Nat) : List Char :=
  if (ton_npi % 128) / 16 = 2 then ['0']
  else if (ton_npi % 128) / 16 = 1 then ['+']
  else []

/-- The decoder `subscr_sim_msisdn` (the trailing `struct gsm1111_ef_adn`; the
record field `msisdn` has 31 bytes). -/
def subscr_sim_msisdn (ms : osmocom_ms) (data : List Nat) (length : Nat) :
    Int × osmocom_ms :=
  if length < sizeof_gsm1111_ef_adn then (-EINVAL, ms)
  else
    let off := length - sizeof_gsm1111_ef_adn
    let len_bcd := rd data off
    let ton_npi := rd data (off + 1)
    if len_bcd ≤ 1 then (0, { ms with subscr := { ms.subscr with msisdn := [] } })
    else
      let buf := sim_decode_bcd ms.bcd_result (data.drop (off + 2)) (len_bcd - 1)
      (0, { ms with
            bcd_result := buf
            subscr := { ms.subscr with
                        msisdn := ton_lead ton_npi ++ (cstr buf 0).take (31 - 2) } })

/-- The decoder `subscr_sim_smsp` (the trailing `struct gsm1111_ef_smsp`; the record
field `sms_sca` has 22 bytes). -/
def subscr_sim_smsp (ms : osmocom_ms) (data : List Nat) (length : Nat) :
    Int × osmocom_ms :=
  if length < sizeof_gsm1111_ef_smsp then (-EINVAL, ms)
  else
    let off := length - sizeof_gsm1111_ef_smsp
    let par_ind := rd data off
    let ts_sca := (data.drop (off + 13)).take 12
    let sca :=
      if (par_ind / 2) % 2 = 0 ∧ rd ts_sca 0 ≤ 11 then
        let lead := ton_lead (rd ts_sca 1)
        lead ++ cstr (gsm48_decode_bcd_number2 (22 - lead.length) ts_sca 12 1) 0
      else []
    (0, { ms with subscr := { ms.subscr with sms_sca := sca } })

/-- The decoder `subscr_sim_kc`. -/
def subscr_sim_kc (ms : osmocom_ms) (data : List Nat) (length : Nat) :
    Int × osmocom_ms :=
  if length < 9 then (-EINVAL, ms)
  else
    (0, { ms with
          subscr := { ms.subscr with
                      key := (List.range 8).map (rd data)
                      key_seq := rd data 8 % 8 } })

/-- The PLMN of a freshly `talloc_zero`ed list entry. -/
def osmo_plmn_id_zero : osmo_plmn_id := { mcc := 0, mnc := 0, mnc_3_digits := false }

/-- The `while (length >= 3)` loop of `subscr_sim_plmnsel`; the first argument
bounds the iterations.  The entry is zero-allocated and then passed as the source
(second) argument of `osmo_plmn_to_bcd(&data[0], &plmn->plmn)`: the call writes the
encoding of the zero PLMN over `data[0..2]`, which are not read again, and leaves
the entry as allocated. -/
def subscr_sim_plmnsel_loop : Nat → osmocom_ms → List Nat → Nat → Int × osmocom_ms
  | 0, ms, _, _ => (0, ms)
  | fuel + 1, ms, data, length =>
    if length ≥ 3 then
      if rd data 0 = 0xff ∧ rd data 1 = 0xff ∧ rd data 2 = 0xff then (0, ms)
      else
        let r := try_alloc ms
        if r.1 then
          let plmn : gsm_sub_plmn_list := { plmn := osmo_plmn_id_zero }
          let data1 := osmo_plmn_to_bcd plmn.plmn ++ data.drop 3
          let ms1 := { r.2 with
                       subscr := { r.2.subscr with plmn_list := r.2.subscr.plmn_list ++ [plmn] } }
          subscr_sim_plmnsel_loop fuel ms1 (data1.drop 3) (length - 3)
        else (-ENOMEM, r.2)
    else (0, ms)

/-- The decoder `subscr_sim_plmnsel`. -/
def subscr_sim_plmnsel (ms : osmocom_ms) (data : List Nat) (length : Nat) :
    Int × osmocom_ms :=
  subscr_sim_plmnsel_loop length
    { ms with subscr := { ms.subscr with plmn_list := [] } } data length

/-- The decoder `subscr_sim_hpplmn`. -/
def subscr_sim_hpplmn (ms : osmocom_ms) (data : List Nat) (length : Nat) :
    Int × osmocom_ms :=
  if length < 1 then (-EINVAL, ms)
  else (0, { ms with subscr := { ms.subscr with t6m_hplmn := rd data 0 } })

/-- The decoder `subscr_sim_spn`: up to 16 bytes after the first, cut at 0xff. -/
def subscr_sim_spn (ms : osmocom_ms) (data : List Nat) (length : Nat) :
    Int × osmocom_ms :=
  if length < 17 ∨ rd data 1 ≥ 0x80 then (-ENOTSUP, ms)
  else
    let name := ((List.range 16).map fun i => rd data (1 + i)).takeWhile (fun b => b ≠ 0xff)
    (0, { ms with subscr := { ms.subscr with sim_spn := cstr name 0 } })

/-- The decoder `subscr_sim_acc`. -/
def subscr_sim_acc (ms : osmocom_ms) (data : List Nat) (length : Nat) :
    Int × osmocom_ms :=
  if length < 2 then (-EINVAL, ms)
  else (0, { ms with subscr := { ms.subscr with acc_class := load_be data 0 2 } })

/-- The `while (length >= 3)` loop of `subscr_sim_fplmn`; see
`subscr_sim_plmnsel_loop` for the call of `osmo_plmn_to_bcd`. -/
def subscr_sim_fplmn_loop : Nat → osmocom_ms → List Nat → Nat → Int × osmocom_ms
  | 0, ms, _, _ => (0, ms)
  | fuel + 1, ms, data, length =>
    if length ≥ 3 then
      if rd data 0 = 0xff ∧ rd data 1 = 0xff ∧ rd data 2 = 0xff then (0, ms)
      else
        let r := try_alloc ms
        if r.1 then
          let na : gsm_sub_plmn_na := { plmn := osmo_plmn_id_zero, cause := -1 }
          let data1 := osmo_plmn_to_bcd na.plmn ++ data.drop 3
          let ms1 := { r.2 with
                       subscr := { r.2.subscr with plmn_na := r.2.subscr.plmn_na ++ [na] } }
          subscr_sim_fplmn_loop fuel ms1 (data1.drop 3) (length - 3)
        else (-ENOMEM, r.2)
    else (0, ms)

/-- The decoder `subscr_sim_fplmn` (`TEST_EMPTY_FPLMN` is not defined). -/
def subscr_sim_fplmn (ms : osmocom_ms) (data : List Nat) (length : Nat) :
    Int × osmocom_ms :=
  subscr_sim_fplmn_loop length
    { ms with subscr := { ms.subscr with plmn_na := [] } } data length

/-! ## The file table and the query state machine -/

/-- One row of `subscr_sim_files`; `func = none` is the NULL of the last row. -/
structure subscr_sim_file where
  mandatory : Nat
  path : List Nat
  file : Nat
  sim_job : Nat
  func : Option (osmocom_ms → List Nat → Nat → Int × osmocom_ms)

/-- The last row `{ 0, { 0 }, 0, 0, NULL }`. -/
def subscr_sim_file_end : subscr_sim_file :=
  { mandatory := 0, path := [0], file := 0, sim_job := 0, func := none }

/-- The table `subscr_sim_files[]`. -/
def subscr_sim_files : List subscr_sim_file :=
  [ { mandatory := 1, path := [0], file := 0x2fe2, sim_job := SIM_JOB_READ_BINARY,
      func := some subscr_sim_iccid },
    { mandatory := 1, path := [0x7f20, 0], file := 0x6f07, sim_job := SIM_JOB_READ_BINARY,
      func := some subscr_sim_imsi },
    { mandatory := 1, path := [0x7f20, 0], file := 0x6f7e, sim_job := SIM_JOB_READ_BINARY,
      func := some subscr_sim_loci },
    { mandatory := 1, path := [0x7f20, 0], file := 0x6f53, sim_job := SIM_JOB_READ_BINARY,
      func := some subscr_sim_locigprs },
    { mandatory := 0, path := [0x7f20, 0], file := 0x6f20, sim_job := SIM_JOB_READ_BINARY,
      func := some subscr_sim_kc },
    { mandatory := 0, path := [0x7f20, 0], file := 0x6f30, sim_job := SIM_JOB_READ_BINARY,
      func := some subscr_sim_plmnsel },
    { mandatory := 0, path := [0x7f20, 0], file := 0x6f31, sim_job := SIM_JOB_READ_BINARY,
      func := some subscr_sim_hpplmn },
    { mandatory := 0, path := [0x7f20, 0], file := 0x6f46, sim_job := SIM_JOB_READ_BINARY,
      func := some subscr_sim_spn },
    { mandatory := 0, path := [0x7f20, 0], file := 0x6f78, sim_job := SIM_JOB_READ_BINARY,
      func := some subscr_sim_acc },
    { mandatory := 0, path := [0x7f20, 0], file := 0x6f7b, sim_job := SIM_JOB_READ_BINARY,
      func := some subscr_sim_fplmn },
    { mandatory := 0, path := [0x7f10, 0], file := 0x6f40, sim_job := SIM_JOB_READ_RECORD,
      func := some subscr_sim_msisdn },
    { mandatory := 0, path := [0x7f10, 0], file := 0x6f42, sim_job := SIM_JOB_READ_RECORD,
      func := some subscr_sim_smsp },
    subscr_sim_file_end ]

/-- The row `subscr_sim_files[i]`.  The cursor never passes the last row; the
lookup is made total by giving the last row for any larger index. -/
def sim_file_at (i : Nat) : subscr_sim_file := subscr_sim_files.getD i subscr_sim_file_end

/-- The read job `subscr_sim_request` builds for a table row on a handle. -/
def sim_request_msg (handle : Nat) (sf : subscr_sim_file) : msgb :=
  { sh := { handle := handle, job_type := sf.sim_job,
            path := sf.path.takeWhile (fun c => c ≠ 0),
            file := sf.file, rec_no := 1, rec_mode := 0x04 },
    payload := [] }

/-- The function `subscr_sim_request`: request the file under the cursor, or finish. -/
def subscr_sim_request (ms : osmocom_ms) : Int × osmocom_ms :=
  let sf := sim_file_at ms.subscr.sim_file_index
  match sf.func with
  | none =>
    let ms1 :=
      if ms.subscr.lai.lac > 0x0000 ∧ ms.subscr.lai.lac < 0xfffe then
        { ms with subscr := { ms.subscr with plmn_valid := true, plmn := ms.subscr.lai.plmn } }
      else ms
    (0, osmo_signal_dispatch ms1 l23_subscr_signal.S_L23_SUBSCR_SIM_ATTACHED)
  | some _ =>
    let r := gsm_sim_msgb_alloc ms ms.subscr.sim_handle_query sf.sim_job
    match r.1 with
    | none => (-ENOMEM, r.2)
    | some nmsg =>
      let nmsg1 : msgb :=
        { nmsg with sh := { nmsg.sh with path := sf.path.takeWhile (fun c => c ≠ 0),
                                          file := sf.file, rec_no := 1, rec_mode := 0x04 } }
      (0, sim_job r.2 nmsg1)

/-- The tail of `subscr_sim_query_cb` from the label `ignore`: advance the cursor
(a `uint8_t`) and request the next file. -/
def subscr_sim_query_next (ms : osmocom_ms) : osmocom_ms :=
  (subscr_sim_request
    { ms with subscr := { ms.subscr with
                          sim_file_index := (ms.subscr.sim_file_index + 1) % 256 } }).2

/-- The callback `subscr_sim_query_cb` of the query handle. -/
def subscr_sim_query_cb (ms : osmocom_ms) (msg : msgb) : osmocom_ms :=
  let payload := msg.payload
  let payload_len := msg.payload.length % 65536
  let sf := sim_file_at ms.subscr.sim_file_index
  if msg.sh.job_type = SIM_JOB_ERROR then
    let cause := rd payload 0
    if cause = SIM_CAUSE_PIN1_REQUIRED then
      let ms1 := l23_vty_ms_notify ms vty_notice.clear
      let ms2 := l23_vty_ms_notify ms1 (vty_notice.give_pin ms1.subscr.iccid (rd payload 1))
      { ms2 with subscr := { ms2.subscr with sim_pin_required := true } }
    else if cause = SIM_CAUSE_PIN1_BLOCKED then
      let ms1 := l23_vty_ms_notify ms vty_notice.clear
      let ms2 := l23_vty_ms_notify ms1 vty_notice.pin_blocked
      let ms3 :=
        if rd payload 1 ≠ 0 then
          l23_vty_ms_notify ms2 (vty_notice.give_puc ms2.subscr.iccid (rd payload 1))
        else ms2
      { ms3 with subscr := { ms3.subscr with sim_pin_required := true } }
    else if cause = SIM_CAUSE_PUC_BLOCKED then
      let ms1 := l23_vty_ms_notify ms vty_notice.clear
      let ms2 := l23_vty_ms_notify ms1 vty_notice.puc_blocked
      { ms2 with subscr := { ms2.subscr with sim_pin_required := true } }
    else if sf.func.isSome ∧ sf.mandatory = 0 then
      subscr_sim_query_next ms
    else
      let ms1 := l23_vty_ms_notify ms vty_notice.clear
      let ms2 := l23_vty_ms_notify ms1 vty_notice.sim_failed
      let ms3 := { ms2 with subscr := { ms2.subscr with sim_valid := false } }
      osmo_signal_dispatch ms3 l23_subscr_signal.S_L23_SUBSCR_SIM_DETACHED
  else if ms.subscr.sim_pin_required then
    (subscr_sim_request { ms with subscr := { ms.subscr with sim_pin_required := false } }).2
  else
    match sf.func with
    | none => ms
    | some func =>
      let r := func ms payload (payload_len % 256)
      if r.1 ≠ 0 ∧ (sim_file_at r.2.subscr.sim_file_index).mandatory ≠ 0 then
        let ms1 := l23_vty_ms_notify r.2 vty_notice.clear
        l23_vty_ms_notify ms1 vty_notice.sim_data_invalid
      else subscr_sim_query_next r.2

/-! ## Generic API: init, exit, insert -/

/-- The function `gsm_subscr_init`. -/
def gsm_subscr_init (ms : osmocom_ms) : Int × osmocom_ms :=
  let subscr0 : gsm_subscriber :=
    { gsm_subscriber_zero with
      tmsi := GSM_RESERVED_TMSI
      gprs := { gsm_subscriber_zero.gprs with ptmsi := GSM_RESERVED_TMSI }
      lai := { gsm_subscriber_zero.lai with lac := 0x0000 }
      key_seq := 7
      any_timeout := ms.settings.any_timeout
      plmn_list := []
      plmn_na := [] }
  let ms0 := { ms with subscr := subscr0 }
  let q := sim_open ms0
  let ms1 := { q.2 with subscr := { q.2.subscr with sim_handle_query := q.1 } }
  let u := sim_open ms1
  let ms2 := { u.2 with subscr := { u.2.subscr with sim_handle_update := u.1 } }
  let k := sim_open ms2
  (0, { k.2 with subscr := { k.2.subscr with sim_handle_key := k.1 } })

/-- The function `gsm_subscr_exit`. -/
def gsm_subscr_exit (ms : osmocom_ms) : Int × osmocom_ms :=
  let ms1 :=
    if ms.subscr.sim_handle_query ≠ 0 then
      let c := sim_close ms ms.subscr.sim_handle_query
      { c with subscr := { c.subscr with sim_handle_query := 0 } }
    else ms
  let ms2 :=
    if ms1.subscr.sim_handle_update ≠ 0 then
      let c := sim_close ms1 ms1.subscr.sim_handle_update
      { c with subscr := { c.subscr with sim_handle_update := 0 } }
    else ms1
  let ms3 :=
    if ms2.subscr.sim_handle_key ≠ 0 then
      let c := sim_close ms2 ms2.subscr.sim_handle_key
      { c with subscr := { c.subscr with sim_handle_key := 0 } }
    else ms2
  (0, { ms3 with subscr := { ms3.subscr with plmn_list := [], plmn_na := [] } })

/-- The function `gsm_subscr_insert_simcard`. -/
def gsm_subscr_insert_simcard (ms : osmocom_ms) : Int × osmocom_ms :=
  subscr_sim_request
    { ms with subscr := { ms.subscr with
                          sim_type := gsm_subscr_sim_type.L1PHY
                          sim_name := "sim".toList
                          ustate := GSM_SIM_U2_NOT_UPDATED
                          sim_file_index := 0 } }

/-- The libosmocore function `osmo_imsi_str_valid`: 6 to 15 decimal digits. -/
def osmo_imsi_str_valid (imsi : List Char) : Bool :=
  decide (6 ≤ imsi.length) && decide (imsi.length ≤ 15) && imsi.all Char.isDigit

/-- The function `gsm_subscr_insert_testcard`. -/
def gsm_subscr_insert_testcard (ms : osmocom_ms) : Int × osmocom_ms :=
  let set := ms.settings
  if ¬ osmo_imsi_str_valid set.test_sim.imsi then (-EINVAL, ms)
  else
    let s1 : gsm_subscriber :=
      { ms.subscr with
        sim_type := gsm_subscr_sim_type.TEST
        sim_name := "test".toList
        imsi_attached := set.test_sim.imsi_attached
        acc_barr := set.test_sim.barr
        acc_class := 0xffff
        plmn_valid := set.test_sim.rplmn_valid
        plmn := set.test_sim.rplmn
        lai := { plmn := set.test_sim.rplmn, lac := set.test_sim.lac }
        tmsi := set.test_sim.tmsi
        always_search_hplmn := set.test_sim.always_search_hplmn
        t6m_hplmn := 1
        imsi := set.test_sim.imsi.take (OSMO_IMSI_BUF_SIZE - 1) }
    let s2 : gsm_subscriber :=
      { s1 with
        ustate := if s1.imsi_attached ∧ s1.plmn_valid then GSM_SIM_U1_UPDATED
                  else GSM_SIM_U2_NOT_UPDATED }
    let s3 : gsm_subscriber :=
      { s2 with
        gprs := { s2.gprs with
                  ptmsi := set.test_sim.locigprs.ptmsi
                  ptmsi_sig := set.test_sim.locigprs.ptmsi_sig
                  imsi_attached := set.test_sim.locigprs.imsi_attached
                  rai_valid := set.test_sim.locigprs.valid
                  rai := set.test_sim.locigprs.rai } }
    let s4 : gsm_subscriber :=
      { s3 with
        ustate := if s3.gprs.imsi_attached ∧ s3.gprs.rai_valid then GSM_SIM_U1_UPDATED
                  else GSM_SIM_U2_NOT_UPDATED }
    (0, osmo_signal_dispatch { ms with subscr := s4 }
          l23_subscr_signal.S_L23_SUBSCR_SIM_ATTACHED)

/-- The function `gsm_subscr_insert_sapcard`; `sap_open` is the relay collaborator,
its result is `ms.sap_open_rc`. -/
def gsm_subscr_insert_sapcard (ms : osmocom_ms) : Int × osmocom_ms :=
  let ms1 := { ms with subscr := { ms.subscr with
                                   sim_type := gsm_subscr_sim_type.SAP
                                   sim_name := "sap".toList } }
  let ms2 := l23_vty_ms_notify ms1 vty_notice.clear
  let ms3 := l23_vty_ms_notify ms2 vty_notice.sap_connecting
  let ms4 := { ms3 with trace := ms3.trace ++ [effect.sap_open] }
  let rc := ms4.sap_open_rc
  if rc < 0 then
    let ms5 := l23_vty_ms_notify ms4 vty_notice.sap_error
    let ms6 := { ms5 with subscr := { ms5.subscr with sim_valid := false } }
    (rc, osmo_signal_dispatch ms6 l23_subscr_signal.S_L23_SUBSCR_SIM_DETACHED)
  else (0, ms4)

/-- The function `gsm_subscr_insert`. -/
def gsm_subscr_insert (ms : osmocom_ms) : Int × osmocom_ms :=
  if ms.subscr.sim_valid then (-EBUSY, ms)
  else
    let ms1 := (gsm_subscr_exit ms).2
    let ms2 := (gsm_subscr_init ms1).2
    let ms3 := { ms2 with subscr := { ms2.subscr with sim_valid := true } }
    let sw : Option (Int × osmocom_ms) :=
      if ms3.settings.sim_type = GSM_SIM_TYPE_L1PHY then some (gsm_subscr_insert_simcard ms3)
      else if ms3.settings.sim_type = GSM_SIM_TYPE_TEST then
        some (gsm_subscr_insert_testcard ms3)
      else if ms3.settings.sim_type = GSM_SIM_TYPE_SAP then
        some (gsm_subscr_insert_sapcard ms3)
      else none
    match sw with
    | none => (-EINVAL, ms3)
    | some r =>
      if r.1 < 0 then (r.1, { r.2 with subscr := { r.2.subscr with sim_valid := false } })
      else (r.1, r.2)

/-! ## The forbidden list -/

/-- The pass of `subscr_write_plmn_na_simcard` over the list: the four slots `nas`
and `count` after one more entry. -/
def nas_step (st : List (Option gsm_sub_plmn_na) × Nat) (na : gsm_sub_plmn_na) :
    List (Option gsm_sub_plmn_na) × Nat :=
  if st.2 < 4 then (st.1.set st.2 (some na), st.2 + 1)
  else ([st.1.getD 1 none, st.1.getD 2 none, st.1.getD 3 none, some na], st.2 + 1)

/-- The three bytes written for one slot. -/
def nas_slot_bytes (slot : Option gsm_sub_plmn_na) : List Nat :=
  match slot with
  | some na => osmo_plmn_to_bcd na.plmn
  | none => [0xff, 0xff, 0xff]

/-- The 12 byte body of the update job for a forbidden list. -/
def plmn_na_body (l : List gsm_sub_plmn_na) : List Nat :=
  let nas := (l.foldl nas_step ([none, none, none, none], 0)).1
  (List.range 4).flatMap fun i => nas_slot_bytes (nas.getD i none)

/-- The function `subscr_write_plmn_na_simcard` (`TEST_EMPTY_FPLMN` is not defined). -/
def subscr_write_plmn_na_simcard (ms : osmocom_ms) : Int × osmocom_ms :=
  let r := gsm_sim_msgb_alloc ms ms.subscr.sim_handle_update SIM_JOB_UPDATE_BINARY
  match r.1 with
  | none => (-ENOMEM, r.2)
  | some nmsg =>
    let nmsg1 : msgb :=
      { sh := { nmsg.sh with path := [0x7f20], file := 0x6f7b },
        payload := nmsg.payload ++ plmn_na_body ms.subscr.plmn_na }
    (0, sim_job r.2 nmsg1)

/-- The function `subscr_write_plmn_na`. -/
def subscr_write_plmn_na (ms : osmocom_ms) : Int × osmocom_ms :=
  if ms.subscr.sim_type = gsm_subscr_sim_type.NONE ∨ ¬ ms.subscr.sim_valid then (0, ms)
  else
    match ms.subscr.sim_type with
    | gsm_subscr_sim_type.L1PHY => subscr_write_plmn_na_simcard ms
    | gsm_subscr_sim_type.SAP => subscr_write_plmn_na_simcard ms
    | gsm_subscr_sim_type.TEST => (0, ms)
    | gsm_subscr_sim_type.NONE => (0, ms)

/-- The `llist_for_each_entry_safe` loop of `gsm_subscr_del_forbidden_plmn`: the
list that remains and the flag `deleted`.  `plmn = none` is the NULL argument. -/
def del_forbidden_loop (plmn : Option osmo_plmn_id) :
    List gsm_sub_plmn_na → List gsm_sub_plmn_na × Bool
  | [] => ([], false)
  | na :: rest =>
    match plmn with
    | none => ((del_forbidden_loop plmn rest).1, true)
    | some p =>
      if osmo_plmn_cmp na.plmn p = 0 then (rest, true)
      else ((na :: (del_forbidden_loop plmn rest).1), (del_forbidden_loop plmn rest).2)

/-- The function `gsm_subscr_del_forbidden_plmn`. -/
def gsm_subscr_del_forbidden_plmn (ms : osmocom_ms) (plmn : Option osmo_plmn_id) :
    Int × osmocom_ms :=
  let r := del_forbidden_loop plmn ms.subscr.plmn_na
  let ms1 := { ms with subscr := { ms.subscr with plmn_na := r.1 } }
  let ms2 := if r.2 then (subscr_write_plmn_na ms1).2 else ms1
  (-EINVAL, ms2)

/-- The function `gsm_subscr_add_forbidden_plmn`; `cause` is a `uint8_t`. -/
def gsm_subscr_add_forbidden_plmn (ms : osmocom_ms) (plmn : osmo_plmn_id) (cause : Nat) :
    Int × osmocom_ms :=
  let ms1 := (gsm_subscr_del_forbidden_plmn ms (some plmn)).2
  let r := try_alloc ms1
  if r.1 then
    let na : gsm_sub_plmn_na :=
      { plmn := plmn, cause := if cause % 256 ≠ 0 then ((cause % 256 : Nat) : Int) else -1 }
    let ms2 := { r.2 with subscr := { r.2.subscr with plmn_na := r.2.subscr.plmn_na ++ [na] } }
    if ms2.subscr.sim_valid &&
        gsm_match_mnc plmn.mcc plmn.mnc plmn.mnc_3_digits ms2.subscr.imsi then
      (-EINVAL, ms2)
    else (0, (subscr_write_plmn_na ms2).2)
  else (-ENOMEM, r.2)

/-- The function `gsm_subscr_is_forbidden_plmn`. -/
def gsm_subscr_is_forbidden_plmn (ms : osmocom_ms) (plmn : osmo_plmn_id) : Int :=
  if ms.subscr.plmn_na.any (fun na => osmo_plmn_cmp na.plmn plmn = 0) then 1 else 0

/-! ## Authentication -/

/-- The part of the libosmocore `struct osmo_auth_vector` the file reads. -/
structure osmo_auth_vector where
  sres : List Nat
  kc : List Nat
deriving DecidableEq, Repr

/-- The function `gsm_subscr_generate_kc_testcard`.  The libosmocore function
`osmo_auth_gen_vec2` is the parameter `auth_gen`: from the algorithm identifier,
the key `ki` and the challenge it gives its return value and the vector.  The
argument `key_seq` is a `uint8_t`. -/
def gsm_subscr_generate_kc_testcard
    (auth_gen : Nat → List Nat → List Nat → Int × osmo_auth_vector)
    (ms : osmocom_ms) (key_seq : Nat) (rand : List Nat) (_no_sim : Bool) :
    Int × osmocom_ms :=
  let set := ms.settings
  let r := auth_gen set.test_sim.ki_type ((List.range 16).map (rd set.test_sim.ki)) rand
  if r.1 < 0 then (r.1, ms)
  else
    let ms1 := { ms with
                 subscr := { ms.subscr with
                             key_seq := key_seq % 256
                             key := (List.range 8).map (rd r.2.kc) } }
    (0, osmo_signal_dispatch ms1
          (l23_subscr_signal.S_L23_SUBSCR_SIM_AUTH_RESP ((List.range 4).map (rd r.2.sres))))

/-- The function `gsm_subscr_generate_kc_simcard`; `key_seq` is a `uint8_t`. -/
def gsm_subscr_generate_kc_simcard (ms : osmocom_ms) (key_seq : Nat) (rand : List Nat)
    (_no_sim : Bool) : Int × osmocom_ms :=
  let r := gsm_sim_msgb_alloc ms ms.subscr.sim_handle_key SIM_JOB_RUN_GSM_ALGO
  match r.1 with
  | none => (-ENOMEM, r.2)
  | some nmsg =>
    let nmsg1 : msgb :=
      { sh := { nmsg.sh with path := [0x7f20] },
        payload := nmsg.payload ++ (List.range 16).map (rd rand) }
    let ms1 := { r.2 with subscr := { r.2.subscr with key_seq := key_seq % 256 } }
    (0, sim_job ms1 nmsg1)

/-- The function `gsm_subscr_generate_kc`; `key_seq` is a `uint8_t`, `rand` points
to the 16 byte challenge. -/
def gsm_subscr_generate_kc
    (auth_gen : Nat → List Nat → List Nat → Int × osmo_auth_vector)
    (ms : osmocom_ms) (key_seq : Nat) (rand : List Nat) (no_sim : Bool) :
    Int × osmocom_ms :=
  if no_sim ∨ ms.subscr.sim_type = gsm_subscr_sim_type.NONE ∨ ¬ ms.subscr.sim_valid then
    (0, osmo_signal_dispatch ms
          (l23_subscr_signal.S_L23_SUBSCR_SIM_AUTH_RESP [0x12, 0x34, 0x56, 0x78]))
  else
    match ms.subscr.sim_type with
    | gsm_subscr_sim_type.TEST => gsm_subscr_generate_kc_testcard auth_gen ms key_seq rand no_sim
    | gsm_subscr_sim_type.L1PHY => gsm_subscr_generate_kc_simcard ms key_seq rand no_sim
    | gsm_subscr_sim_type.SAP => gsm_subscr_generate_kc_simcard ms key_seq rand no_sim
    | gsm_subscr_sim_type.NONE => (0, ms)

/-- The callback `subscr_sim_key_cb` of the key handle. -/
def subscr_sim_key_cb (ms : osmocom_ms) (msg : msgb) : osmocom_ms :=
  let payload := msg.payload
  let payload_len := msg.payload.length % 65536
  if msg.sh.job_type = SIM_JOB_ERROR then ms
  else if payload_len < 12 then ms
  else
    let ms1 := { ms with
                 subscr := { ms.subscr with
                             key := (List.range 8).map fun i => rd payload (4 + i) } }
    let r := gsm_sim_msgb_alloc ms1 ms1.subscr.sim_handle_update SIM_JOB_UPDATE_BINARY
    match r.1 with
    | none => r.2
    | some nmsg =>
      let nmsg1 : msgb :=
        { sh := { nmsg.sh with path := [0x7f20], file := 0x6f20 },
          payload := nmsg.payload ++ (List.range 8).map (rd r.2.subscr.key) ++
                       [r.2.subscr.key_seq] }
      let ms2 := sim_job r.2 nmsg1
      osmo_signal_dispatch ms2
        (l23_subscr_signal.S_L23_SUBSCR_SIM_AUTH_RESP ((List.range 4).map (rd payload)))

/-! ## PIN entry, removal and the relay -/

/-- The bytes of a C string, with its terminating NUL. -/
def cstr_bytes (str : List Char) : List Nat := str.map (fun c => c.toNat % 256) ++ [0]

/-- The function `gsm_subscr_sim_pin_simcard`; `mode` is an `int8_t`.  The first
component of the job kind is `none` on the path that returns without a job. -/
def gsm_subscr_sim_pin_simcard (ms : osmocom_ms) (pin1 pin2 : List Char) (mode : Int) :
    Int × osmocom_ms :=
  let job : Option Nat :=
    if mode = -1 then some SIM_JOB_PIN1_DISABLE
    else if mode = 1 then some SIM_JOB_PIN1_ENABLE
    else if mode = 2 then some SIM_JOB_PIN1_CHANGE
    else if mode = 99 then some SIM_JOB_PIN1_UNBLOCK
    else if ¬ ms.subscr.sim_pin_required then none
    else some SIM_JOB_PIN1_UNLOCK
  match job with
  | none => (0, ms)
  | some j =>
    let r := gsm_sim_msgb_alloc ms ms.subscr.sim_handle_query j
    match r.1 with
    | none => (-ENOMEM, r.2)
    | some nmsg =>
      (0, sim_job r.2
            { nmsg with payload := nmsg.payload ++ cstr_bytes pin1 ++ cstr_bytes pin2 })

/-- The function `gsm_subscr_sim_pin`. -/
def gsm_subscr_sim_pin (ms : osmocom_ms) (pin1 pin2 : List Char) (mode : Int) :
    Int × osmocom_ms :=
  if ms.subscr.sim_type = gsm_subscr_sim_type.NONE ∨ ¬ ms.subscr.sim_valid then (0, ms)
  else
    match ms.subscr.sim_type with
    | gsm_subscr_sim_type.L1PHY => gsm_subscr_sim_pin_simcard ms pin1 pin2 mode
    | gsm_subscr_sim_type.SAP => gsm_subscr_sim_pin_simcard ms pin1 pin2 mode
    | gsm_subscr_sim_type.TEST => (0, ms)
    | gsm_subscr_sim_type.NONE => (0, ms)

/-- Modelled from the spec: `sap_close` (sap_interface.c) is not among the sources.
It ends the relay session; its result is discarded by the only caller in the file. -/
def sap_close (ms : osmocom_ms) : Int × osmocom_ms :=
  (0, { ms with trace := ms.trace ++ [effect.sap_close] })

/-- The function `gsm_subscr_remove_sapcard`. -/
def gsm_subscr_remove_sapcard (ms : osmocom_ms) : Int × osmocom_ms := sap_close ms

/-- The function `gsm_subscr_remove`. -/
def gsm_subscr_remove (ms : osmocom_ms) : Int × osmocom_ms :=
  if ¬ ms.subscr.sim_valid then (-EINVAL, ms)
  else
    let ms1 :=
      if ms.subscr.sim_type = gsm_subscr_sim_type.SAP then (gsm_subscr_remove_sapcard ms).2
      else ms
    (0, osmo_signal_dispatch ms1 l23_subscr_signal.S_L23_SUBSCR_SIM_DETACHED)

/-- The result code and the message types of `sap_proto.h` the file compares with.
The header is not among the sources: the numbers stand for the enumerators, and no
theorem depends on more than their being distinct. -/
def SAP_RESULT_OK_REQ_PROC_CORR : Int := 0x00
def SAP_TRANSFER_APDU_RESP : Nat := 0x06
def SAP_TRANSFER_ATR_RESP : Nat := 0x08

/-- The function `gsm_subscr_sap_rsp_cb(ms, res_code, res_type, param_len,
param_val)`; `res_type` is a `uint8_t`, `param_len` a `uint16_t`, `param_val = none`
is the NULL pointer.  The collaborator `sim_apdu_resp` (sim.c), which consumes the
card response and may run the callbacks of the handles, is the parameter
`sim_apdu_resp`; it receives the `param_len` bytes copied into the new message. -/
def gsm_subscr_sap_rsp_cb (sim_apdu_resp : osmocom_ms → List Nat → Int × osmocom_ms)
    (ms : osmocom_ms) (res_code : Int) (res_type : Nat) (param_len : Nat)
    (param_val : Option (List Nat)) : Int × osmocom_ms :=
  if res_code ≠ SAP_RESULT_OK_REQ_PROC_CORR then (0, ms)
  else if res_type % 256 = SAP_TRANSFER_APDU_RESP then
    match param_val with
    | none => (-EINVAL, ms)
    | some val =>
      if param_len % 65536 = 0 then (-EINVAL, ms)
      else
        let r := try_alloc ms
        if r.1 then sim_apdu_resp r.2 ((List.range (param_len % 65536)).map (rd val))
        else (-ENOMEM, r.2)
  else if res_type % 256 = SAP_TRANSFER_ATR_RESP then subscr_sim_request ms
  else (-ENOTSUP, ms)

/-! ## Measures on the trace -/

/-- The jobs handed to `sim_job` among the effects of a trace, in program order. -/
def jobs (t : List effect) : List msgb :=
  t.filterMap fun e =>
    match e with
    | effect.job m => some m
    | _ => none

/-- The jobs of a trace that were issued on a handle. -/
def jobs_on (handle : Nat) (t : List effect) : List msgb :=
  (jobs t).filter fun m => m.sh.handle = handle

/-! ## Runs of the query state machine -/

/-- The state after the responses `msgs` were delivered, in order, to the callback
of the query handle. -/
def sim_query_run (ms : osmocom_ms) (msgs : List msgb) : osmocom_ms :=
  msgs.foldl subscr_sim_query_cb ms

/-- Every response of the run is a success response, and the decode function of the
row under the cursor at its arrival returns 0 on its payload. -/
def responses_accepted : osmocom_ms → List msgb → Bool
  | _, [] => true
  | ms, m :: rest =>
    (m.sh.job_type != SIM_JOB_ERROR) &&
    (match (sim_file_at ms.subscr.sim_file_index).func with
     | some func => (func ms m.payload (m.payload.length % 65536 % 256)).1 == 0
     | none => true) &&
    responses_accepted (subscr_sim_query_cb ms m) rest

/-- The read jobs for the first `n` rows of the file table on a handle. -/
def sim_read_jobs (handle : Nat) (n : Nat) : List effect :=
  (List.range n).map fun i => effect.job (sim_request_msg handle (sim_file_at i))

/-- What a decode function of the file table leaves alone: the cursor, the PIN
flag, the validity flag, the query handle, the trace, and the success of the coming
allocations. -/
def decoder_frame (f : osmocom_ms → List Nat → Nat → Int × osmocom_ms) : Prop :=
  ∀ ms data length,
    (f ms data length).2.subscr.sim_file_index = ms.subscr.sim_file_index ∧
    (f ms data length).2.subscr.sim_pin_required = ms.subscr.sim_pin_required ∧
    (f ms data length).2.subscr.sim_valid = ms.subscr.sim_valid ∧
    (f ms data length).2.subscr.sim_handle_query = ms.subscr.sim_handle_query ∧
    (f ms data length).2.trace = ms.trace ∧
    (allocs_ok ms → allocs_ok (f ms data length).2)

/-! ## Example inputs -/

/-- The station at program start, configured for a physical-reader card. -/
def ms_boot : osmocom_ms :=
  { settings :=
      { sim_type := GSM_SIM_TYPE_L1PHY, any_timeout := 30, force_rekey := false,
        test_sim :=
          { imsi := "001010000000001".toList, imsi_attached := true, barr := false,
            rplmn_valid := true, rplmn := { mcc := 1, mnc := 1, mnc_3_digits := false },
            lac := 1, tmsi := 0x12345678, always_search_hplmn := false, ki_type := 0,
            ki := List.replicate 16 0,
            locigprs :=
              { ptmsi := 0xffffffff, ptmsi_sig := 0, imsi_attached := false, valid := false,
                rai := { mcc := 0, mnc := 0, mnc_3_digits := false, lac := 0, rac := 0 } } } },
    subscr := gsm_subscriber_zero,
    allocs := [],
    new_handle := 0,
    sap_open_rc := 0,
    bcd_result := List.replicate 32 0,
    trace := [] }

/-- A physical-reader card that is being read, with the cursor at row `i`. -/
def ms_reading (i : Nat) : osmocom_ms :=
  { ms_boot with
    subscr := { gsm_subscriber_zero with
                sim_type := gsm_subscr_sim_type.L1PHY
                sim_valid := true
                tmsi := GSM_RESERVED_TMSI
                key_seq := 7
                sim_handle_query := 1
                sim_handle_update := 2
                sim_handle_key := 3
                sim_file_index := i } }

/-- The same card waiting for a PIN. -/
def ms_pin_wait (i : Nat) : osmocom_ms :=
  { ms_reading i with subscr := { (ms_reading i).subscr with sim_pin_required := true } }

/-- A forbidden list entry without cause. -/
def na_of (mcc mnc : Nat) : gsm_sub_plmn_na :=
  { plmn := { mcc := mcc, mnc := mnc, mnc_3_digits := false }, cause := -1 }

/-- A card that was read completely and holds the forbidden list `l`. -/
def ms_forbidden (l : List gsm_sub_plmn_na) : osmocom_ms :=
  { ms_reading 12 with subscr := { (ms_reading 12).subscr with plmn_na := l } }

/-- A success response with a payload. -/
def sim_rsp_ok (payload : List Nat) : msgb :=
  { sh := { handle := 1, job_type := SIM_JOB_OK, path := [], file := 0, rec_no := 0,
            rec_mode := 0 },
    payload := payload }

/-- An error response with a cause and a number of tries left. -/
def sim_rsp_error (cause tries : Nat) : msgb :=
  { sh := { handle := 1, job_type := SIM_JOB_ERROR, path := [], file := 0, rec_no := 0,
            rec_mode := 0 },
    payload := [cause, tries] }

/-- Twelve payloads the twelve decode functions accept, in table order. -/
def sim_rsps_accepted : List msgb :=
  [ sim_rsp_ok [0x98, 0x94, 0x20],
    sim_rsp_ok [8, 0x29, 0x43, 0x65, 0x87, 0x09, 0x21, 0x43, 0xf5],
    sim_rsp_ok [1, 2, 3, 4, 0x62, 0xf2, 0x10, 0x12, 0x34, 0xff, 0],
    sim_rsp_ok [1, 2, 3, 4, 5, 6, 7, 0x62, 0xf2, 0x10, 0x12, 0x34, 1, 0],
    sim_rsp_ok [1, 2, 3, 4, 5, 6, 7, 8, 2],
    sim_rsp_ok [0x62, 0xf2, 0x10, 0xff, 0xff, 0xff],
    sim_rsp_ok [5],
    sim_rsp_ok [0, 65, 66, 0xff, 0xff, 0xff, 0xff, 0xff, 0xff, 0xff, 0xff, 0xff, 0xff, 0xff,
                0xff, 0xff, 0xff],
    sim_rsp_ok [0, 1],
    sim_rsp_ok [0x62, 0xf2, 0x10, 0x62, 0xf2, 0x20, 0xff, 0xff, 0xff],
    sim_rsp_ok [3, 0x91, 0x21, 0x43, 0xff, 0xff, 0xff, 0xff, 0xff, 0xff, 0xff, 0xff, 0xff, 0xff],
    sim_rsp_ok [0xfd, 0xff, 0xff, 0xff, 0xff, 0xff, 0xff, 0xff, 0xff, 0xff, 0xff, 0xff, 0xff,
                4, 0x91, 0x21, 0x43, 0xf5, 0xff, 0xff, 0xff, 0xff, 0xff, 0xff, 0xff, 0xff,
                0xff, 0xff] ]

/-! ## The BCD decoder as the specification words it -/

/-- Nibble `i` of a byte buffer, the low nibble of a byte before its high nibble. -/
def bcd_nibble (data : List Nat) (i : Nat) : Nat :=
  if i % 2 = 1 then rd data (i / 2) / 16 else rd data (i / 2) % 16

/-- The digit string of the specification for a buffer and a number `n` of nibbles:
the characters `'0' + v` of the first `n` nibbles `v`, cut before the first nibble
0xF and after 31 characters. -/
def sim_decode_bcd_spec (data : List Nat) (n : Nat) : List Char :=
  ((((List.range n).map (bcd_nibble data)).takeWhile (fun v => v ≠ 0xf)).take 31).map
    fun v => Char.ofNat (v + 48)

/-! ## More example inputs -/

/-- The station at program start, configured for the test card. -/
def ms_boot_test : osmocom_ms :=
  { ms_boot with settings := { ms_boot.settings with sim_type := GSM_SIM_TYPE_TEST } }

/-- A test card that is present. -/
def ms_test_card : osmocom_ms :=
  { ms_boot_test with
    subscr := { (ms_reading 12).subscr with sim_type := gsm_subscr_sim_type.TEST } }

/-- A physical-reader card that was read completely, of the subscriber
262-01-1234567890, with the forbidden list `l`. -/
def ms_home (l : List gsm_sub_plmn_na) : osmocom_ms :=
  { ms_reading 12 with
    subscr := { (ms_reading 12).subscr with
                imsi := "262011234567890".toList
                plmn_na := l } }

/-- The home network of `ms_home`. -/
def plmn_262_01 : osmo_plmn_id := { mcc := 262, mnc := 1, mnc_3_digits := false }

/-- Another network of the same country. -/
def plmn_262_02 : osmo_plmn_id := { mcc := 262, mnc := 2, mnc_3_digits := false }

/-- The record a removed card left behind: no card is present, the fields still
hold the data of the card. -/
def ms_stale : osmocom_ms :=
  { ms_home [na_of 262 2] with
    subscr := { (ms_home [na_of 262 2]).subscr with sim_valid := false } }

/-- A stand-in for `osmo_auth_gen_vec2` that succeeds with a fixed vector. -/
def auth_gen_fixed (_algo : Nat) (_ki : List Nat) (_rand : List Nat) :
    Int × osmo_auth_vector :=
  (0, { sres := [0xa1, 0xa2, 0xa3, 0xa4], kc := [1, 2, 3, 4, 5, 6, 7, 8] })

/-- A 16 byte challenge. -/
def rand_example : List Nat := List.range 16

/-! ## Example inputs for the relay and the lists -/

/-- The station at program start, configured for a card behind the relay that
refuses the session. -/
def ms_boot_sap : osmocom_ms :=
  { ms_boot with
    settings := { ms_boot.settings with sim_type := GSM_SIM_TYPE_SAP }
    sap_open_rc := -1 }

/-- A card behind the relay that is present and being read, cursor at row `i`. -/
def ms_sap_card (i : Nat) : osmocom_ms :=
  { ms_reading i with
    subscr := { (ms_reading i).subscr with sim_type := gsm_subscr_sim_type.SAP } }

/-- A present card with a preferred list and a forbidden list. -/
def ms_lists : osmocom_ms :=
  { ms_home [na_of 262 2] with
    subscr := { (ms_home [na_of 262 2]).subscr with plmn_list := [{ plmn := plmn_262_02 }] } }

/-- A stand-in for `sim_apdu_resp` that consumes the response and reports success. -/
def sim_apdu_resp_ok (ms : osmocom_ms) (_data : List Nat) : Int × osmocom_ms := (0, ms)

/-! ## Distinct entries, and example inputs for failed insertions -/

/-- No two entries of a forbidden list are equal by `osmo_plmn_cmp`. -/
def plmn_na_distinct (l : List gsm_sub_plmn_na) : Prop :=
  l.Pairwise fun a b => osmo_plmn_cmp a.plmn b.plmn ≠ 0

instance (l : List gsm_sub_plmn_na) : Decidable (plmn_na_distinct l) := by
  unfold plmn_na_distinct; infer_instance

/-- The station at program start with the card-kind selector left at "none". -/
def ms_boot_none : osmocom_ms :=
  { ms_boot with settings := { ms_boot.settings with sim_type := GSM_SIM_TYPE_NONE } }

/-- The station at program start, configured for a test card that is GPRS attached
with a valid routing area. -/
def ms_boot_test_gprs : osmocom_ms :=
  { ms_boot_test with
    settings :=
      { ms_boot_test.settings with
        test_sim :=
          { ms_boot_test.settings.test_sim with
            locigprs := { ms_boot_test.settings.test_sim.locigprs with
                          imsi_attached := true, valid := true } } } }

/-- A present test card with the forbidden list `l` (a test card persists nothing). -/
def ms_test_card_list (l : List gsm_sub_plmn_na) : osmocom_ms :=
  { ms_test_card with subscr := { ms_test_card.subscr with plmn_na := l } }

/-! ## Frame lemmas and equations of the embedding -/

theorem try_alloc_ok (ms : osmocom_ms) (h : allocs_ok ms) :
    (try_alloc ms).1 = true ∧ allocs_ok (try_alloc ms).2 := by
  unfold try_alloc allocs_ok at *
  cases hl : ms.allocs with
  | nil => simp [hl]
  | cons b rest =>
    rw [hl] at h
    simp only [List.mem_cons, forall_eq_or_imp] at h
    simp only [h.1, true_and]
    exact h.2

theorem try_alloc_frame (ms : osmocom_ms) :
    (try_alloc ms).2.subscr = ms.subscr ∧ (try_alloc ms).2.trace = ms.trace ∧
    (try_alloc ms).2.settings = ms.settings ∧ (try_alloc ms).2.bcd_result = ms.bcd_result := by
  unfold try_alloc
  cases ms.allocs <;> simp

theorem sim_file_at_lt (i : Nat) (h : (sim_file_at i).func.isSome = true) : i < 12 := by
  by_contra hge
  have hge : 12 ≤ i := by omega
  rcases Nat.eq_or_lt_of_le hge with h12 | h13
  · subst h12
    simp [sim_file_at, subscr_sim_files, subscr_sim_file_end] at h
  · unfold sim_file_at at h
    rw [List.getD_eq_default _ _ (by simp [subscr_sim_files]; omega)] at h
    simp [subscr_sim_file_end] at h

theorem sim_file_at_end : (sim_file_at 12).func = none := by
  simp [sim_file_at, subscr_sim_files, subscr_sim_file_end]

theorem sim_file_at_some (i : Nat) (h : i < 12) : (sim_file_at i).func.isSome = true := by
  interval_cases i <;> simp [sim_file_at, subscr_sim_files]

theorem subscr_sim_request_end (ms : osmocom_ms)
    (h : (sim_file_at ms.subscr.sim_file_index).func = none) :
    subscr_sim_request ms =
      (0, osmo_signal_dispatch
            (if ms.subscr.lai.lac > 0x0000 ∧ ms.subscr.lai.lac < 0xfffe then
              { ms with subscr := { ms.subscr with plmn_valid := true,
                                                   plmn := ms.subscr.lai.plmn } }
             else ms)
            l23_subscr_signal.S_L23_SUBSCR_SIM_ATTACHED) := by
  unfold subscr_sim_request
  simp only [h]

theorem subscr_sim_request_job (ms : osmocom_ms)
    (h : (sim_file_at ms.subscr.sim_file_index).func.isSome = true) :
    subscr_sim_request ms =
      if (try_alloc ms).1 then
        (0, sim_job (try_alloc ms).2
              (sim_request_msg ms.subscr.sim_handle_query (sim_file_at ms.subscr.sim_file_index)))
      else (-ENOMEM, (try_alloc ms).2) := by
  unfold subscr_sim_request
  cases hf : (sim_file_at ms.subscr.sim_file_index).func with
  | none => simp [hf] at h
  | some f =>
    simp only [hf, gsm_sim_msgb_alloc, sim_request_msg]
    cases (try_alloc ms).1 <;> simp

/-- What `subscr_sim_request` leaves alone. -/
theorem subscr_sim_request_frame (ms : osmocom_ms) :
    (subscr_sim_request ms).2.subscr.sim_file_index = ms.subscr.sim_file_index ∧
    (subscr_sim_request ms).2.subscr.sim_valid = ms.subscr.sim_valid ∧
    (subscr_sim_request ms).2.subscr.sim_pin_required = ms.subscr.sim_pin_required ∧
    ∃ delta, (subscr_sim_request ms).2.trace = ms.trace ++ delta ∧
      effect.signal l23_subscr_signal.S_L23_SUBSCR_SIM_DETACHED ∉ delta := by
  cases hf : (sim_file_at ms.subscr.sim_file_index).func with
  | none =>
    rw [subscr_sim_request_end ms hf]
    simp only [osmo_signal_dispatch]
    split_ifs <;> simp
  | some f =>
    rw [subscr_sim_request_job ms (by simp [hf])]
    obtain ⟨hs, ht, -, -⟩ := try_alloc_frame ms
    cases hb : (try_alloc ms).1 <;> simp [hs, ht, sim_job]

/-- The finalisation of `subscr_sim_request` with the cursor at the last row. -/
theorem subscr_sim_request_at_end (ms : osmocom_ms) (h : ms.subscr.sim_file_index = 12) :
    (subscr_sim_request ms).1 = 0 ∧
    (subscr_sim_request ms).2.trace =
      ms.trace ++ [effect.signal l23_subscr_signal.S_L23_SUBSCR_SIM_ATTACHED] ∧
    (0x0000 < ms.subscr.lai.lac ∧ ms.subscr.lai.lac < 0xfffe →
      (subscr_sim_request ms).2.subscr =
        { ms.subscr with plmn_valid := true, plmn := ms.subscr.lai.plmn }) ∧
    (¬ (0x0000 < ms.subscr.lai.lac ∧ ms.subscr.lai.lac < 0xfffe) →
      (subscr_sim_request ms).2.subscr = ms.subscr) := by
  rw [subscr_sim_request_end ms (by rw [h]; exact sim_file_at_end)]
  refine ⟨rfl, ?_, ?_, ?_⟩
  · simp only [osmo_signal_dispatch]
    split_ifs <;> rfl
  · intro hv
    simp only [osmo_signal_dispatch]
    rw [if_pos hv]
  · intro hv
    simp only [osmo_signal_dispatch]
    rw [if_neg hv]

theorem osmo_plmn_to_bcd_length (p : osmo_plmn_id) : (osmo_plmn_to_bcd p).length = 3 := by
  unfold osmo_plmn_to_bcd
  split_ifs <;> rfl

theorem nas_slot_bytes_length (o : Option gsm_sub_plmn_na) : (nas_slot_bytes o).length = 3 := by
  cases o with
  | none => rfl
  | some na => exact osmo_plmn_to_bcd_length na.plmn

/-- The slots after the pass over the list: the last four entries (or all of them),
then empty slots. -/
theorem nas_fold (l : List gsm_sub_plmn_na) :
    l.foldl nas_step ([none, none, none, none], 0) =
      ((l.drop (l.length - 4)).map some ++ List.replicate (4 - min l.length 4) none,
       l.length) := by
  induction l using List.reverseRecOn with
  | nil => rfl
  | append_singleton l x ih =>
    rw [List.foldl_append, ih]
    simp only [List.foldl_cons, List.foldl_nil, List.length_append, List.length_singleton]
    by_cases h4 : l.length < 4
    · match l, h4 with
      | [], _ => rfl
      | [a], _ => rfl
      | [a, b], _ => rfl
      | [a, b, c], _ => rfl
      | _ :: _ :: _ :: _ :: _, h => exact absurd h (by simp)
    · have hge : 4 ≤ l.length := by omega
      have hlen : (l.drop (l.length - 4)).length = 4 := by simp; omega
      have hd : (l ++ [x]).drop (l.length + 1 - 4) = (l.drop (l.length - 4)).drop 1 ++ [x] := by
        rw [List.drop_append_of_le_length (by omega), List.drop_drop]
        congr 2
        omega
      rw [hd]
      match hdl : l.drop (l.length - 4), hlen with
      | [a, b, c, d], _ =>
        have hm : min l.length 4 = 4 := by omega
        have hm1 : min (l.length + 1) 4 = 4 := by omega
        simp [nas_step, h4, hm, hm1]

theorem plmn_na_body_eq (l : List gsm_sub_plmn_na) :
    plmn_na_body l =
      (l.drop (l.length - 4)).flatMap (fun na => osmo_plmn_to_bcd na.plmn) ++
      (List.replicate (4 - min l.length 4) [0xff, 0xff, 0xff]).flatten := by
  unfold plmn_na_body
  rw [nas_fold]
  have hlen : (l.drop (l.length - 4)).length = min l.length 4 := by simp; omega
  match hdl : l.drop (l.length - 4), hlen with
  | [], h =>
    have hm : min l.length 4 = 0 := h.symm
    simp [hm, List.range, List.range.loop, nas_slot_bytes, List.replicate]
  | [a], h =>
    have hm : min l.length 4 = 1 := h.symm
    simp [hm, List.range, List.range.loop, nas_slot_bytes, List.replicate]
  | [a, b], h =>
    have hm : min l.length 4 = 2 := h.symm
    simp [hm, List.range, List.range.loop, nas_slot_bytes, List.replicate]
  | [a, b, c], h =>
    have hm : min l.length 4 = 3 := h.symm
    simp [hm, List.range, List.range.loop, nas_slot_bytes, List.replicate]
  | [a, b, c, d], h =>
    have hm : min l.length 4 = 4 := h.symm
    simp [hm, List.range, List.range.loop, nas_slot_bytes, List.replicate]
  | _ :: _ :: _ :: _ :: _ :: _, h => simp at h; omega

theorem plmn_na_body_length (l : List gsm_sub_plmn_na) : (plmn_na_body l).length = 12 := by
  unfold plmn_na_body
  simp [List.range, List.range.loop, nas_slot_bytes_length]

/-- The update job that persists a forbidden list on a handle. -/
theorem subscr_write_plmn_na_simcard_eq (ms : osmocom_ms) :
    subscr_write_plmn_na_simcard ms =
      if (try_alloc ms).1 then
        (0, sim_job (try_alloc ms).2
              { sh := { handle := ms.subscr.sim_handle_update, job_type := SIM_JOB_UPDATE_BINARY,
                        path := [0x7f20], file := 0x6f7b, rec_no := 0, rec_mode := 0 },
                payload := plmn_na_body ms.subscr.plmn_na })
      else (-ENOMEM, (try_alloc ms).2) := by
  unfold subscr_write_plmn_na_simcard gsm_sim_msgb_alloc
  cases hb : (try_alloc ms).1 <;> simp [hb]

theorem subscr_write_plmn_na_simcard_frame (ms : osmocom_ms) :
    (subscr_write_plmn_na_simcard ms).2.subscr = ms.subscr ∧
    (allocs_ok ms → allocs_ok (subscr_write_plmn_na_simcard ms).2) := by
  rw [subscr_write_plmn_na_simcard_eq]
  obtain ⟨hs, -, -, -⟩ := try_alloc_frame ms
  constructor
  · cases (try_alloc ms).1 <;> simp [sim_job, hs]
  · intro h
    obtain ⟨h1, h2⟩ := try_alloc_ok ms h
    rw [if_pos h1]
    exact h2

theorem subscr_write_plmn_na_frame (ms : osmocom_ms) :
    (subscr_write_plmn_na ms).2.subscr = ms.subscr ∧
    (allocs_ok ms → allocs_ok (subscr_write_plmn_na ms).2) := by
  unfold subscr_write_plmn_na
  split_ifs with h
  · exact ⟨rfl, id⟩
  · split
    · exact subscr_write_plmn_na_simcard_frame ms
    · exact subscr_write_plmn_na_simcard_frame ms
    · exact ⟨rfl, id⟩
    · exact ⟨rfl, id⟩

theorem subscr_write_plmn_na_reader (ms : osmocom_ms) (hv : ms.subscr.sim_valid = true)
    (ht : ms.subscr.sim_type = gsm_subscr_sim_type.L1PHY ∨
          ms.subscr.sim_type = gsm_subscr_sim_type.SAP) :
    subscr_write_plmn_na ms = subscr_write_plmn_na_simcard ms := by
  unfold subscr_write_plmn_na
  rcases ht with ht | ht <;> simp [ht, hv]

theorem del_forbidden_loop_none (l : List gsm_sub_plmn_na) :
    del_forbidden_loop none l = ([], !l.isEmpty) := by
  induction l with
  | nil => rfl
  | cons a l ih => simp [del_forbidden_loop, ih]

theorem del_forbidden_loop_absent (p : osmo_plmn_id) (l : List gsm_sub_plmn_na)
    (h : ∀ na ∈ l, osmo_plmn_cmp na.plmn p ≠ 0) :
    del_forbidden_loop (some p) l = (l, false) := by
  induction l with
  | nil => rfl
  | cons a l ih =>
    have ha : osmo_plmn_cmp a.plmn p ≠ 0 := h a (List.mem_cons_self _ _)
    have hl := ih (fun na hna => h na (List.mem_cons_of_mem _ hna))
    simp [del_forbidden_loop, ha, hl]

theorem del_forbidden_loop_present (p : osmo_plmn_id) (l : List gsm_sub_plmn_na)
    (h : ∃ na ∈ l, osmo_plmn_cmp na.plmn p = 0) :
    ∃ pre x post, l = pre ++ x :: post ∧ osmo_plmn_cmp x.plmn p = 0 ∧
      (∀ y ∈ pre, osmo_plmn_cmp y.plmn p ≠ 0) ∧
      del_forbidden_loop (some p) l = (pre ++ post, true) := by
  induction l with
  | nil => simp at h
  | cons a l ih =>
    by_cases ha : osmo_plmn_cmp a.plmn p = 0
    · exact ⟨[], a, l, rfl, ha, by simp, by simp [del_forbidden_loop, ha]⟩
    · have hl : ∃ na ∈ l, osmo_plmn_cmp na.plmn p = 0 := by
        obtain ⟨na, hna, hc⟩ := h
        rcases List.mem_cons.mp hna with rfl | hmem
        · exact absurd hc ha
        · exact ⟨na, hmem, hc⟩
      obtain ⟨pre, x, post, hsplit, hx, hpre, hdel⟩ := ih hl
      refine ⟨a :: pre, x, post, by rw [hsplit]; rfl, hx, ?_, ?_⟩
      · intro y hy
        rcases List.mem_cons.mp hy with rfl | hmem
        · exact ha
        · exact hpre y hmem
      · simp [del_forbidden_loop, ha, hdel]

theorem try_alloc_keeps_ok (ms : osmocom_ms) (h : allocs_ok ms) : allocs_ok (try_alloc ms).2 := by
  unfold try_alloc allocs_ok at *
  cases hl : ms.allocs with
  | nil => simp [hl]
  | cons b rest =>
    rw [hl] at h
    simp only [List.mem_cons, forall_eq_or_imp] at h
    exact h.2

theorem subscr_sim_iccid_frame : decoder_frame subscr_sim_iccid := by
  intro ms data length
  exact ⟨rfl, rfl, rfl, rfl, rfl, id⟩

theorem subscr_sim_imsi_frame : decoder_frame subscr_sim_imsi := by
  intro ms data length
  unfold subscr_sim_imsi
  dsimp only
  split_ifs <;> exact ⟨rfl, rfl, rfl, rfl, rfl, id⟩

theorem subscr_sim_loci_frame : decoder_frame subscr_sim_loci := by
  intro ms data length
  unfold subscr_sim_loci
  dsimp only
  split_ifs <;> exact ⟨rfl, rfl, rfl, rfl, rfl, id⟩

theorem subscr_sim_locigprs_frame : decoder_frame subscr_sim_locigprs := by
  intro ms data length
  unfold subscr_sim_locigprs
  dsimp only
  split_ifs <;> exact ⟨rfl, rfl, rfl, rfl, rfl, id⟩

theorem subscr_sim_kc_frame : decoder_frame subscr_sim_kc := by
  intro ms data length
  unfold subscr_sim_kc
  dsimp only
  split_ifs <;> exact ⟨rfl, rfl, rfl, rfl, rfl, id⟩

theorem subscr_sim_hpplmn_frame : decoder_frame subscr_sim_hpplmn := by
  intro ms data length
  unfold subscr_sim_hpplmn
  dsimp only
  split_ifs <;> exact ⟨rfl, rfl, rfl, rfl, rfl, id⟩

theorem subscr_sim_spn_frame : decoder_frame subscr_sim_spn := by
  intro ms data length
  unfold subscr_sim_spn
  dsimp only
  split_ifs <;> exact ⟨rfl, rfl, rfl, rfl, rfl, id⟩

theorem subscr_sim_acc_frame : decoder_frame subscr_sim_acc := by
  intro ms data length
  unfold subscr_sim_acc
  dsimp only
  split_ifs <;> exact ⟨rfl, rfl, rfl, rfl, rfl, id⟩

theorem subscr_sim_msisdn_frame : decoder_frame subscr_sim_msisdn := by
  intro ms data length
  unfold subscr_sim_msisdn
  dsimp only
  split_ifs <;> exact ⟨rfl, rfl, rfl, rfl, rfl, id⟩

theorem subscr_sim_smsp_frame : decoder_frame subscr_sim_smsp := by
  intro ms data length
  unfold subscr_sim_smsp
  dsimp only
  split_ifs <;> exact ⟨rfl, rfl, rfl, rfl, rfl, id⟩

theorem subscr_sim_plmnsel_loop_frame (fuel : Nat) :
    decoder_frame (subscr_sim_plmnsel_loop fuel) := by
  induction fuel with
  | zero => intro ms data length; exact ⟨rfl, rfl, rfl, rfl, rfl, id⟩
  | succ n ih =>
    intro ms data length
    unfold subscr_sim_plmnsel_loop
    dsimp only
    obtain ⟨hs, ht, -, -⟩ := try_alloc_frame ms
    split_ifs with h1 h2 h3
    · exact ⟨rfl, rfl, rfl, rfl, rfl, id⟩
    · obtain ⟨a, b, c, d, e, f⟩ := ih
        { (try_alloc ms).2 with
          subscr := { (try_alloc ms).2.subscr with
                      plmn_list := (try_alloc ms).2.subscr.plmn_list ++
                        [{ plmn := osmo_plmn_id_zero }] } }
        ((osmo_plmn_to_bcd osmo_plmn_id_zero ++ data.drop 3).drop 3) (length - 3)
      refine ⟨a.trans ?_, b.trans ?_, c.trans ?_, d.trans ?_, e.trans ?_, fun hal => f ?_⟩
      · simp only [hs]
      · simp only [hs]
      · simp only [hs]
      · simp only [hs]
      · exact ht
      · exact try_alloc_keeps_ok ms hal
    · refine ⟨?_, ?_, ?_, ?_, ?_, try_alloc_keeps_ok ms⟩ <;> simp only [hs, ht]
    · exact ⟨rfl, rfl, rfl, rfl, rfl, id⟩

theorem subscr_sim_plmnsel_frame : decoder_frame subscr_sim_plmnsel := by
  intro ms data length
  unfold subscr_sim_plmnsel
  exact subscr_sim_plmnsel_loop_frame length _ data length

theorem subscr_sim_fplmn_loop_frame (fuel : Nat) :
    decoder_frame (subscr_sim_fplmn_loop fuel) := by
  induction fuel with
  | zero => intro ms data length; exact ⟨rfl, rfl, rfl, rfl, rfl, id⟩
  | succ n ih =>
    intro ms data length
    unfold subscr_sim_fplmn_loop
    dsimp only
    obtain ⟨hs, ht, -, -⟩ := try_alloc_frame ms
    split_ifs with h1 h2 h3
    · exact ⟨rfl, rfl, rfl, rfl, rfl, id⟩
    · obtain ⟨a, b, c, d, e, f⟩ := ih
        { (try_alloc ms).2 with
          subscr := { (try_alloc ms).2.subscr with
                      plmn_na := (try_alloc ms).2.subscr.plmn_na ++
                        [{ plmn := osmo_plmn_id_zero, cause := -1 }] } }
        ((osmo_plmn_to_bcd osmo_plmn_id_zero ++ data.drop 3).drop 3) (length - 3)
      refine ⟨a.trans ?_, b.trans ?_, c.trans ?_, d.trans ?_, e.trans ?_, fun hal => f ?_⟩
      · simp only [hs]
      · simp only [hs]
      · simp only [hs]
      · simp only [hs]
      · exact ht
      · exact try_alloc_keeps_ok ms hal
    · refine ⟨?_, ?_, ?_, ?_, ?_, try_alloc_keeps_ok ms⟩ <;> simp only [hs, ht]
    · exact ⟨rfl, rfl, rfl, rfl, rfl, id⟩

theorem subscr_sim_fplmn_frame : decoder_frame subscr_sim_fplmn := by
  intro ms data length
  unfold subscr_sim_fplmn
  exact subscr_sim_fplmn_loop_frame length _ data length

theorem subscr_sim_files_frame (i : Nat) (f : osmocom_ms → List Nat → Nat → Int × osmocom_ms)
    (h : (sim_file_at i).func = some f) : decoder_frame f := by
  by_cases hi : i < 12
  · interval_cases i <;> simp [sim_file_at, subscr_sim_files] at h <;> subst h
    · exact subscr_sim_iccid_frame
    · exact subscr_sim_imsi_frame
    · exact subscr_sim_loci_frame
    · exact subscr_sim_locigprs_frame
    · exact subscr_sim_kc_frame
    · exact subscr_sim_plmnsel_frame
    · exact subscr_sim_hpplmn_frame
    · exact subscr_sim_spn_frame
    · exact subscr_sim_acc_frame
    · exact subscr_sim_fplmn_frame
    · exact subscr_sim_msisdn_frame
    · exact subscr_sim_smsp_frame
  · exfalso
    have hge : 12 ≤ i := by omega
    rcases Nat.eq_or_lt_of_le hge with h12 | h13
    · subst h12
      simp [sim_file_at, subscr_sim_files, subscr_sim_file_end] at h
    · unfold sim_file_at at h
      rw [List.getD_eq_default _ _ (by simp [subscr_sim_files]; omega)] at h
      simp [subscr_sim_file_end] at h

theorem sim_open_frame (ms : osmocom_ms) :
    (sim_open ms).2.subscr = ms.subscr ∧ (sim_open ms).2.trace = ms.trace ∧
    (sim_open ms).2.settings = ms.settings ∧
    (allocs_ok ms → allocs_ok (sim_open ms).2) := by
  unfold sim_open
  obtain ⟨hs, ht, hset, -⟩ := try_alloc_frame ms
  dsimp only
  split_ifs
  · exact ⟨hs, ht, hset, try_alloc_keeps_ok ms⟩
  · exact ⟨hs, ht, hset, try_alloc_keeps_ok ms⟩

/-- The record and the environment after `gsm_subscr_init`, as far as the query
state machine reads them. -/
theorem gsm_subscr_init_frame (ms : osmocom_ms) :
    (gsm_subscr_init ms).2.subscr.sim_file_index = 0 ∧
    (gsm_subscr_init ms).2.subscr.sim_pin_required = false ∧
    (gsm_subscr_init ms).2.trace = ms.trace ∧
    (gsm_subscr_init ms).2.settings = ms.settings ∧
    (allocs_ok ms → allocs_ok (gsm_subscr_init ms).2) := by
  unfold gsm_subscr_init
  dsimp only
  refine ⟨?_, ?_, ?_, ?_, ?_⟩
  · simp only [(sim_open_frame _).1]; rfl
  · simp only [(sim_open_frame _).1]; rfl
  · simp only [(sim_open_frame _).2.1]
  · simp only [(sim_open_frame _).2.2.1]
  · intro hal
    exact (sim_open_frame _).2.2.2 ((sim_open_frame _).2.2.2 ((sim_open_frame _).2.2.2 hal))

theorem gsm_subscr_exit_frame (ms : osmocom_ms) :
    (gsm_subscr_exit ms).2.trace = ms.trace ∧
    (gsm_subscr_exit ms).2.settings = ms.settings ∧
    (gsm_subscr_exit ms).2.allocs = ms.allocs := by
  unfold gsm_subscr_exit sim_close
  dsimp only
  refine ⟨?_, ?_, ?_⟩ <;> split_ifs <;> rfl

/-- The insertion of a physical-reader card when no card is present and the
allocations succeed: the first file is requested. -/
theorem gsm_subscr_insert_l1phy (ms : osmocom_ms) (hnv : ms.subscr.sim_valid = false)
    (hty : ms.settings.sim_type = GSM_SIM_TYPE_L1PHY) (hal : allocs_ok ms) :
    (gsm_subscr_insert ms).1 = 0 ∧
    (gsm_subscr_insert ms).2.subscr.sim_file_index = 0 ∧
    (gsm_subscr_insert ms).2.subscr.sim_pin_required = false ∧
    allocs_ok (gsm_subscr_insert ms).2 ∧
    (gsm_subscr_insert ms).2.trace =
      ms.trace ++ sim_read_jobs (gsm_subscr_insert ms).2.subscr.sim_handle_query 1 := by
  obtain ⟨ms1, hms1⟩ : ∃ x : osmocom_ms, x = (gsm_subscr_exit ms).2 := ⟨_, rfl⟩
  obtain ⟨ms2, hms2⟩ : ∃ x : osmocom_ms, x = (gsm_subscr_init ms1).2 := ⟨_, rfl⟩
  obtain ⟨ms3, hms3⟩ : ∃ x : osmocom_ms,
      x = { ms2 with subscr := { ms2.subscr with
                                 sim_valid := true
                                 sim_type := gsm_subscr_sim_type.L1PHY
                                 sim_name := "sim".toList
                                 ustate := GSM_SIM_U2_NOT_UPDATED
                                 sim_file_index := 0 } } := ⟨_, rfl⟩
  obtain ⟨e1, e2, e3⟩ := gsm_subscr_exit_frame ms
  obtain ⟨i1, i2, i3, i4, i5⟩ := gsm_subscr_init_frame ms1
  rw [← hms1] at e1 e2 e3
  rw [← hms2] at i1 i2 i3 i4 i5
  have hal1 : allocs_ok ms1 := by unfold allocs_ok; rw [e3]; exact hal
  have hal3 : allocs_ok ms3 := by rw [hms3]; exact i5 hal1
  have hidx : ms3.subscr.sim_file_index = 0 := by rw [hms3]
  have hpin : ms3.subscr.sim_pin_required = false := by rw [hms3]; exact i2
  have htr : ms3.trace = ms.trace := by rw [hms3]; exact i3.trans e1
  have hty2 : ms2.settings.sim_type = GSM_SIM_TYPE_L1PHY := by rw [i4, e2]; exact hty
  have key : gsm_subscr_insert ms =
      if (subscr_sim_request ms3).1 < 0 then
        ((subscr_sim_request ms3).1,
          { (subscr_sim_request ms3).2 with
            subscr := { (subscr_sim_request ms3).2.subscr with sim_valid := false } })
      else ((subscr_sim_request ms3).1, (subscr_sim_request ms3).2) := by
    unfold gsm_subscr_insert
    simp only [hnv, Bool.false_eq_true, if_false, ← hms1, ← hms2, hty2, if_true,
      gsm_subscr_insert_simcard]
    rw [hms3]
  obtain ⟨ha, hal4⟩ := try_alloc_ok ms3 hal3
  obtain ⟨hs, ht, -, -⟩ := try_alloc_frame ms3
  have hreq : subscr_sim_request ms3 =
      (0, sim_job (try_alloc ms3).2
            (sim_request_msg ms3.subscr.sim_handle_query (sim_file_at 0))) := by
    rw [subscr_sim_request_job ms3 (by rw [hidx]; rfl), if_pos ha, hidx]
  rw [key, hreq]
  simp only [lt_self_iff_false, if_false, sim_job, hs, ht, hidx, hpin, htr]
  refine ⟨trivial, trivial, trivial, hal4, rfl⟩

theorem subscr_sim_request_keeps (ms : osmocom_ms) :
    (subscr_sim_request ms).2.subscr.sim_handle_query = ms.subscr.sim_handle_query ∧
    (allocs_ok ms → allocs_ok (subscr_sim_request ms).2) := by
  cases hf : (sim_file_at ms.subscr.sim_file_index).func with
  | none =>
    rw [subscr_sim_request_end ms hf]
    simp only [osmo_signal_dispatch]
    split_ifs <;> exact ⟨rfl, id⟩
  | some f =>
    rw [subscr_sim_request_job ms (by simp [hf])]
    obtain ⟨hs, -, -, -⟩ := try_alloc_frame ms
    split_ifs
    · exact ⟨by simp only [sim_job, hs], try_alloc_keeps_ok ms⟩
    · exact ⟨by simp only [hs], try_alloc_keeps_ok ms⟩

/-- One accepted success response outside a PIN cycle: the cursor advances by one
and the next row is requested, or the attach signal is sent after the last row. -/
theorem query_cb_accepted (ms : osmocom_ms) (msg : msgb) (i : Nat)
    (f : osmocom_ms → List Nat → Nat → Int × osmocom_ms)
    (hi : ms.subscr.sim_file_index = i) (hlt : i < 12)
    (hf : (sim_file_at i).func = some f)
    (hok : msg.sh.job_type ≠ SIM_JOB_ERROR)
    (hpin : ms.subscr.sim_pin_required = false)
    (hal : allocs_ok ms)
    (hrc : (f ms msg.payload (msg.payload.length % 65536 % 256)).1 = 0) :
    (subscr_sim_query_cb ms msg).subscr.sim_file_index = i + 1 ∧
    (subscr_sim_query_cb ms msg).subscr.sim_pin_required = false ∧
    (subscr_sim_query_cb ms msg).subscr.sim_handle_query = ms.subscr.sim_handle_query ∧
    allocs_ok (subscr_sim_query_cb ms msg) ∧
    (subscr_sim_query_cb ms msg).trace =
      ms.trace ++
        (if i + 1 < 12 then
          [effect.job (sim_request_msg ms.subscr.sim_handle_query (sim_file_at (i + 1)))]
         else [effect.signal l23_subscr_signal.S_L23_SUBSCR_SIM_ATTACHED]) := by
  subst hi
  obtain ⟨d1, d2, -, d4, d5, d6⟩ := subscr_sim_files_frame _ f hf ms msg.payload
    (msg.payload.length % 65536 % 256)
  obtain ⟨r, hr⟩ : ∃ x : osmocom_ms,
      x = (f ms msg.payload (msg.payload.length % 65536 % 256)).2 := ⟨_, rfl⟩
  rw [← hr] at d1 d2 d4 d5 d6
  obtain ⟨ms1, hms1⟩ : ∃ x : osmocom_ms,
      x = { r with subscr := { r.subscr with
                               sim_file_index := (r.subscr.sim_file_index + 1) % 256 } } :=
    ⟨_, rfl⟩
  have key : subscr_sim_query_cb ms msg = (subscr_sim_request ms1).2 := by
    rw [hms1, hr]
    unfold subscr_sim_query_cb
    simp only [hok, if_false, hpin, Bool.false_eq_true, hf, hrc, ne_eq, not_true_eq_false,
      false_and, subscr_sim_query_next]
  have hidx : ms1.subscr.sim_file_index = ms.subscr.sim_file_index + 1 := by
    rw [hms1]
    show (r.subscr.sim_file_index + 1) % 256 = _
    rw [d1]
    exact Nat.mod_eq_of_lt (by omega)
  have hp1 : ms1.subscr.sim_pin_required = false := by rw [hms1]; exact d2.trans hpin
  have hq1 : ms1.subscr.sim_handle_query = ms.subscr.sim_handle_query := by rw [hms1]; exact d4
  have htr : ms1.trace = ms.trace := by rw [hms1]; exact d5
  have hal1 : allocs_ok ms1 := by rw [hms1]; exact d6 hal
  rw [key]
  obtain ⟨h1, -, h3, -⟩ := subscr_sim_request_frame ms1
  obtain ⟨k1, k2⟩ := subscr_sim_request_keeps ms1
  refine ⟨by rw [h1, hidx], by rw [h3, hp1], by rw [k1, hq1], k2 hal1, ?_⟩
  by_cases hn : ms.subscr.sim_file_index + 1 < 12
  · rw [subscr_sim_request_job ms1 (sim_file_at_some _ (by rw [hidx]; exact hn)),
      if_pos (try_alloc_ok ms1 hal1).1, if_pos hn]
    simp only [sim_job, (try_alloc_frame ms1).2.1, hq1, htr, hidx]
  · have h12 : ms1.subscr.sim_file_index = 12 := by omega
    rw [(subscr_sim_request_at_end ms1 h12).2.1, if_neg hn, htr]

theorem sim_read_jobs_succ (hq n : Nat) :
    sim_read_jobs hq (n + 1) =
      sim_read_jobs hq n ++ [effect.job (sim_request_msg hq (sim_file_at n))] := by
  unfold sim_read_jobs
  rw [List.range_succ, List.map_append]
  rfl

theorem responses_accepted_take :
    ∀ (msgs : List msgb) (ms : osmocom_ms) (k : Nat),
      responses_accepted ms msgs = true → responses_accepted ms (msgs.take k) = true := by
  intro msgs
  induction msgs with
  | nil => intro ms k h; simpa using h
  | cons m rest ih =>
    intro ms k h
    cases k with
    | zero => rfl
    | succ k =>
      simp only [List.take_succ_cons, responses_accepted, Bool.and_eq_true] at h ⊢
      exact ⟨h.1, ih _ k h.2⟩

/-- The trace of a run of accepted success responses that starts with the cursor at
row `i`, outside a PIN cycle. -/
theorem sim_query_run_accepted (base : List effect) (hq : Nat) :
    ∀ (msgs : List msgb) (ms : osmocom_ms) (i : Nat),
      ms.subscr.sim_file_index = i → i + msgs.length ≤ 12 →
      ms.subscr.sim_pin_required = false → allocs_ok ms →
      ms.subscr.sim_handle_query = hq →
      ms.trace = base ++ sim_read_jobs hq (min (i + 1) 12) ++
        (if i = 12 then [effect.signal l23_subscr_signal.S_L23_SUBSCR_SIM_ATTACHED] else []) →
      responses_accepted ms msgs = true →
      (sim_query_run ms msgs).trace =
        base ++ sim_read_jobs hq (min (i + msgs.length + 1) 12) ++
          (if i + msgs.length = 12 then
            [effect.signal l23_subscr_signal.S_L23_SUBSCR_SIM_ATTACHED] else []) := by
  intro msgs
  induction msgs with
  | nil =>
    intro ms i _ _ _ _ _ htr _
    simpa [sim_query_run] using htr
  | cons m rest ih =>
    intro ms i hi hlen hpin hal hhq htr hacc
    have hlt : i < 12 := by simp only [List.length_cons] at hlen; omega
    simp only [responses_accepted, Bool.and_eq_true, bne_iff_ne, ne_eq] at hacc
    obtain ⟨⟨hok, hrc⟩, hrest⟩ := hacc
    obtain ⟨f, hf⟩ := Option.isSome_iff_exists.mp (sim_file_at_some i hlt)
    rw [hi, hf] at hrc
    simp only [beq_iff_eq] at hrc
    obtain ⟨s1, s2, s3, s4, s5⟩ := query_cb_accepted ms m i f hi hlt hf hok hpin hal hrc
    have hstep : (subscr_sim_query_cb ms m).trace =
        base ++ sim_read_jobs hq (min (i + 1 + 1) 12) ++
          (if i + 1 = 12 then
            [effect.signal l23_subscr_signal.S_L23_SUBSCR_SIM_ATTACHED] else []) := by
      rw [s5, htr, hhq, if_neg (by omega : ¬ i = 12)]
      by_cases hn : i + 1 < 12
      · rw [if_pos hn, if_neg (by omega : ¬ i + 1 = 12),
          (by omega : min (i + 1) 12 = i + 1), (by omega : min (i + 1 + 1) 12 = i + 1 + 1),
          sim_read_jobs_succ hq (i + 1)]
        simp only [List.append_nil, List.append_assoc]
      · rw [if_neg hn, if_pos (by omega : i + 1 = 12),
          (by omega : min (i + 1) 12 = 12), (by omega : min (i + 1 + 1) 12 = 12)]
        simp only [List.append_nil, List.append_assoc]
    have := ih (subscr_sim_query_cb ms m) (i + 1) s1
      (by simp only [List.length_cons] at hlen; omega) s2 s4 (s3.trans hhq) hstep hrest
    simp only [sim_query_run, List.foldl_cons, List.length_cons] at this ⊢
    rw [this]
    congr 3 <;> omega

/-! ## The claims -/

/-- C1: an error response on the query handle whose cause is none of PIN1_REQUIRED,
PIN1_BLOCKED, PUC_BLOCKED, arriving with the cursor `i` at an optional row of the
file table (decode function present, `mandatory = 0`), sets `sim_file_index` to
`i + 1`, leaves `sim_valid` as it was, and appends to the trace nothing that is a
SIM_DETACHED signal. -/
theorem query_cb_optional_error_skips (ms : osmocom_ms) (msg : msgb) (i : Nat)
    (hi : ms.subscr.sim_file_index = i)
    (hfunc : (sim_file_at i).func.isSome = true)
    (hopt : (sim_file_at i).mandatory = 0)
    (herr : msg.sh.job_type = SIM_JOB_ERROR)
    (hc1 : rd msg.payload 0 ≠ SIM_CAUSE_PIN1_REQUIRED)
    (hc2 : rd msg.payload 0 ≠ SIM_CAUSE_PIN1_BLOCKED)
    (hc3 : rd msg.payload 0 ≠ SIM_CAUSE_PUC_BLOCKED) :
    (subscr_sim_query_cb ms msg).subscr.sim_file_index = i + 1 ∧
    (subscr_sim_query_cb ms msg).subscr.sim_valid = ms.subscr.sim_valid ∧
    ∃ delta, (subscr_sim_query_cb ms msg).trace = ms.trace ++ delta ∧
      effect.signal l23_subscr_signal.S_L23_SUBSCR_SIM_DETACHED ∉ delta := by
  have hlt : i < 12 := sim_file_at_lt i hfunc
  subst hi
  obtain ⟨ms1, hms1⟩ : ∃ x : osmocom_ms,
      x = { ms with subscr := { ms.subscr with
                                sim_file_index := (ms.subscr.sim_file_index + 1) % 256 } } :=
    ⟨_, rfl⟩
  have key : subscr_sim_query_cb ms msg = (subscr_sim_request ms1).2 := by
    rw [hms1]
    unfold subscr_sim_query_cb
    simp only [herr, if_true, hc1, hc2, hc3, if_false, hfunc, hopt, and_self,
      subscr_sim_query_next]
  have hidx : ms1.subscr.sim_file_index = ms.subscr.sim_file_index + 1 := by
    rw [hms1]; exact Nat.mod_eq_of_lt (by omega)
  have hv : ms1.subscr.sim_valid = ms.subscr.sim_valid := by rw [hms1]
  have htr : ms1.trace = ms.trace := by rw [hms1]
  rw [key]
  obtain ⟨h1, h2, -, h4⟩ := subscr_sim_request_frame ms1
  refine ⟨by rw [h1, hidx], by rw [h2, hv], ?_⟩
  rw [← htr]
  exact h4

/-- Witness of C1: a card error (cause SIM_ERROR) while EF-Kc, row 4, is requested. -/
theorem query_cb_optional_error_skips_witness :
    (subscr_sim_query_cb (ms_reading 4)
        (sim_rsp_error SIM_CAUSE_SIM_ERROR 0)).subscr.sim_file_index = 5 ∧
    (subscr_sim_query_cb (ms_reading 4)
        (sim_rsp_error SIM_CAUSE_SIM_ERROR 0)).subscr.sim_valid = true := by
  have h := query_cb_optional_error_skips (ms_reading 4) (sim_rsp_error SIM_CAUSE_SIM_ERROR 0) 4
    rfl rfl rfl rfl (by decide) (by decide) (by decide)
  exact ⟨h.1, h.2.1⟩

/-- C2: an error response on the query handle whose cause is none of PIN1_REQUIRED,
PIN1_BLOCKED, PUC_BLOCKED, arriving with the cursor `i` at a mandatory row of the
file table, sets `sim_valid` to false and appends to the trace the two notifications
and exactly one SIM_DETACHED signal. -/
theorem query_cb_mandatory_error_detaches (ms : osmocom_ms) (msg : msgb) (i : Nat)
    (hi : ms.subscr.sim_file_index = i)
    (hmand : (sim_file_at i).mandatory ≠ 0)
    (herr : msg.sh.job_type = SIM_JOB_ERROR)
    (hc1 : rd msg.payload 0 ≠ SIM_CAUSE_PIN1_REQUIRED)
    (hc2 : rd msg.payload 0 ≠ SIM_CAUSE_PIN1_BLOCKED)
    (hc3 : rd msg.payload 0 ≠ SIM_CAUSE_PUC_BLOCKED) :
    (subscr_sim_query_cb ms msg).subscr.sim_valid = false ∧
    (subscr_sim_query_cb ms msg).trace =
      ms.trace ++ [effect.notify vty_notice.clear, effect.notify vty_notice.sim_failed,
                   effect.signal l23_subscr_signal.S_L23_SUBSCR_SIM_DETACHED] := by
  subst hi
  unfold subscr_sim_query_cb
  simp [herr, hc1, hc2, hc3, hmand, osmo_signal_dispatch, l23_vty_ms_notify]

/-- Witness of C2: the card is absent (cause NO_SIM) while the ICCID, row 0, is
requested. -/
theorem query_cb_mandatory_error_detaches_witness :
    (subscr_sim_query_cb (ms_reading 0) (sim_rsp_error SIM_CAUSE_NO_SIM 0)).subscr.sim_valid
      = false ∧
    (subscr_sim_query_cb (ms_reading 0) (sim_rsp_error SIM_CAUSE_NO_SIM 0)).trace =
      (ms_reading 0).trace ++
        [effect.notify vty_notice.clear, effect.notify vty_notice.sim_failed,
         effect.signal l23_subscr_signal.S_L23_SUBSCR_SIM_DETACHED] :=
  query_cb_mandatory_error_detaches (ms_reading 0) (sim_rsp_error SIM_CAUSE_NO_SIM 0) 0
    rfl (by decide) rfl (by decide) (by decide) (by decide)

/-- C3, as stated, fails: with the cursor at the terminating row (all files read,
a later PIN operation having been answered with a PIN error), a success response
clears the PIN flag but no read job is issued; the only effect is a SIM_ATTACHED
signal. -/
theorem query_cb_pin_unlock_at_end_issues_no_job :
    (ms_pin_wait 12).subscr.sim_pin_required = true ∧
    (sim_rsp_ok []).sh.job_type ≠ SIM_JOB_ERROR ∧
    (subscr_sim_query_cb (ms_pin_wait 12) (sim_rsp_ok [])).trace =
      [effect.signal l23_subscr_signal.S_L23_SUBSCR_SIM_ATTACHED] := by
  decide

/-- C3, amended: whenever `sim_pin_required` is set and a success response arrives
on the query handle, the flag is cleared and `sim_file_index` keeps its value; if
the cursor is at a row with a decode function (below 12) and the job allocation
succeeds, exactly the read job of that same row is issued again; if the cursor is
at the terminating row, no job is issued and SIM_ATTACHED is signalled. -/
theorem query_cb_pin_unlock_reissues (ms : osmocom_ms) (msg : msgb)
    (hpin : ms.subscr.sim_pin_required = true)
    (hok : msg.sh.job_type ≠ SIM_JOB_ERROR) :
    (subscr_sim_query_cb ms msg).subscr.sim_pin_required = false ∧
    (subscr_sim_query_cb ms msg).subscr.sim_file_index = ms.subscr.sim_file_index ∧
    (ms.subscr.sim_file_index < 12 → allocs_ok ms →
      (subscr_sim_query_cb ms msg).trace =
        ms.trace ++ [effect.job (sim_request_msg ms.subscr.sim_handle_query
                                  (sim_file_at ms.subscr.sim_file_index))]) ∧
    (ms.subscr.sim_file_index = 12 →
      (subscr_sim_query_cb ms msg).trace =
        ms.trace ++ [effect.signal l23_subscr_signal.S_L23_SUBSCR_SIM_ATTACHED]) := by
  obtain ⟨ms1, hms1⟩ : ∃ x : osmocom_ms,
      x = { ms with subscr := { ms.subscr with sim_pin_required := false } } := ⟨_, rfl⟩
  have key : subscr_sim_query_cb ms msg = (subscr_sim_request ms1).2 := by
    rw [hms1]
    unfold subscr_sim_query_cb
    simp only [hok, if_false, hpin, if_true]
  have hidx : ms1.subscr.sim_file_index = ms.subscr.sim_file_index := by rw [hms1]
  have hpr : ms1.subscr.sim_pin_required = false := by rw [hms1]
  have htr : ms1.trace = ms.trace := by rw [hms1]
  have hq : ms1.subscr.sim_handle_query = ms.subscr.sim_handle_query := by rw [hms1]
  have hal1 : allocs_ok ms → allocs_ok ms1 := by rw [hms1]; exact id
  rw [key]
  obtain ⟨h1, -, h3, -⟩ := subscr_sim_request_frame ms1
  refine ⟨by rw [h3, hpr], by rw [h1, hidx], ?_, ?_⟩
  · intro hlt hal
    have ha := try_alloc_ok ms1 (hal1 hal)
    obtain ⟨-, ht, -, -⟩ := try_alloc_frame ms1
    rw [subscr_sim_request_job ms1 (sim_file_at_some _ (by rw [hidx]; exact hlt)), if_pos ha.1]
    simp only [sim_job]
    rw [ht, htr, hq, hidx]
  · intro h12
    rw [(subscr_sim_request_at_end ms1 (by rw [hidx]; exact h12)).2.1, htr]

/-- Witness of C3 amended: the PIN was asked for while the IMSI, row 1, was
requested; after the unlock the IMSI read job is issued again. -/
theorem query_cb_pin_unlock_reissues_witness :
    (subscr_sim_query_cb (ms_pin_wait 1) (sim_rsp_ok [])).subscr.sim_pin_required = false ∧
    (subscr_sim_query_cb (ms_pin_wait 1) (sim_rsp_ok [])).subscr.sim_file_index = 1 ∧
    (subscr_sim_query_cb (ms_pin_wait 1) (sim_rsp_ok [])).trace =
      (ms_pin_wait 1).trace ++
        [effect.job (sim_request_msg (ms_pin_wait 1).subscr.sim_handle_query
                      (sim_file_at (ms_pin_wait 1).subscr.sim_file_index))] := by
  have h := query_cb_pin_unlock_reissues (ms_pin_wait 1) (sim_rsp_ok []) rfl (by decide)
  exact ⟨h.1, h.2.1, h.2.2.1 (by decide) (by decide)⟩

/-- C4, the code at the failing input: the IMSI, row 1 and mandatory, is requested
and the card answers with a success response of zero length, which `subscr_sim_imsi`
rejects.  The callback only notifies the user: `sim_valid` stays true and no
SIM_DETACHED signal is sent (the card-error arm of the same callback does both). -/
theorem query_cb_mandatory_decode_failure_keeps_card :
    (sim_file_at (ms_reading 1).subscr.sim_file_index).mandatory = 1 ∧
    (subscr_sim_imsi (ms_reading 1) [] 0).1 ≠ 0 ∧
    (subscr_sim_query_cb (ms_reading 1) (sim_rsp_ok [])).subscr.sim_valid = true ∧
    (subscr_sim_query_cb (ms_reading 1) (sim_rsp_ok [])).trace =
      [effect.notify vty_notice.clear, effect.notify vty_notice.sim_data_invalid] := by
  decide

/-- C5: `subscr_sim_request` with the cursor at the terminating row returns 0,
issues no job and appends exactly one SIM_ATTACHED signal to the trace; if
`0x0000 < lai.lac < 0xfffe` the record changes only in `plmn_valid := true` and
`plmn := lai.plmn`; otherwise the record is unchanged. -/
theorem sim_request_finalize (ms : osmocom_ms) (h : ms.subscr.sim_file_index = 12) :
    (subscr_sim_request ms).1 = 0 ∧
    (subscr_sim_request ms).2.trace =
      ms.trace ++ [effect.signal l23_subscr_signal.S_L23_SUBSCR_SIM_ATTACHED] ∧
    (0x0000 < ms.subscr.lai.lac ∧ ms.subscr.lai.lac < 0xfffe →
      (subscr_sim_request ms).2.subscr =
        { ms.subscr with plmn_valid := true, plmn := ms.subscr.lai.plmn }) ∧
    (¬ (0x0000 < ms.subscr.lai.lac ∧ ms.subscr.lai.lac < 0xfffe) →
      (subscr_sim_request ms).2.subscr = ms.subscr) :=
  subscr_sim_request_at_end ms h

/-- Witness of C5: a card whose location area code is 0 (invalid). -/
theorem sim_request_finalize_witness :
    (subscr_sim_request (ms_reading 12)).1 = 0 ∧
    (subscr_sim_request (ms_reading 12)).2.trace =
      (ms_reading 12).trace ++ [effect.signal l23_subscr_signal.S_L23_SUBSCR_SIM_ATTACHED] ∧
    (subscr_sim_request (ms_reading 12)).2.subscr = (ms_reading 12).subscr := by
  have h := sim_request_finalize (ms_reading 12) rfl
  exact ⟨h.1, h.2.1, h.2.2.2 (by decide)⟩

/-- C6: `gsm_subscr_insert` with no card present, a physical-reader card configured
and the allocations succeeding returns 0 and issues the read job of row 0; if the
twelve responses that follow are success responses accepted by the decode function
under the cursor, then after `k < 12` of them the trace has grown by exactly the
read jobs of rows 0 to `k`, in table order on the query handle, and after the
twelfth by the twelve read jobs followed by exactly one SIM_ATTACHED signal; no
SIM_DETACHED signal is among them. -/
theorem insert_simcard_reads_table (ms : osmocom_ms) (msgs : List msgb)
    (hnv : ms.subscr.sim_valid = false)
    (hty : ms.settings.sim_type = GSM_SIM_TYPE_L1PHY)
    (hal : allocs_ok ms)
    (hlen : msgs.length = 12)
    (hacc : responses_accepted (gsm_subscr_insert ms).2 msgs = true) :
    (gsm_subscr_insert ms).1 = 0 ∧
    (∀ k, k < 12 →
      (sim_query_run (gsm_subscr_insert ms).2 (msgs.take k)).trace =
        ms.trace ++ sim_read_jobs (gsm_subscr_insert ms).2.subscr.sim_handle_query (k + 1)) ∧
    (sim_query_run (gsm_subscr_insert ms).2 msgs).trace =
      ms.trace ++ sim_read_jobs (gsm_subscr_insert ms).2.subscr.sim_handle_query 12 ++
        [effect.signal l23_subscr_signal.S_L23_SUBSCR_SIM_ATTACHED] ∧
    effect.signal l23_subscr_signal.S_L23_SUBSCR_SIM_DETACHED ∉
      sim_read_jobs (gsm_subscr_insert ms).2.subscr.sim_handle_query 12 ++
        [effect.signal l23_subscr_signal.S_L23_SUBSCR_SIM_ATTACHED] := by
  obtain ⟨h0, hidx, hpin, hal1, htr⟩ := gsm_subscr_insert_l1phy ms hnv hty hal
  have htr0 : (gsm_subscr_insert ms).2.trace =
      ms.trace ++ sim_read_jobs (gsm_subscr_insert ms).2.subscr.sim_handle_query (min (0 + 1) 12) ++
        (if 0 = 12 then [effect.signal l23_subscr_signal.S_L23_SUBSCR_SIM_ATTACHED] else []) := by
    rw [htr]; simp
  refine ⟨h0, ?_, ?_, ?_⟩
  · intro k hk
    have hlk : (msgs.take k).length = k := by rw [List.length_take]; omega
    have := sim_query_run_accepted ms.trace _ (msgs.take k) (gsm_subscr_insert ms).2 0 hidx
      (by omega) hpin hal1 rfl htr0 (responses_accepted_take msgs _ k hacc)
    rw [this, hlk, if_neg (by omega), (by omega : min (0 + k + 1) 12 = k + 1)]
    simp
  · have := sim_query_run_accepted ms.trace _ msgs (gsm_subscr_insert ms).2 0 hidx
      (by omega) hpin hal1 rfl htr0 hacc
    rw [this, hlen]
    simp
  · simp [sim_read_jobs]

/-- Witness of C6: the station at program start and twelve well-formed files. -/
theorem insert_simcard_reads_table_witness :
    (gsm_subscr_insert ms_boot).1 = 0 ∧
    (sim_query_run (gsm_subscr_insert ms_boot).2 sim_rsps_accepted).trace =
      ms_boot.trace ++
        sim_read_jobs (gsm_subscr_insert ms_boot).2.subscr.sim_handle_query 12 ++
        [effect.signal l23_subscr_signal.S_L23_SUBSCR_SIM_ATTACHED] := by
  have h := insert_simcard_reads_table ms_boot sim_rsps_accepted rfl rfl (by decide) rfl
    (by decide)
  exact ⟨h.1, h.2.2.1⟩

/-- C7: if the forbidden list already holds an entry equal to `p` (by
`osmo_plmn_cmp`) and the allocations succeed, `gsm_subscr_add_forbidden_plmn`
removes the first such entry and appends the new entry for `p`: the list keeps its
length, its last element is the entry for `p`, and all other entries keep their
relative order. -/
theorem add_forbidden_existing_moves_to_tail (ms : osmocom_ms) (p : osmo_plmn_id)
    (cause : Nat)
    (hmem : ∃ na ∈ ms.subscr.plmn_na, osmo_plmn_cmp na.plmn p = 0)
    (hal : allocs_ok ms) :
    ∃ pre x post,
      ms.subscr.plmn_na = pre ++ x :: post ∧
      osmo_plmn_cmp x.plmn p = 0 ∧
      (∀ y ∈ pre, osmo_plmn_cmp y.plmn p ≠ 0) ∧
      (gsm_subscr_add_forbidden_plmn ms p cause).2.subscr.plmn_na =
        pre ++ post ++
          [{ plmn := p, cause := if cause % 256 ≠ 0 then ((cause % 256 : Nat) : Int) else -1 }] ∧
      (gsm_subscr_add_forbidden_plmn ms p cause).2.subscr.plmn_na.length =
        ms.subscr.plmn_na.length := by
  obtain ⟨pre, x, post, hsplit, hx, hpre, hdel⟩ :=
    del_forbidden_loop_present p ms.subscr.plmn_na hmem
  refine ⟨pre, x, post, hsplit, hx, hpre, ?_⟩
  obtain ⟨ms1, hms1⟩ : ∃ y : osmocom_ms,
      y = (gsm_subscr_del_forbidden_plmn ms (some p)).2 := ⟨_, rfl⟩
  have hl1 : ms1.subscr.plmn_na = pre ++ post ∧ allocs_ok ms1 := by
    rw [hms1]
    unfold gsm_subscr_del_forbidden_plmn
    rw [hdel]
    simp only [if_true]
    obtain ⟨hs, ha⟩ := subscr_write_plmn_na_frame
      { ms with subscr := { ms.subscr with plmn_na := pre ++ post } }
    exact ⟨by rw [hs], ha hal⟩
  obtain ⟨ha, -⟩ := try_alloc_ok ms1 hl1.2
  obtain ⟨hs, -, -, -⟩ := try_alloc_frame ms1
  have key : (gsm_subscr_add_forbidden_plmn ms p cause).2.subscr.plmn_na =
      pre ++ post ++
        [{ plmn := p, cause := if cause % 256 ≠ 0 then ((cause % 256 : Nat) : Int) else -1 }] := by
    unfold gsm_subscr_add_forbidden_plmn
    simp only [← hms1, ha, if_true, hs]
    generalize (if cause % 256 ≠ 0 then ((cause % 256 : Nat) : Int) else -1) = c
    by_cases hh : (ms1.subscr.sim_valid &&
        gsm_match_mnc p.mcc p.mnc p.mnc_3_digits ms1.subscr.imsi) = true
    · simp only [hh, if_true, hl1.1]
    · simp only [hh, Bool.false_eq_true, if_false, (subscr_write_plmn_na_frame _).1, hl1.1]
  refine ⟨key, ?_⟩
  rw [key, hsplit]
  simp only [List.length_append, List.length_cons, List.length_nil]
  omega

/-- Witness of C7: 262-01 is added again, with cause 11, to the list 262-01, 262-02. -/
theorem add_forbidden_existing_moves_to_tail_witness :
    (gsm_subscr_add_forbidden_plmn (ms_forbidden [na_of 262 1, na_of 262 2])
        { mcc := 262, mnc := 1, mnc_3_digits := false } 11).2.subscr.plmn_na.length = 2 := by
  obtain ⟨_, _, _, _, _, _, _, h⟩ :=
    add_forbidden_existing_moves_to_tail (ms_forbidden [na_of 262 1, na_of 262 2])
      { mcc := 262, mnc := 1, mnc_3_digits := false } 11
      ⟨na_of 262 1, by decide, by decide⟩ (by decide)
  exact h

/-- C8: when its job allocation succeeds, `subscr_write_plmn_na_simcard` issues on
the update handle one UPDATE_BINARY job for file 0x6f7b under 0x7f20 whose body is
the 3-byte BCD encodings of the last `min n 4` entries of the forbidden list, in
list order, followed by `4 - min n 4` triplets ff ff ff; the body has 12 bytes. -/
theorem write_plmn_na_simcard_body (ms : osmocom_ms) (hal : allocs_ok ms) :
    (subscr_write_plmn_na_simcard ms).2.trace =
      ms.trace ++ [effect.job
        { sh := { handle := ms.subscr.sim_handle_update, job_type := SIM_JOB_UPDATE_BINARY,
                  path := [0x7f20], file := 0x6f7b, rec_no := 0, rec_mode := 0 },
          payload :=
            (ms.subscr.plmn_na.drop (ms.subscr.plmn_na.length - 4)).flatMap
                (fun na => osmo_plmn_to_bcd na.plmn) ++
              (List.replicate (4 - min ms.subscr.plmn_na.length 4)
                [0xff, 0xff, 0xff]).flatten }] ∧
    ((ms.subscr.plmn_na.drop (ms.subscr.plmn_na.length - 4)).flatMap
          (fun na => osmo_plmn_to_bcd na.plmn) ++
        (List.replicate (4 - min ms.subscr.plmn_na.length 4)
          [0xff, 0xff, 0xff]).flatten).length = 12 := by
  obtain ⟨ha, -⟩ := try_alloc_ok ms hal
  obtain ⟨-, htt, -, -⟩ := try_alloc_frame ms
  rw [subscr_write_plmn_na_simcard_eq, if_pos ha, ← plmn_na_body_eq]
  refine ⟨?_, plmn_na_body_length _⟩
  simp only [sim_job]
  rw [htt]

/-- Witness of C8: a list of six entries; the two oldest are not persisted. -/
theorem write_plmn_na_simcard_body_witness :
    (subscr_write_plmn_na_simcard
        (ms_forbidden [na_of 262 1, na_of 262 2, na_of 262 3, na_of 262 7, na_of 310 26,
                       na_of 1 1])).2.trace =
      [effect.job
        { sh := { handle := 2, job_type := SIM_JOB_UPDATE_BINARY, path := [0x7f20],
                  file := 0x6f7b, rec_no := 0, rec_mode := 0 },
          payload := [0x62, 0xf2, 0x30, 0x62, 0xf2, 0x70, 0x13, 0xf0, 0x62,
                      0x00, 0xf1, 0x10] }] :=
  (write_plmn_na_simcard_body
    (ms_forbidden [na_of 262 1, na_of 262 2, na_of 262 3, na_of 262 7, na_of 310 26,
                   na_of 1 1]) (by decide)).1

/-- C9, as stated, fails: on a valid physical-reader card with an empty forbidden
list, deletion with a NULL argument issues no update job (nothing was deleted). -/
theorem del_forbidden_null_on_empty_list_issues_no_job :
    (ms_forbidden []).subscr.sim_valid = true ∧
    (ms_forbidden []).subscr.sim_type = gsm_subscr_sim_type.L1PHY ∧
    (gsm_subscr_del_forbidden_plmn (ms_forbidden []) none).2.subscr.plmn_na = [] ∧
    (gsm_subscr_del_forbidden_plmn (ms_forbidden []) none).2.trace =
      (ms_forbidden []).trace := by
  decide

/-- C9, amended: on a valid physical or remote card, `gsm_subscr_del_forbidden_plmn`
with a NULL argument leaves the forbidden list empty; if the list was not empty and
the job allocation succeeds it issues exactly one update job for file 0x6f7b (twelve
bytes ff); if the list was already empty it issues no job and changes nothing. -/
theorem del_forbidden_null_flushes (ms : osmocom_ms) (hv : ms.subscr.sim_valid = true)
    (ht : ms.subscr.sim_type = gsm_subscr_sim_type.L1PHY ∨
          ms.subscr.sim_type = gsm_subscr_sim_type.SAP) :
    (gsm_subscr_del_forbidden_plmn ms none).2.subscr.plmn_na = [] ∧
    (ms.subscr.plmn_na ≠ [] → allocs_ok ms →
      (gsm_subscr_del_forbidden_plmn ms none).2.trace =
        ms.trace ++ [effect.job
          { sh := { handle := ms.subscr.sim_handle_update, job_type := SIM_JOB_UPDATE_BINARY,
                    path := [0x7f20], file := 0x6f7b, rec_no := 0, rec_mode := 0 },
            payload := List.replicate 12 0xff }]) ∧
    (ms.subscr.plmn_na = [] → (gsm_subscr_del_forbidden_plmn ms none).2 = ms) := by
  obtain ⟨ms1, hms1⟩ : ∃ x : osmocom_ms,
      x = { ms with subscr := { ms.subscr with plmn_na := [] } } := ⟨_, rfl⟩
  have hl1 : ms1.subscr.plmn_na = [] := by rw [hms1]
  have hv1 : ms1.subscr.sim_valid = true := by rw [hms1]; exact hv
  have ht1 : ms1.subscr.sim_type = gsm_subscr_sim_type.L1PHY ∨
      ms1.subscr.sim_type = gsm_subscr_sim_type.SAP := by rw [hms1]; exact ht
  have htr : ms1.trace = ms.trace := by rw [hms1]
  have hu : ms1.subscr.sim_handle_update = ms.subscr.sim_handle_update := by rw [hms1]
  have hal1 : allocs_ok ms → allocs_ok ms1 := by rw [hms1]; exact id
  have key : gsm_subscr_del_forbidden_plmn ms none =
      (-EINVAL, if (!ms.subscr.plmn_na.isEmpty) = true then (subscr_write_plmn_na ms1).2
                else ms1) := by
    rw [hms1]
    unfold gsm_subscr_del_forbidden_plmn
    rw [del_forbidden_loop_none]
  rw [key]
  refine ⟨?_, ?_, ?_⟩
  · split_ifs
    · rw [(subscr_write_plmn_na_frame ms1).1, hl1]
    · exact hl1
  · intro hne hal
    have hne1 : (!ms.subscr.plmn_na.isEmpty) = true := by
      cases hl : ms.subscr.plmn_na with
      | nil => exact absurd hl hne
      | cons a l => rfl
    obtain ⟨ha, -⟩ := try_alloc_ok ms1 (hal1 hal)
    obtain ⟨-, htt, -, -⟩ := try_alloc_frame ms1
    rw [if_pos hne1, subscr_write_plmn_na_reader ms1 hv1 ht1, subscr_write_plmn_na_simcard_eq,
      if_pos ha]
    simp only [sim_job]
    rw [htt, htr, hu, hl1]
    rfl
  · intro he
    have he1 : ¬ ((!ms.subscr.plmn_na.isEmpty) = true) := by simp [he]
    rw [if_neg he1, hms1, ← he]

/-- Witness of C9 amended: a list of two entries is flushed and one job is issued. -/
theorem del_forbidden_null_flushes_witness :
    (gsm_subscr_del_forbidden_plmn (ms_forbidden [na_of 262 1, na_of 262 2])
        none).2.subscr.plmn_na = [] ∧
    (gsm_subscr_del_forbidden_plmn (ms_forbidden [na_of 262 1, na_of 262 2]) none).2.trace =
      (ms_forbidden [na_of 262 1, na_of 262 2]).trace ++ [effect.job
        { sh := { handle := (ms_forbidden [na_of 262 1, na_of 262 2]).subscr.sim_handle_update,
                  job_type := SIM_JOB_UPDATE_BINARY,
                  path := [0x7f20], file := 0x6f7b, rec_no := 0, rec_mode := 0 },
          payload := List.replicate 12 0xff }] := by
  have h := del_forbidden_null_flushes (ms_forbidden [na_of 262 1, na_of 262 2]) rfl
    (Or.inl rfl)
  exact ⟨h.1, h.2.1 (by decide) (by decide)⟩

/-- C10: if no entry of the forbidden list equals `p` (by `osmo_plmn_cmp`: MCC, MNC
and MNC digit count), `gsm_subscr_del_forbidden_plmn` with `p` returns with the
whole station state unchanged: the list is as before and no job is issued. -/
theorem del_forbidden_absent_unchanged (ms : osmocom_ms) (p : osmo_plmn_id)
    (h : ∀ na ∈ ms.subscr.plmn_na, osmo_plmn_cmp na.plmn p ≠ 0) :
    gsm_subscr_del_forbidden_plmn ms (some p) = (-EINVAL, ms) := by
  unfold gsm_subscr_del_forbidden_plmn
  rw [del_forbidden_loop_absent p _ h]
  rfl

/-- Witness of C10: 262-03 is deleted from the list 262-01, 262-02. -/
theorem del_forbidden_absent_unchanged_witness :
    gsm_subscr_del_forbidden_plmn (ms_forbidden [na_of 262 1, na_of 262 2])
        (some { mcc := 262, mnc := 3, mnc_3_digits := false }) =
      (-EINVAL, ms_forbidden [na_of 262 1, na_of 262 2]) :=
  del_forbidden_absent_unchanged (ms_forbidden [na_of 262 1, na_of 262 2])
    { mcc := 262, mnc := 3, mnc_3_digits := false } (by decide)

/-! ## Lemmas for the codec, the reset and the authentication -/

theorem list_take_set_succ (l : List Nat) (i x : Nat) (h : i < l.length) :
    (l.set i x).take (i + 1) = l.take i ++ [x] := by
  rw [List.set_eq_take_append_cons_drop, if_pos h]
  have hl : (List.take i l).length = i := by simp; omega
  rw [List.take_append_eq_append_take, hl, List.take_of_length_le (by omega)]
  simp

theorem cstr_set_zero (l : List Nat) (j : Nat) (h : j < l.length)
    (hnz : ∀ b ∈ l.take j, b ≠ 0) :
    cstr (l.set j 0) 0 = (l.take j).map Char.ofNat := by
  unfold cstr
  rw [List.set_eq_take_append_cons_drop, if_pos h, List.drop_zero,
    List.takeWhile_append_of_pos (by simpa using hnz)]
  simp

/-- The loop of `sim_decode_bcd` entered with as many characters written as nibbles
consumed: it appends the characters of the nibbles from `i` on, up to the first 0xF,
the end of the input, or character 31. -/
theorem sim_decode_bcd_loop_spec (data : List Nat) (len : Nat) :
    ∀ (fuel i : Nat) (result : List Nat), result.length = 32 → i < 31 → len * 2 ≤ i + fuel →
      (sim_decode_bcd_loop data len fuel i i result).2 =
        i + ((((List.range' i (len * 2 - i)).map (bcd_nibble data)).takeWhile
              (fun v => v ≠ 0xf)).take (31 - i)).length ∧
      (sim_decode_bcd_loop data len fuel i i result).1.length = 32 ∧
      (sim_decode_bcd_loop data len fuel i i result).1.take
          (sim_decode_bcd_loop data len fuel i i result).2 =
        result.take i ++
          ((((List.range' i (len * 2 - i)).map (bcd_nibble data)).takeWhile
              (fun v => v ≠ 0xf)).take (31 - i)).map (fun v => v + 48) := by
  intro fuel
  induction fuel with
  | zero =>
    intro i result hlen hi hfuel
    have h0 : len * 2 - i = 0 := by omega
    simp [sim_decode_bcd_loop, h0, hlen]
  | succ n ih =>
    intro i result hlen hi hfuel
    unfold sim_decode_bcd_loop
    by_cases hlt : i < len * 2
    · have hr : len * 2 - i = (len * 2 - (i + 1)) + 1 := by omega
      have h31 : 31 - i = (31 - (i + 1)) + 1 := by omega
      rw [if_pos hlt, hr, List.range'_succ, List.map_cons, List.takeWhile_cons]
      have hc : (if i % 2 = 1 then rd data (i / 2) / 16 else rd data (i / 2) % 16) =
          bcd_nibble data i := rfl
      simp only [hc]
      by_cases hf : bcd_nibble data i = 0xf
      · simp [hf, hlen]
      · have hp : (decide (bcd_nibble data i ≠ 0xf)) = true := by simpa using hf
        rw [if_neg hf, if_pos hp, h31, List.take_succ_cons]
        by_cases hj : i + 1 = 32 - 1
        · rw [if_pos hj]
          have h30 : 31 - (i + 1) = 0 := by omega
          refine ⟨?_, ?_, ?_⟩
          · simp [h30]
          · simp [hlen]
          · simp only [h30, List.take_zero, List.map_cons, List.map_nil]
            exact list_take_set_succ result i _ (by omega)
        · rw [if_neg hj]
          obtain ⟨a, b, c⟩ := ih (i + 1) (result.set i (bcd_nibble data i + 48))
            (by simp [hlen]) (by omega) (by omega)
          refine ⟨?_, b, ?_⟩
          · rw [a]; simp only [List.length_cons]; omega
          · rw [c, list_take_set_succ result i _ (by omega)]
            simp
    · have h0 : len * 2 - i = 0 := by omega
      simp [hlt, h0, hlen]

theorem list_range8_rd_map (f : Nat → Nat) :
    (List.range 8).map (rd ((List.range 8).map fun i => f i % 256)) =
      (List.range 8).map fun i => f i % 256 := by
  simp [List.range, List.range.loop, rd]

theorem gsm_subscr_init_indep (ms : osmocom_ms) (s : gsm_subscriber) :
    gsm_subscr_init { ms with subscr := s } = gsm_subscr_init ms := rfl

theorem gsm_subscr_exit_env (ms : osmocom_ms) :
    (gsm_subscr_exit ms).2 = { ms with subscr := (gsm_subscr_exit ms).2.subscr } := by
  unfold gsm_subscr_exit sim_close
  dsimp only
  split_ifs <;> rfl

theorem gsm_subscr_reset_eq (ms : osmocom_ms) :
    gsm_subscr_init (gsm_subscr_exit ms).2 = gsm_subscr_init ms := by
  rw [gsm_subscr_exit_env, gsm_subscr_init_indep]

theorem gsm_subscr_init_record (ms : osmocom_ms) :
    (gsm_subscr_init ms).2.subscr.plmn_list = [] ∧
    (gsm_subscr_init ms).2.subscr.plmn_na = [] ∧
    (gsm_subscr_init ms).2.subscr.tmsi = GSM_RESERVED_TMSI ∧
    (gsm_subscr_init ms).2.subscr.gprs.ptmsi = GSM_RESERVED_TMSI ∧
    (gsm_subscr_init ms).2.subscr.lai.lac = 0 ∧
    (gsm_subscr_init ms).2.subscr.key_seq = 7 ∧
    (gsm_subscr_init ms).2.subscr.sim_file_index = 0 ∧
    (gsm_subscr_init ms).2.subscr.sim_pin_required = false := by
  unfold gsm_subscr_init
  dsimp only
  refine ⟨?_, ?_, ?_, ?_, ?_, ?_, ?_, ?_⟩ <;>
    simp [(sim_open_frame _).1, gsm_subscriber_zero]

/-- The state after `gsm_subscr_del_forbidden_plmn` with a PLMN. -/
theorem gsm_subscr_del_forbidden_plmn_state (ms : osmocom_ms) (p : osmo_plmn_id) :
    (gsm_subscr_del_forbidden_plmn ms (some p)).2.subscr =
      { ms.subscr with plmn_na := (del_forbidden_loop (some p) ms.subscr.plmn_na).1 } ∧
    (allocs_ok ms → allocs_ok (gsm_subscr_del_forbidden_plmn ms (some p)).2) ∧
    ((del_forbidden_loop (some p) ms.subscr.plmn_na).2 = false →
      (gsm_subscr_del_forbidden_plmn ms (some p)).2.trace = ms.trace) ∧
    ((del_forbidden_loop (some p) ms.subscr.plmn_na).2 = true →
      ms.subscr.sim_valid = true →
      (ms.subscr.sim_type = gsm_subscr_sim_type.L1PHY ∨
        ms.subscr.sim_type = gsm_subscr_sim_type.SAP) →
      allocs_ok ms →
      (gsm_subscr_del_forbidden_plmn ms (some p)).2.trace =
        ms.trace ++ [effect.job
          { sh := { handle := ms.subscr.sim_handle_update, job_type := SIM_JOB_UPDATE_BINARY,
                    path := [0x7f20], file := 0x6f7b, rec_no := 0, rec_mode := 0 },
            payload := plmn_na_body (del_forbidden_loop (some p) ms.subscr.plmn_na).1 }]) := by
  obtain ⟨ms1, hms1⟩ : ∃ x : osmocom_ms,
      x = { ms with subscr := { ms.subscr with
              plmn_na := (del_forbidden_loop (some p) ms.subscr.plmn_na).1 } } := ⟨_, rfl⟩
  have key : (gsm_subscr_del_forbidden_plmn ms (some p)).2 =
      if (del_forbidden_loop (some p) ms.subscr.plmn_na).2 = true then
        (subscr_write_plmn_na ms1).2 else ms1 := by
    rw [hms1]
    unfold gsm_subscr_del_forbidden_plmn
    rfl
  have hsub : ms1.subscr =
      { ms.subscr with plmn_na := (del_forbidden_loop (some p) ms.subscr.plmn_na).1 } := by
    rw [hms1]
  have htr : ms1.trace = ms.trace := by rw [hms1]
  have hal1 : allocs_ok ms → allocs_ok ms1 := by rw [hms1]; exact id
  obtain ⟨w1, w2⟩ := subscr_write_plmn_na_frame ms1
  rw [key]
  refine ⟨?_, ?_, ?_, ?_⟩
  · split_ifs
    · rw [w1, hsub]
    · exact hsub
  · intro hal
    split_ifs
    · exact w2 (hal1 hal)
    · exact hal1 hal
  · intro hd
    rw [if_neg (by simp [hd]), htr]
  · intro hd hv ht hal
    have hv1 : ms1.subscr.sim_valid = true := by rw [hsub]; exact hv
    have ht1 : ms1.subscr.sim_type = gsm_subscr_sim_type.L1PHY ∨
        ms1.subscr.sim_type = gsm_subscr_sim_type.SAP := by rw [hsub]; exact ht
    have hu : ms1.subscr.sim_handle_update = ms.subscr.sim_handle_update := by rw [hsub]
    have hl : ms1.subscr.plmn_na = (del_forbidden_loop (some p) ms.subscr.plmn_na).1 := by
      rw [hsub]
    rw [if_pos hd, subscr_write_plmn_na_reader ms1 hv1 ht1, subscr_write_plmn_na_simcard_eq,
      if_pos (try_alloc_ok ms1 (hal1 hal)).1]
    simp only [sim_job]
    rw [(try_alloc_frame ms1).2.1, htr, hu, hl]

/-! ## The claims C11 to C20 -/

/-- C11, as stated, fails: the second argument of `sim_decode_bcd` counts bytes, not
nibbles.  For the five bytes 21 43 65 87 09 and the count 5 the code returns the ten
characters "1234567890", the digit string of the first five nibbles is "12345". -/
theorem sim_decode_bcd_length_counts_bytes :
    cstr (sim_decode_bcd (List.replicate 32 0) [0x21, 0x43, 0x65, 0x87, 0x09] 5) 0 =
      "1234567890".toList ∧
    sim_decode_bcd_spec [0x21, 0x43, 0x65, 0x87, 0x09] 5 = "12345".toList := by
  decide

/-- C11, amended: for every byte buffer and every byte count `length` (a `uint8_t`),
`sim_decode_bcd` returns the characters `'0' + v` for the first `2 * length` nibbles
`v` of the buffer, the low nibble of each byte before its high nibble, cut before
the first nibble 0xF and after at most 31 characters.  The static result buffer has
32 bytes. -/
theorem sim_decode_bcd_refines (result data : List Nat) (length : Nat)
    (hres : result.length = 32) :
    cstr (sim_decode_bcd result data length) 0 =
      sim_decode_bcd_spec data (2 * (length % 256)) := by
  obtain ⟨a, b, c⟩ := sim_decode_bcd_loop_spec data (length % 256) 510 0 result hres
    (by omega) (by omega)
  unfold sim_decode_bcd sim_decode_bcd_spec
  simp only [Nat.sub_zero, List.take_zero, List.nil_append] at a c
  dsimp only
  rw [cstr_set_zero _ _ ?_ ?_, c]
  · rw [List.range_eq_range', Nat.mul_comm 2, List.map_map]
    rfl
  · rw [b, a]
    have := List.length_take_le 31 ((((List.range' 0 (length % 256 * 2)).map
      (bcd_nibble data)).takeWhile (fun v => v ≠ 0xf)))
    omega
  · rw [c]
    intro x hx
    simp only [List.mem_map] at hx
    obtain ⟨v, -, rfl⟩ := hx
    omega

/-- Witness of C11 amended: the bytes 21 43 f5 with the count 5 give "12345". -/
theorem sim_decode_bcd_refines_witness :
    cstr (sim_decode_bcd (List.replicate 32 0) [0x21, 0x43, 0xF5] 5) 0 =
      sim_decode_bcd_spec [0x21, 0x43, 0xF5] (2 * (5 % 256)) ∧
    sim_decode_bcd_spec [0x21, 0x43, 0xF5] (2 * (5 % 256)) = "12345".toList :=
  ⟨sim_decode_bcd_refines (List.replicate 32 0) [0x21, 0x43, 0xF5] 5 (by decide), by decide⟩

/-- C12, the code at the failing input: a test card with the IMSI 001010000000001,
`imsi_attached` and `rplmn_valid` set, and the GPRS attach flag of the configuration
clear.  `gsm_subscr_insert` returns 0, sends one SIM_ATTACHED signal and issues no
job, but `ustate` ends as U2_NOT_UPDATED: the GPRS part of
`gsm_subscr_insert_testcard` assigns `subscr->ustate` a second time. -/
theorem insert_testcard_ustate_overwritten :
    ms_boot_test.subscr.sim_valid = false ∧
    ms_boot_test.settings.sim_type = GSM_SIM_TYPE_TEST ∧
    osmo_imsi_str_valid ms_boot_test.settings.test_sim.imsi = true ∧
    ms_boot_test.settings.test_sim.imsi_attached = true ∧
    ms_boot_test.settings.test_sim.rplmn_valid = true ∧
    (gsm_subscr_insert ms_boot_test).1 = 0 ∧
    (gsm_subscr_insert ms_boot_test).2.subscr.ustate = GSM_SIM_U2_NOT_UPDATED ∧
    (gsm_subscr_insert ms_boot_test).2.trace =
      [effect.signal l23_subscr_signal.S_L23_SUBSCR_SIM_ATTACHED] := by
  decide

/-- C13: `gsm_subscr_generate_kc` with `no_sim = true` returns 0, appends to the trace
exactly one SIM_AUTH_RESP signal with the signed response 12 34 56 78 and nothing
else (no job), and leaves the record alone, for every record, key sequence,
challenge and authentication algorithm. -/
theorem generate_kc_no_sim_placeholder
    (auth_gen : Nat → List Nat → List Nat → Int × osmo_auth_vector)
    (ms : osmocom_ms) (key_seq : Nat) (rand : List Nat) :
    (gsm_subscr_generate_kc auth_gen ms key_seq rand true).1 = 0 ∧
    (gsm_subscr_generate_kc auth_gen ms key_seq rand true).2.trace =
      ms.trace ++ [effect.signal
        (l23_subscr_signal.S_L23_SUBSCR_SIM_AUTH_RESP [0x12, 0x34, 0x56, 0x78])] ∧
    (gsm_subscr_generate_kc auth_gen ms key_seq rand true).2.subscr = ms.subscr := by
  unfold gsm_subscr_generate_kc
  simp [osmo_signal_dispatch]

/-- C14: if `sim_valid` is set, `gsm_subscr_insert` returns `-EBUSY` and the whole
state of the station is unchanged (record, lists, cursor, handles, trace). -/
theorem insert_busy_rejected (ms : osmocom_ms) (h : ms.subscr.sim_valid = true) :
    gsm_subscr_insert ms = (-EBUSY, ms) := by
  unfold gsm_subscr_insert
  simp [h]

/-- Witness of C14: a second insertion while a card is present. -/
theorem insert_busy_rejected_witness :
    gsm_subscr_insert (ms_home [na_of 262 2]) = (-EBUSY, ms_home [na_of 262 2]) :=
  insert_busy_rejected (ms_home [na_of 262 2]) rfl

/-- C15: after the reset of `gsm_subscr_insert` (`gsm_subscr_exit`, then
`gsm_subscr_init`) both PLMN lists are empty, `tmsi` and `gprs.ptmsi` are the
reserved value, `lai.lac = 0`, `key_seq = 7`, `sim_file_index = 0` and
`sim_pin_required = false`; the state after the reset is the same for every prior
record `s`, and so is all of `gsm_subscr_insert` when no card is present. -/
theorem insert_reset_discards_record (ms : osmocom_ms) (s : gsm_subscriber) :
    (gsm_subscr_init (gsm_subscr_exit ms).2).2.subscr.plmn_list = [] ∧
    (gsm_subscr_init (gsm_subscr_exit ms).2).2.subscr.plmn_na = [] ∧
    (gsm_subscr_init (gsm_subscr_exit ms).2).2.subscr.tmsi = GSM_RESERVED_TMSI ∧
    (gsm_subscr_init (gsm_subscr_exit ms).2).2.subscr.gprs.ptmsi = GSM_RESERVED_TMSI ∧
    (gsm_subscr_init (gsm_subscr_exit ms).2).2.subscr.lai.lac = 0 ∧
    (gsm_subscr_init (gsm_subscr_exit ms).2).2.subscr.key_seq = 7 ∧
    (gsm_subscr_init (gsm_subscr_exit ms).2).2.subscr.sim_file_index = 0 ∧
    (gsm_subscr_init (gsm_subscr_exit ms).2).2.subscr.sim_pin_required = false ∧
    (gsm_subscr_init (gsm_subscr_exit ms).2).2 =
      (gsm_subscr_init (gsm_subscr_exit { ms with subscr := s }).2).2 ∧
    (ms.subscr.sim_valid = false → s.sim_valid = false →
      gsm_subscr_insert ms = gsm_subscr_insert { ms with subscr := s }) := by
  have h1 := gsm_subscr_reset_eq ms
  have h2 : gsm_subscr_init (gsm_subscr_exit { ms with subscr := s }).2 = gsm_subscr_init ms := by
    rw [gsm_subscr_reset_eq, gsm_subscr_init_indep]
  obtain ⟨a, b, c, d, e, f, g, h⟩ := gsm_subscr_init_record ms
  rw [h1, h2]
  refine ⟨a, b, c, d, e, f, g, h, rfl, ?_⟩
  intro hv hs
  unfold gsm_subscr_insert
  simp only [hv, hs, h1, h2, Bool.false_eq_true, if_false]

/-- Witness of C15: the record of a removed card against the zero record. -/
theorem insert_reset_discards_record_witness :
    (gsm_subscr_init (gsm_subscr_exit ms_stale).2).2.subscr.plmn_na = [] ∧
    (gsm_subscr_init (gsm_subscr_exit ms_stale).2).2.subscr.key_seq = 7 ∧
    gsm_subscr_insert ms_stale =
      gsm_subscr_insert { ms_stale with subscr := gsm_subscriber_zero } := by
  have h := insert_reset_discards_record ms_stale gsm_subscriber_zero
  exact ⟨h.2.1, h.2.2.2.2.2.1, h.2.2.2.2.2.2.2.2.2 rfl rfl⟩

/-- C16, as stated, fails: when the home network is already in the forbidden list
(kept in memory by an earlier call), adding it again removes the old entry first and
that removal issues a persistence job. -/
theorem add_forbidden_home_plmn_again_issues_job :
    (ms_home [{ plmn := plmn_262_01, cause := 11 }]).subscr.sim_valid = true ∧
    (ms_home [{ plmn := plmn_262_01, cause := 11 }]).subscr.sim_type =
      gsm_subscr_sim_type.L1PHY ∧
    gsm_match_mnc plmn_262_01.mcc plmn_262_01.mnc plmn_262_01.mnc_3_digits
      (ms_home [{ plmn := plmn_262_01, cause := 11 }]).subscr.imsi = true ∧
    (gsm_subscr_add_forbidden_plmn (ms_home [{ plmn := plmn_262_01, cause := 11 }])
        plmn_262_01 11).2.trace =
      [effect.job
        { sh := { handle := 2, job_type := SIM_JOB_UPDATE_BINARY, path := [0x7f20],
                  file := 0x6f7b, rec_no := 0, rec_mode := 0 },
          payload := List.replicate 12 0xff }] := by
  decide

/-- C16, amended: on a valid physical or remote card, with the allocations
succeeding, `gsm_subscr_add_forbidden_plmn` with the home network `p` returns
`-EINVAL` and leaves the entry for `p` as the last of the list; if the list held no
entry equal to `p` no job is issued; if it held one, exactly one update job is
issued, by the removal of the old entry, and its body is the projection of the list
without that entry and without the new one. -/
theorem add_forbidden_home_plmn_kept (ms : osmocom_ms) (p : osmo_plmn_id) (cause : Nat)
    (hv : ms.subscr.sim_valid = true)
    (ht : ms.subscr.sim_type = gsm_subscr_sim_type.L1PHY ∨
          ms.subscr.sim_type = gsm_subscr_sim_type.SAP)
    (hhome : gsm_match_mnc p.mcc p.mnc p.mnc_3_digits ms.subscr.imsi = true)
    (hal : allocs_ok ms) :
    (gsm_subscr_add_forbidden_plmn ms p cause).1 = -EINVAL ∧
    (gsm_subscr_add_forbidden_plmn ms p cause).2.subscr.plmn_na =
      (del_forbidden_loop (some p) ms.subscr.plmn_na).1 ++
        [{ plmn := p, cause := if cause % 256 ≠ 0 then ((cause % 256 : Nat) : Int) else -1 }] ∧
    ((∀ na ∈ ms.subscr.plmn_na, osmo_plmn_cmp na.plmn p ≠ 0) →
      (gsm_subscr_add_forbidden_plmn ms p cause).2.trace = ms.trace) ∧
    ((∃ na ∈ ms.subscr.plmn_na, osmo_plmn_cmp na.plmn p = 0) →
      (gsm_subscr_add_forbidden_plmn ms p cause).2.trace =
        ms.trace ++ [effect.job
          { sh := { handle := ms.subscr.sim_handle_update, job_type := SIM_JOB_UPDATE_BINARY,
                    path := [0x7f20], file := 0x6f7b, rec_no := 0, rec_mode := 0 },
            payload := plmn_na_body (del_forbidden_loop (some p) ms.subscr.plmn_na).1 }]) := by
  obtain ⟨d1, d2, d3, d4⟩ := gsm_subscr_del_forbidden_plmn_state ms p
  obtain ⟨ms1, hms1⟩ : ∃ y : osmocom_ms,
      y = (gsm_subscr_del_forbidden_plmn ms (some p)).2 := ⟨_, rfl⟩
  rw [← hms1] at d1 d2 d3 d4
  obtain ⟨ha, -⟩ := try_alloc_ok ms1 (d2 hal)
  obtain ⟨hs, htt, -, -⟩ := try_alloc_frame ms1
  have hv1 : ms1.subscr.sim_valid = true := by rw [d1]; exact hv
  have hi1 : ms1.subscr.imsi = ms.subscr.imsi := by rw [d1]
  have hl1 : ms1.subscr.plmn_na = (del_forbidden_loop (some p) ms.subscr.plmn_na).1 := by
    rw [d1]
  have key : gsm_subscr_add_forbidden_plmn ms p cause =
      (-EINVAL,
        { (try_alloc ms1).2 with
          subscr := { (try_alloc ms1).2.subscr with
                      plmn_na := (try_alloc ms1).2.subscr.plmn_na ++
                        [{ plmn := p,
                           cause := if cause % 256 ≠ 0 then ((cause % 256 : Nat) : Int)
                                    else -1 }] } }) := by
    unfold gsm_subscr_add_forbidden_plmn
    simp only [← hms1, ha, if_true, hs, hv1, hi1, hhome, Bool.and_self]
  rw [key]
  refine ⟨rfl, ?_, ?_, ?_⟩
  · simp only [hs, hl1]
  · intro habs
    have := del_forbidden_loop_absent p _ habs
    simp only [htt]
    exact d3 (by rw [this])
  · intro hpres
    obtain ⟨pre, x, post, -, -, -, hdel⟩ := del_forbidden_loop_present p _ hpres
    simp only [htt]
    exact d4 (by rw [hdel]) hv ht hal

/-- Witness of C16 amended: the home network is added to the empty list. -/
theorem add_forbidden_home_plmn_kept_witness :
    (gsm_subscr_add_forbidden_plmn (ms_home []) plmn_262_01 11).1 = -EINVAL ∧
    (gsm_subscr_add_forbidden_plmn (ms_home []) plmn_262_01 11).2.trace =
      (ms_home []).trace := by
  have h := add_forbidden_home_plmn_kept (ms_home []) plmn_262_01 11 rfl (Or.inl rfl)
    (by decide) (by decide)
  exact ⟨h.1, h.2.2.1 (by decide)⟩

/-- C17, the code at the failing input: on the card of subscriber 262-01-..., the
home network 262-01 is added to the empty forbidden list (no job, the entry stays in
memory), then 262-02 is added.  The update job of the second call carries the
triplet 62 f2 10 of the home network. -/
theorem add_forbidden_persists_home_plmn_later :
    (ms_home []).subscr.sim_valid = true ∧
    gsm_match_mnc plmn_262_01.mcc plmn_262_01.mnc plmn_262_01.mnc_3_digits
      (ms_home []).subscr.imsi = true ∧
    osmo_plmn_to_bcd plmn_262_01 = [0x62, 0xf2, 0x10] ∧
    (gsm_subscr_add_forbidden_plmn (ms_home []) plmn_262_01 11).2.trace = [] ∧
    (gsm_subscr_add_forbidden_plmn
        (gsm_subscr_add_forbidden_plmn (ms_home []) plmn_262_01 11).2 plmn_262_02 11).2.trace =
      [effect.job
        { sh := { handle := 2, job_type := SIM_JOB_UPDATE_BINARY, path := [0x7f20],
                  file := 0x6f7b, rec_no := 0, rec_mode := 0 },
          payload := [0x62, 0xf2, 0x10, 0x62, 0xf2, 0x20, 0xff, 0xff, 0xff,
                      0xff, 0xff, 0xff] }] := by
  decide

/-- C18, as stated, fails: on a physical card `gsm_subscr_generate_kc` with the 8 bit
key sequence 200 stores 200. -/
theorem generate_kc_stores_key_seq_unmasked :
    (ms_reading 12).subscr.sim_valid = true ∧
    (gsm_subscr_generate_kc auth_gen_fixed (ms_reading 12) 200 rand_example false).1 = 0 ∧
    (gsm_subscr_generate_kc auth_gen_fixed (ms_reading 12) 200 rand_example
      false).2.subscr.key_seq = 200 := by
  decide

/-- C18, amended: `gsm_subscr_init` stores 7; `subscr_sim_kc`, when it accepts the
payload, stores `data[8] & 7`, a value in 0..7; `gsm_subscr_generate_kc` on a valid
physical or remote card (job allocated) and on a valid test card (vector computed)
stores the 8 bit key sequence of the caller as it is, not reduced modulo 8. -/
theorem key_seq_writes
    (auth_gen : Nat → List Nat → List Nat → Int × osmo_auth_vector)
    (ms : osmocom_ms) (data : List Nat) (length : Nat) (key_seq : Nat) (rand : List Nat) :
    (gsm_subscr_init ms).2.subscr.key_seq = 7 ∧
    ((subscr_sim_kc ms data length).1 = 0 →
      (subscr_sim_kc ms data length).2.subscr.key_seq = rd data 8 % 8 ∧
      (subscr_sim_kc ms data length).2.subscr.key_seq < 8) ∧
    (ms.subscr.sim_valid = true →
      (ms.subscr.sim_type = gsm_subscr_sim_type.L1PHY ∨
        ms.subscr.sim_type = gsm_subscr_sim_type.SAP) →
      allocs_ok ms →
      (gsm_subscr_generate_kc auth_gen ms key_seq rand false).2.subscr.key_seq =
        key_seq % 256) ∧
    (ms.subscr.sim_valid = true →
      ms.subscr.sim_type = gsm_subscr_sim_type.TEST →
      0 ≤ (auth_gen ms.settings.test_sim.ki_type
            ((List.range 16).map (rd ms.settings.test_sim.ki)) rand).1 →
      (gsm_subscr_generate_kc auth_gen ms key_seq rand false).2.subscr.key_seq =
        key_seq % 256) := by
  refine ⟨(gsm_subscr_init_record ms).2.2.2.2.2.1, ?_, ?_, ?_⟩
  · unfold subscr_sim_kc
    split_ifs with h
    · intro h0
      simp [EINVAL] at h0
    · intro _
      exact ⟨rfl, Nat.mod_lt _ (by decide)⟩
  · intro hv ht hal
    obtain ⟨ha, -⟩ := try_alloc_ok ms hal
    unfold gsm_subscr_generate_kc gsm_subscr_generate_kc_simcard gsm_sim_msgb_alloc
    rcases ht with ht | ht <;> simp [hv, ht, ha, sim_job]
  · intro hv ht hauth
    unfold gsm_subscr_generate_kc gsm_subscr_generate_kc_testcard
    simp [hv, ht, not_lt.mpr hauth, osmo_signal_dispatch]

/-- Witness of C18 amended: EF-Kc with the status byte 0x0a, and a request with the
key sequence 5 on a physical card. -/
theorem key_seq_writes_witness :
    (subscr_sim_kc (ms_reading 4) [1, 2, 3, 4, 5, 6, 7, 8, 0x0a] 9).2.subscr.key_seq = 2 ∧
    (gsm_subscr_generate_kc auth_gen_fixed (ms_reading 12) 5 rand_example
      false).2.subscr.key_seq = 5 := by
  have h := key_seq_writes auth_gen_fixed (ms_reading 12) [1, 2, 3, 4, 5, 6, 7, 8, 0x0a] 9 5
    rand_example
  have h4 := key_seq_writes auth_gen_fixed (ms_reading 4) [1, 2, 3, 4, 5, 6, 7, 8, 0x0a] 9 5
    rand_example
  exact ⟨(h4.2.1 (by decide)).1, h.2.2.1 rfl (Or.inl rfl) (by decide)⟩

/-- C19: for a success response on the key handle with at least 12 payload bytes
(the message length is a 16 bit value) and the job allocation succeeding,
`subscr_sim_key_cb` stores payload bytes 4..11 as `key`, then issues on the update
handle one UPDATE_BINARY job for file 0x6f20 under 0x7f20 whose 9 byte body is that
key followed by the stored `key_seq`, and after it sends exactly one SIM_AUTH_RESP
signal whose signed response is payload bytes 0..3. -/
theorem key_cb_success_stores_and_writes (ms : osmocom_ms) (msg : msgb)
    (hok : msg.sh.job_type ≠ SIM_JOB_ERROR)
    (hlen : 12 ≤ msg.payload.length) (hlt : msg.payload.length < 65536)
    (hal : allocs_ok ms) :
    (subscr_sim_key_cb ms msg).subscr.key =
      (List.range 8).map (fun i => rd msg.payload (4 + i)) ∧
    (subscr_sim_key_cb ms msg).trace =
      ms.trace ++
        [effect.job
          { sh := { handle := ms.subscr.sim_handle_update, job_type := SIM_JOB_UPDATE_BINARY,
                    path := [0x7f20], file := 0x6f20, rec_no := 0, rec_mode := 0 },
            payload := (List.range 8).map (fun i => rd msg.payload (4 + i)) ++
                         [ms.subscr.key_seq] },
         effect.signal (l23_subscr_signal.S_L23_SUBSCR_SIM_AUTH_RESP
           ((List.range 4).map (rd msg.payload)))] := by
  obtain ⟨ms1, hms1⟩ : ∃ x : osmocom_ms,
      x = { ms with
            subscr := { ms.subscr with
                        key := (List.range 8).map fun i => rd msg.payload (4 + i) } } :=
    ⟨_, rfl⟩
  have hk : ms1.subscr.key = (List.range 8).map fun i => rd msg.payload (4 + i) := by rw [hms1]
  have hks : ms1.subscr.key_seq = ms.subscr.key_seq := by rw [hms1]
  have hu : ms1.subscr.sim_handle_update = ms.subscr.sim_handle_update := by rw [hms1]
  have htr : ms1.trace = ms.trace := by rw [hms1]
  have hal1 : allocs_ok ms1 := by rw [hms1]; exact hal
  obtain ⟨ha, -⟩ := try_alloc_ok ms1 hal1
  obtain ⟨hs, ht, -, -⟩ := try_alloc_frame ms1
  have h2 : ¬ msg.payload.length % 65536 < 12 := by
    rw [Nat.mod_eq_of_lt hlt]; omega
  have hkk : (List.range 8).map (rd ms1.subscr.key) =
      (List.range 8).map fun i => rd msg.payload (4 + i) := by
    rw [hk]
    have := list_range8_rd_map (fun i => msg.payload.getD (4 + i) 0)
    simpa [rd] using this
  have key : subscr_sim_key_cb ms msg =
      osmo_signal_dispatch
        (sim_job (try_alloc ms1).2
          { sh := { handle := ms1.subscr.sim_handle_update, job_type := SIM_JOB_UPDATE_BINARY,
                    path := [0x7f20], file := 0x6f20, rec_no := 0, rec_mode := 0 },
            payload := (List.range 8).map (rd ms1.subscr.key) ++ [ms1.subscr.key_seq] })
        (l23_subscr_signal.S_L23_SUBSCR_SIM_AUTH_RESP ((List.range 4).map (rd msg.payload))) := by
    unfold subscr_sim_key_cb gsm_sim_msgb_alloc
    simp only [hok, if_false, h2]
    rw [← hms1]
    simp only [ha, if_true, List.nil_append]
    rw [hs, hu]
  rw [key]
  simp only [osmo_signal_dispatch, sim_job]
  refine ⟨?_, ?_⟩
  · rw [hs, hk]
  · rw [ht, htr, hkk, hks, hu]
    simp

/-- Witness of C19: a response of 12 bytes. -/
theorem key_cb_success_stores_and_writes_witness :
    (subscr_sim_key_cb (ms_reading 12)
        (sim_rsp_ok [1, 2, 3, 4, 5, 6, 7, 8, 9, 10, 11, 12])).subscr.key =
      [5, 6, 7, 8, 9, 10, 11, 12] :=
  (key_cb_success_stores_and_writes (ms_reading 12)
    (sim_rsp_ok [1, 2, 3, 4, 5, 6, 7, 8, 9, 10, 11, 12])
    (by decide) (by decide) (by decide) (by decide)).1

/-- C20: for an error response on the key handle, and for a success response with
fewer than 12 payload bytes, `subscr_sim_key_cb` leaves the whole state of the
station unchanged: no signal, no job, the same `key`. -/
theorem key_cb_failure_ignored (ms : osmocom_ms) (msg : msgb)
    (h : msg.sh.job_type = SIM_JOB_ERROR ∨ msg.payload.length < 12) :
    subscr_sim_key_cb ms msg = ms := by
  unfold subscr_sim_key_cb
  rcases h with h | h
  · simp [h]
  · have h2 : msg.payload.length % 65536 < 12 := by
      rw [Nat.mod_eq_of_lt (by omega)]; exact h
    simp [h2]

/-- Witness of C20: a response of 11 bytes. -/
theorem key_cb_failure_ignored_witness :
    subscr_sim_key_cb (ms_reading 12) (sim_rsp_ok [1, 2, 3, 4, 5, 6, 7, 8, 9, 10, 11]) =
      ms_reading 12 :=
  key_cb_failure_ignored (ms_reading 12) (sim_rsp_ok [1, 2, 3, 4, 5, 6, 7, 8, 9, 10, 11])
    (Or.inr (by decide))

/-! ## Lemmas for the reset, the lists and the count of jobs -/

theorem try_alloc_sap (ms : osmocom_ms) : (try_alloc ms).2.sap_open_rc = ms.sap_open_rc := by
  unfold try_alloc
  cases ms.allocs <;> rfl

theorem sim_open_sap (ms : osmocom_ms) : (sim_open ms).2.sap_open_rc = ms.sap_open_rc := by
  unfold sim_open
  dsimp only
  split_ifs <;> exact try_alloc_sap ms

/-- The environment after the reset of `gsm_subscr_insert`. -/
theorem gsm_subscr_reset_env (ms : osmocom_ms) :
    (gsm_subscr_init (gsm_subscr_exit ms).2).2.trace = ms.trace ∧
    (gsm_subscr_init (gsm_subscr_exit ms).2).2.settings = ms.settings ∧
    (gsm_subscr_init (gsm_subscr_exit ms).2).2.sap_open_rc = ms.sap_open_rc := by
  rw [gsm_subscr_reset_eq]
  obtain ⟨-, -, i3, i4, -⟩ := gsm_subscr_init_frame ms
  refine ⟨i3, i4, ?_⟩
  unfold gsm_subscr_init
  dsimp only
  simp only [sim_open_sap]

/-- The loop of `gsm_subscr_del_forbidden_plmn` removes the first entry equal to the
PLMN and nothing else. -/
theorem del_forbidden_loop_first (p : osmo_plmn_id) (pre post : List gsm_sub_plmn_na)
    (x : gsm_sub_plmn_na) (hpre : ∀ y ∈ pre, osmo_plmn_cmp y.plmn p ≠ 0)
    (hx : osmo_plmn_cmp x.plmn p = 0) :
    del_forbidden_loop (some p) (pre ++ x :: post) = (pre ++ post, true) := by
  induction pre with
  | nil => simp [del_forbidden_loop, hx]
  | cons a l ih =>
    have ha : osmo_plmn_cmp a.plmn p ≠ 0 := hpre a (List.mem_cons_self _ _)
    have hl := ih (fun y hy => hpre y (List.mem_cons_of_mem _ hy))
    simp [del_forbidden_loop, ha, hl]

/-- The forbidden list after `gsm_subscr_add_forbidden_plmn` when the entry is
allocated. -/
theorem gsm_subscr_add_forbidden_plmn_list (ms : osmocom_ms) (p : osmo_plmn_id) (cause : Nat)
    (hal : allocs_ok ms) :
    (gsm_subscr_add_forbidden_plmn ms p cause).2.subscr.plmn_na =
      (del_forbidden_loop (some p) ms.subscr.plmn_na).1 ++
        [{ plmn := p, cause := if cause % 256 ≠ 0 then ((cause % 256 : Nat) : Int) else -1 }] := by
  obtain ⟨d1, d2, -, -⟩ := gsm_subscr_del_forbidden_plmn_state ms p
  obtain ⟨ms1, hms1⟩ : ∃ y : osmocom_ms,
      y = (gsm_subscr_del_forbidden_plmn ms (some p)).2 := ⟨_, rfl⟩
  rw [← hms1] at d1 d2
  obtain ⟨ha, -⟩ := try_alloc_ok ms1 (d2 hal)
  obtain ⟨hs, -, -, -⟩ := try_alloc_frame ms1
  have hl1 : ms1.subscr.plmn_na = (del_forbidden_loop (some p) ms.subscr.plmn_na).1 := by
    rw [d1]
  obtain ⟨ms2, hms2⟩ : ∃ y : osmocom_ms,
      y = { (try_alloc ms1).2 with
            subscr := { (try_alloc ms1).2.subscr with
                        plmn_na := (try_alloc ms1).2.subscr.plmn_na ++
                          [{ plmn := p,
                             cause := if cause % 256 ≠ 0 then ((cause % 256 : Nat) : Int)
                                      else -1 }] } } := ⟨_, rfl⟩
  have hl2 : ms2.subscr.plmn_na = (del_forbidden_loop (some p) ms.subscr.plmn_na).1 ++
      [{ plmn := p, cause := if cause % 256 ≠ 0 then ((cause % 256 : Nat) : Int) else -1 }] := by
    rw [hms2]
    simp only [hs, hl1]
  have key : gsm_subscr_add_forbidden_plmn ms p cause =
      if (ms2.subscr.sim_valid &&
          gsm_match_mnc p.mcc p.mnc p.mnc_3_digits ms2.subscr.imsi) = true then (-EINVAL, ms2)
      else (0, (subscr_write_plmn_na ms2).2) := by
    unfold gsm_subscr_add_forbidden_plmn
    simp only [← hms1, ha, if_true]
    rw [← hms2]
    have hv2 : ms2.subscr.sim_valid = (try_alloc ms1).2.subscr.sim_valid := by rw [hms2]
    have hi2 : ms2.subscr.imsi = (try_alloc ms1).2.subscr.imsi := by rw [hms2]
    rw [hv2, hi2]
  rw [key]
  by_cases hh : (ms2.subscr.sim_valid &&
      gsm_match_mnc p.mcc p.mnc p.mnc_3_digits ms2.subscr.imsi) = true
  · rw [if_pos hh]
    exact hl2
  · rw [if_neg hh, (subscr_write_plmn_na_frame ms2).1]
    exact hl2

/-- The preferred list after the loop of `subscr_sim_plmnsel`: the entries it had,
followed by zero-allocated entries only. -/
theorem subscr_sim_plmnsel_loop_list (fuel : Nat) :
    ∀ (ms : osmocom_ms) (data : List Nat) (length : Nat),
      ∃ k, (subscr_sim_plmnsel_loop fuel ms data length).2.subscr.plmn_list =
        ms.subscr.plmn_list ++ List.replicate k { plmn := osmo_plmn_id_zero } := by
  induction fuel with
  | zero => intro ms data length; exact ⟨0, by simp [subscr_sim_plmnsel_loop]⟩
  | succ n ih =>
    intro ms data length
    unfold subscr_sim_plmnsel_loop
    dsimp only
    obtain ⟨hs, -, -, -⟩ := try_alloc_frame ms
    split_ifs with h1 h2 h3
    · exact ⟨0, by simp⟩
    · obtain ⟨k, hk⟩ := ih
        { (try_alloc ms).2 with
          subscr := { (try_alloc ms).2.subscr with
                      plmn_list := (try_alloc ms).2.subscr.plmn_list ++
                        [{ plmn := osmo_plmn_id_zero }] } }
        ((osmo_plmn_to_bcd osmo_plmn_id_zero ++ data.drop 3).drop 3) (length - 3)
      refine ⟨k + 1, ?_⟩
      rw [hk]
      simp only [hs, List.append_assoc, List.singleton_append, List.replicate_succ]
    · exact ⟨0, by simp [hs]⟩
    · exact ⟨0, by simp⟩

theorem jobs_append (a b : List effect) : jobs (a ++ b) = jobs a ++ jobs b := by
  unfold jobs
  exact List.filterMap_append _ _ _

theorem jobs_on_append (h : Nat) (a b : List effect) :
    jobs_on h (a ++ b) = jobs_on h a ++ jobs_on h b := by
  unfold jobs_on
  rw [jobs_append, List.filter_append]

/-- Effects that hold at most `n` jobs, all of them on the handle `q`. -/
theorem jobs_on_bound (q h n : Nat) (t delta : List effect)
    (hn : (jobs delta).length ≤ n) (hq : ∀ m ∈ jobs delta, m.sh.handle = q) :
    (jobs_on q (t ++ delta)).length ≤ (jobs_on q t).length + n ∧
    (h ≠ q → jobs_on h (t ++ delta) = jobs_on h t) := by
  rw [jobs_on_append, jobs_on_append, List.length_append]
  constructor
  · have : (jobs_on q delta).length ≤ (jobs delta).length := by
      unfold jobs_on
      exact List.length_filter_le _ _
    omega
  · intro hne
    have : jobs_on h delta = [] := by
      unfold jobs_on
      rw [List.filter_eq_nil_iff]
      intro m hm
      simp only [decide_eq_true_eq]
      rw [hq m hm]
      exact fun e => hne e.symm
    rw [this, List.append_nil]

/-- The effects of `subscr_sim_request`: at most one job, on the query handle. -/
theorem subscr_sim_request_jobs (ms : osmocom_ms) :
    ∃ delta, (subscr_sim_request ms).2.trace = ms.trace ++ delta ∧ (jobs delta).length ≤ 1 ∧
      ∀ m ∈ jobs delta, m.sh.handle = ms.subscr.sim_handle_query := by
  cases hf : (sim_file_at ms.subscr.sim_file_index).func with
  | none =>
    rw [subscr_sim_request_end ms hf]
    refine ⟨[effect.signal l23_subscr_signal.S_L23_SUBSCR_SIM_ATTACHED], ?_, by simp [jobs],
      by simp [jobs]⟩
    simp only [osmo_signal_dispatch]
    split_ifs <;> rfl
  | some f =>
    rw [subscr_sim_request_job ms (by simp [hf])]
    obtain ⟨-, ht, -, -⟩ := try_alloc_frame ms
    cases hb : (try_alloc ms).1
    · exact ⟨[], by simp [ht], by simp [jobs], by simp [jobs]⟩
    · exact ⟨[effect.job (sim_request_msg ms.subscr.sim_handle_query
          (sim_file_at ms.subscr.sim_file_index))],
        by simp [sim_job, ht], by simp [jobs], by simp [jobs, sim_request_msg]⟩

/-- The effects of `subscr_sim_request` in a state reached from `ms` without a job
and with the same query handle. -/
theorem subscr_sim_request_after (ms x : osmocom_ms) (pre : List effect)
    (htr : x.trace = ms.trace ++ pre) (hj : jobs pre = [])
    (hq : x.subscr.sim_handle_query = ms.subscr.sim_handle_query) :
    (∃ delta, (subscr_sim_request x).2.trace = ms.trace ++ delta ∧ (jobs delta).length ≤ 1 ∧
      ∀ m ∈ jobs delta, m.sh.handle = ms.subscr.sim_handle_query) ∧
    (subscr_sim_request x).2.subscr.sim_handle_query = ms.subscr.sim_handle_query := by
  obtain ⟨delta, h1, h2, h3⟩ := subscr_sim_request_jobs x
  refine ⟨⟨pre ++ delta, ?_, ?_, ?_⟩, ?_⟩
  · rw [h1, htr, List.append_assoc]
  · rw [jobs_append, hj, List.nil_append]
    exact h2
  · rw [jobs_append, hj, List.nil_append, ← hq]
    exact h3
  · rw [(subscr_sim_request_keeps x).1, hq]

/-- The effects of one call of `subscr_sim_query_cb`: at most one job, on the query
handle, which stays the same. -/
theorem subscr_sim_query_cb_jobs (ms : osmocom_ms) (msg : msgb) :
    (∃ delta, (subscr_sim_query_cb ms msg).trace = ms.trace ++ delta ∧
      (jobs delta).length ≤ 1 ∧
      ∀ m ∈ jobs delta, m.sh.handle = ms.subscr.sim_handle_query) ∧
    (subscr_sim_query_cb ms msg).subscr.sim_handle_query = ms.subscr.sim_handle_query := by
  unfold subscr_sim_query_cb
  dsimp only
  by_cases herr : msg.sh.job_type = SIM_JOB_ERROR
  · rw [if_pos herr]
    by_cases h1 : rd msg.payload 0 = SIM_CAUSE_PIN1_REQUIRED
    · rw [if_pos h1]
      exact ⟨⟨[effect.notify vty_notice.clear,
          effect.notify (vty_notice.give_pin ms.subscr.iccid (rd msg.payload 1))],
        by simp [l23_vty_ms_notify], by simp [jobs], by simp [jobs]⟩, rfl⟩
    · rw [if_neg h1]
      by_cases h2 : rd msg.payload 0 = SIM_CAUSE_PIN1_BLOCKED
      · rw [if_pos h2]
        by_cases hp : rd msg.payload 1 ≠ 0
        · rw [if_pos hp]
          exact ⟨⟨[effect.notify vty_notice.clear, effect.notify vty_notice.pin_blocked,
              effect.notify (vty_notice.give_puc ms.subscr.iccid (rd msg.payload 1))],
            by simp [l23_vty_ms_notify], by simp [jobs], by simp [jobs]⟩, rfl⟩
        · rw [if_neg hp]
          exact ⟨⟨[effect.notify vty_notice.clear, effect.notify vty_notice.pin_blocked],
            by simp [l23_vty_ms_notify], by simp [jobs], by simp [jobs]⟩, rfl⟩
      · rw [if_neg h2]
        by_cases h3 : rd msg.payload 0 = SIM_CAUSE_PUC_BLOCKED
        · rw [if_pos h3]
          exact ⟨⟨[effect.notify vty_notice.clear, effect.notify vty_notice.puc_blocked],
            by simp [l23_vty_ms_notify], by simp [jobs], by simp [jobs]⟩, rfl⟩
        · rw [if_neg h3]
          split_ifs with h4
          · unfold subscr_sim_query_next
            exact subscr_sim_request_after ms _ [] (by simp) rfl rfl
          · exact ⟨⟨[effect.notify vty_notice.clear, effect.notify vty_notice.sim_failed,
                effect.signal l23_subscr_signal.S_L23_SUBSCR_SIM_DETACHED],
              by simp [l23_vty_ms_notify, osmo_signal_dispatch], by simp [jobs],
              by simp [jobs]⟩, rfl⟩
  · rw [if_neg herr]
    by_cases hpin : ms.subscr.sim_pin_required = true
    · rw [if_pos hpin]
      exact subscr_sim_request_after ms _ [] (by simp) rfl rfl
    · rw [if_neg hpin]
      cases hf : (sim_file_at ms.subscr.sim_file_index).func with
      | none => exact ⟨⟨[], by simp, by simp [jobs], by simp [jobs]⟩, rfl⟩
      | some f =>
        obtain ⟨-, -, -, d4, d5, -⟩ := subscr_sim_files_frame _ f hf ms msg.payload
          (msg.payload.length % 65536 % 256)
        dsimp only
        split_ifs with hc
        · exact ⟨⟨[effect.notify vty_notice.clear, effect.notify vty_notice.sim_data_invalid],
            by simp [l23_vty_ms_notify, d5], by simp [jobs], by simp [jobs]⟩, d4⟩
        · unfold subscr_sim_query_next
          exact subscr_sim_request_after ms _ [] (by simp [d5]) rfl d4

/-- The effects of a run of `subscr_sim_query_cb`: at most one job for each response,
all on the query handle. -/
theorem sim_query_run_jobs :
    ∀ (msgs : List msgb) (ms : osmocom_ms),
      (∃ delta, (sim_query_run ms msgs).trace = ms.trace ++ delta ∧
        (jobs delta).length ≤ msgs.length ∧
        ∀ m ∈ jobs delta, m.sh.handle = ms.subscr.sim_handle_query) ∧
      (sim_query_run ms msgs).subscr.sim_handle_query = ms.subscr.sim_handle_query := by
  intro msgs
  induction msgs with
  | nil => intro ms; exact ⟨⟨[], by simp [sim_query_run], by simp [jobs], by simp [jobs]⟩, rfl⟩
  | cons m rest ih =>
    intro ms
    obtain ⟨⟨d1, a1, a2, a3⟩, a4⟩ := subscr_sim_query_cb_jobs ms m
    obtain ⟨⟨d2, b1, b2, b3⟩, b4⟩ := ih (subscr_sim_query_cb ms m)
    have hrun : sim_query_run ms (m :: rest) = sim_query_run (subscr_sim_query_cb ms m) rest := rfl
    rw [hrun]
    refine ⟨⟨d1 ++ d2, ?_, ?_, ?_⟩, b4.trans a4⟩
    · rw [b1, a1, List.append_assoc]
    · rw [jobs_append, List.length_append, List.length_cons]
      omega
    · intro x hx
      rw [jobs_append, List.mem_append] at hx
      rcases hx with hx | hx
      · exact a3 x hx
      · rw [← a4]
        exact b3 x hx

/-- The effects of `gsm_subscr_insert`: at most one job, on the query handle of the
state it returns. -/
theorem gsm_subscr_insert_jobs (ms : osmocom_ms) :
    ∃ delta, (gsm_subscr_insert ms).2.trace = ms.trace ++ delta ∧ (jobs delta).length ≤ 1 ∧
      ∀ m ∈ jobs delta, m.sh.handle = (gsm_subscr_insert ms).2.subscr.sim_handle_query := by
  by_cases hv : ms.subscr.sim_valid = true
  · exact ⟨[], by simp [gsm_subscr_insert, hv], by simp [jobs], by simp [jobs]⟩
  · obtain ⟨r1, -, -⟩ := gsm_subscr_reset_env ms
    obtain ⟨ms2, hms2⟩ : ∃ x : osmocom_ms, x = (gsm_subscr_init (gsm_subscr_exit ms).2).2 :=
      ⟨_, rfl⟩
    rw [← hms2] at r1
    obtain ⟨ms3, hms3⟩ : ∃ x : osmocom_ms,
        x = { ms2 with subscr := { ms2.subscr with sim_valid := true } } := ⟨_, rfl⟩
    have htr3 : ms3.trace = ms.trace := by rw [hms3]; exact r1
    have key : gsm_subscr_insert ms =
        match (if ms2.settings.sim_type = GSM_SIM_TYPE_L1PHY then
                 some (gsm_subscr_insert_simcard ms3)
               else if ms2.settings.sim_type = GSM_SIM_TYPE_TEST then
                 some (gsm_subscr_insert_testcard ms3)
               else if ms2.settings.sim_type = GSM_SIM_TYPE_SAP then
                 some (gsm_subscr_insert_sapcard ms3)
               else none : Option (Int × osmocom_ms)) with
        | none => (-EINVAL, ms3)
        | some r =>
          if r.1 < 0 then (r.1, { r.2 with subscr := { r.2.subscr with sim_valid := false } })
          else (r.1, r.2) := by
      unfold gsm_subscr_insert
      simp only [hv, Bool.false_eq_true, if_false, ← hms2]
      rw [← hms3]
    have hback : ∀ r : Int × osmocom_ms,
        (∃ delta, r.2.trace = ms.trace ++ delta ∧ (jobs delta).length ≤ 1 ∧
          ∀ m ∈ jobs delta, m.sh.handle = r.2.subscr.sim_handle_query) →
        ∃ delta,
          (if r.1 < 0 then
            (r.1, { r.2 with subscr := { r.2.subscr with sim_valid := false } })
           else (r.1, r.2)).2.trace = ms.trace ++ delta ∧ (jobs delta).length ≤ 1 ∧
          ∀ m ∈ jobs delta, m.sh.handle =
            (if r.1 < 0 then
              (r.1, { r.2 with subscr := { r.2.subscr with sim_valid := false } })
             else (r.1, r.2)).2.subscr.sim_handle_query := by
      intro r h
      split_ifs
      · exact h
      · exact h
    rw [key]
    by_cases h1 : ms2.settings.sim_type = GSM_SIM_TYPE_L1PHY
    · rw [if_pos h1]
      apply hback
      unfold gsm_subscr_insert_simcard
      obtain ⟨y, hy⟩ : ∃ x : osmocom_ms,
          x = { ms3 with subscr := { ms3.subscr with
                                     sim_type := gsm_subscr_sim_type.L1PHY
                                     sim_name := "sim".toList
                                     ustate := GSM_SIM_U2_NOT_UPDATED
                                     sim_file_index := 0 } } := ⟨_, rfl⟩
      rw [← hy]
      obtain ⟨delta, a1, a2, a3⟩ := subscr_sim_request_jobs y
      have hty : y.trace = ms.trace := by rw [hy]; exact htr3
      refine ⟨delta, by rw [a1, hty], a2, ?_⟩
      rw [(subscr_sim_request_keeps y).1]
      exact a3
    · rw [if_neg h1]
      by_cases h2 : ms2.settings.sim_type = GSM_SIM_TYPE_TEST
      · rw [if_pos h2]
        apply hback
        unfold gsm_subscr_insert_testcard
        dsimp only
        by_cases hi : ¬ osmo_imsi_str_valid ms3.settings.test_sim.imsi = true
        · rw [if_pos hi]
          exact ⟨[], by simp [htr3], by simp [jobs], by simp [jobs]⟩
        · rw [if_neg hi]
          refine ⟨[effect.signal l23_subscr_signal.S_L23_SUBSCR_SIM_ATTACHED], ?_,
            by simp [jobs], by simp [jobs]⟩
          simp only [osmo_signal_dispatch, htr3]
      · rw [if_neg h2]
        by_cases h3 : ms2.settings.sim_type = GSM_SIM_TYPE_SAP
        · rw [if_pos h3]
          apply hback
          unfold gsm_subscr_insert_sapcard
          dsimp only
          split_ifs
          · exact ⟨[effect.notify vty_notice.clear, effect.notify vty_notice.sap_connecting,
                effect.sap_open, effect.notify vty_notice.sap_error,
                effect.signal l23_subscr_signal.S_L23_SUBSCR_SIM_DETACHED],
              by simp [osmo_signal_dispatch, l23_vty_ms_notify, htr3], by simp [jobs],
              by simp [jobs]⟩
          · exact ⟨[effect.notify vty_notice.clear, effect.notify vty_notice.sap_connecting,
                effect.sap_open],
              by simp [l23_vty_ms_notify, htr3], by simp [jobs], by simp [jobs]⟩
        · rw [if_neg h3]
          exact ⟨[], by simp [htr3], by simp [jobs], by simp [jobs]⟩

/-! ## The claims C21 to C30 -/

/-- C21: the table `subscr_sim_files` has 13 rows: twelve rows with a decode
function, in the order ICCID (no directory, file 0x2fe2), IMSI (0x7f20/0x6f07), LOCI
(0x7f20/0x6f7e), LOCIGPRS (0x7f20/0x6f53), these four mandatory, then the optional
Kc, PLMN selector, HPLMN interval, SPN, access classes and forbidden PLMNs under
0x7f20, read as binary files, then MSISDN and SMSP under 0x7f10, read as records,
and a last row without decode function.  With the cursor at `i < 12` and the job
allocated, `subscr_sim_request` returns 0 and issues exactly one job, on the query
handle, with the job kind, the path and the file of row `i`. -/
theorem sim_files_table_and_request (ms : osmocom_ms) (i : Nat)
    (hi : ms.subscr.sim_file_index = i) (hlt : i < 12) (hal : allocs_ok ms) :
    subscr_sim_files.length = 13 ∧
    subscr_sim_files.map (fun sf => (sf.mandatory, sf.path.takeWhile (fun c => c ≠ 0), sf.file,
        sf.sim_job)) =
      [ (1, [], 0x2fe2, SIM_JOB_READ_BINARY),
        (1, [0x7f20], 0x6f07, SIM_JOB_READ_BINARY),
        (1, [0x7f20], 0x6f7e, SIM_JOB_READ_BINARY),
        (1, [0x7f20], 0x6f53, SIM_JOB_READ_BINARY),
        (0, [0x7f20], 0x6f20, SIM_JOB_READ_BINARY),
        (0, [0x7f20], 0x6f30, SIM_JOB_READ_BINARY),
        (0, [0x7f20], 0x6f31, SIM_JOB_READ_BINARY),
        (0, [0x7f20], 0x6f46, SIM_JOB_READ_BINARY),
        (0, [0x7f20], 0x6f78, SIM_JOB_READ_BINARY),
        (0, [0x7f20], 0x6f7b, SIM_JOB_READ_BINARY),
        (0, [0x7f10], 0x6f40, SIM_JOB_READ_RECORD),
        (0, [0x7f10], 0x6f42, SIM_JOB_READ_RECORD),
        (0, [], 0, 0) ] ∧
    subscr_sim_files.map (fun sf => sf.func) =
      [ some subscr_sim_iccid, some subscr_sim_imsi, some subscr_sim_loci,
        some subscr_sim_locigprs, some subscr_sim_kc, some subscr_sim_plmnsel,
        some subscr_sim_hpplmn, some subscr_sim_spn, some subscr_sim_acc,
        some subscr_sim_fplmn, some subscr_sim_msisdn, some subscr_sim_smsp, none ] ∧
    (subscr_sim_request ms).1 = 0 ∧
    (subscr_sim_request ms).2.trace =
      ms.trace ++ [effect.job
        { sh := { handle := ms.subscr.sim_handle_query,
                  job_type := (subscr_sim_files.getD i subscr_sim_file_end).sim_job,
                  path := (subscr_sim_files.getD i subscr_sim_file_end).path.takeWhile
                    (fun c => c ≠ 0),
                  file := (subscr_sim_files.getD i subscr_sim_file_end).file,
                  rec_no := 1, rec_mode := 0x04 },
          payload := [] }] := by
  refine ⟨rfl, by decide, rfl, ?_, ?_⟩
  · rw [subscr_sim_request_job ms (sim_file_at_some _ (by rw [hi]; exact hlt)),
      if_pos (try_alloc_ok ms hal).1]
  · rw [subscr_sim_request_job ms (sim_file_at_some _ (by rw [hi]; exact hlt)),
      if_pos (try_alloc_ok ms hal).1]
    simp only [sim_job, (try_alloc_frame ms).2.1, sim_request_msg, sim_file_at, hi]

/-- Witness of C21: with the cursor at row 10 the record 1 of EF-MSISDN is requested. -/
theorem sim_files_table_and_request_witness :
    (subscr_sim_request (ms_reading 10)).2.trace =
      [effect.job
        { sh := { handle := 1, job_type := SIM_JOB_READ_RECORD, path := [0x7f10],
                  file := 0x6f40, rec_no := 1, rec_mode := 0x04 },
          payload := [] }] :=
  (sim_files_table_and_request (ms_reading 10) 10 rfl (by decide) (by decide)).2.2.2.2

/-- C22: with no card present, the relay card configured and `sap_open` returning a
negative value, `gsm_subscr_insert` returns that value, ends with `sim_valid = false`
and appends to the trace the two connection notices, the call of `sap_open`, the
error notice and exactly one SIM_DETACHED signal; no job is issued. -/
theorem insert_sapcard_open_failure (ms : osmocom_ms) (hnv : ms.subscr.sim_valid = false)
    (hty : ms.settings.sim_type = GSM_SIM_TYPE_SAP) (hrc : ms.sap_open_rc < 0) :
    (gsm_subscr_insert ms).1 = ms.sap_open_rc ∧
    (gsm_subscr_insert ms).2.subscr.sim_valid = false ∧
    (gsm_subscr_insert ms).2.trace =
      ms.trace ++
        [effect.notify vty_notice.clear, effect.notify vty_notice.sap_connecting,
         effect.sap_open, effect.notify vty_notice.sap_error,
         effect.signal l23_subscr_signal.S_L23_SUBSCR_SIM_DETACHED] := by
  obtain ⟨r1, r2, r3⟩ := gsm_subscr_reset_env ms
  obtain ⟨ms2, hms2⟩ : ∃ x : osmocom_ms, x = (gsm_subscr_init (gsm_subscr_exit ms).2).2 :=
    ⟨_, rfl⟩
  rw [← hms2] at r1 r2 r3
  have hty2 : ms2.settings.sim_type = GSM_SIM_TYPE_SAP := by rw [r2]; exact hty
  have hrc2 : ms2.sap_open_rc < 0 := by rw [r3]; exact hrc
  unfold gsm_subscr_insert
  simp only [hnv, Bool.false_eq_true, if_false, ← hms2, hty2, gsm_subscr_insert_sapcard,
    l23_vty_ms_notify, osmo_signal_dispatch, hrc2, if_true, r1, r3, hrc]
  simp [GSM_SIM_TYPE_SAP, GSM_SIM_TYPE_L1PHY, GSM_SIM_TYPE_TEST]

/-- Witness of C22: the relay refuses the session with -1. -/
theorem insert_sapcard_open_failure_witness :
    (gsm_subscr_insert ms_boot_sap).1 = -1 ∧
    (gsm_subscr_insert ms_boot_sap).2.subscr.sim_valid = false :=
  ⟨(insert_sapcard_open_failure ms_boot_sap rfl rfl (by decide)).1,
   (insert_sapcard_open_failure ms_boot_sap rfl rfl (by decide)).2.1⟩

/-- C23, the code: for every record and payload, every entry of the preferred list
after `subscr_sim_plmnsel` is the zero PLMN of `talloc_zero`, because the decoder
calls `osmo_plmn_to_bcd(&data[0], &plmn->plmn)`, which encodes the fresh entry into
the payload instead of decoding the payload into the entry.  At the failing input,
the payload 62 f2 10 62 f2 20 ff ff ff, whose triplets decode to 262-01 and 262-02,
the decoder returns 0 and the list holds two entries 000-00. -/
theorem plmnsel_entries_not_decoded (ms : osmocom_ms) (data : List Nat) (length : Nat) :
    (∃ k, (subscr_sim_plmnsel ms data length).2.subscr.plmn_list =
      List.replicate k { plmn := osmo_plmn_id_zero }) ∧
    osmo_plmn_from_bcd [0x62, 0xf2, 0x10] = plmn_262_01 ∧
    osmo_plmn_from_bcd [0x62, 0xf2, 0x20] = plmn_262_02 ∧
    (subscr_sim_plmnsel (ms_reading 5) [0x62, 0xf2, 0x10, 0x62, 0xf2, 0x20, 0xff, 0xff, 0xff]
        9).1 = 0 ∧
    (subscr_sim_plmnsel (ms_reading 5) [0x62, 0xf2, 0x10, 0x62, 0xf2, 0x20, 0xff, 0xff, 0xff]
        9).2.subscr.plmn_list =
      [{ plmn := { mcc := 0, mnc := 0, mnc_3_digits := false } },
       { plmn := { mcc := 0, mnc := 0, mnc_3_digits := false } }] := by
  refine ⟨?_, by decide, by decide, by decide, by decide⟩
  obtain ⟨k, hk⟩ := subscr_sim_plmnsel_loop_list length
    { ms with subscr := { ms.subscr with plmn_list := [] } } data length
  exact ⟨k, by unfold subscr_sim_plmnsel; rw [hk]; rfl⟩

/-- C24, as stated, fails: `gsm_subscr_remove` on a present card with one preferred
and one forbidden entry returns 0 and leaves both lists as they were. -/
theorem remove_keeps_lists :
    ms_lists.subscr.sim_valid = true ∧
    (gsm_subscr_remove ms_lists).1 = 0 ∧
    (gsm_subscr_remove ms_lists).2.subscr.plmn_list = [{ plmn := plmn_262_02 }] ∧
    (gsm_subscr_remove ms_lists).2.subscr.plmn_na = [na_of 262 2] := by
  decide

/-- C24, amended: after `gsm_subscr_exit` both PLMN lists are empty;
`gsm_subscr_remove` on a present card returns 0, leaves the whole record (both lists
included) unchanged, and only closes the relay session of a relay card and sends
one SIM_DETACHED signal. -/
theorem exit_flushes_lists_remove_detaches (ms : osmocom_ms) :
    (gsm_subscr_exit ms).2.subscr.plmn_list = [] ∧
    (gsm_subscr_exit ms).2.subscr.plmn_na = [] ∧
    (ms.subscr.sim_valid = true →
      (gsm_subscr_remove ms).1 = 0 ∧
      (gsm_subscr_remove ms).2.subscr = ms.subscr ∧
      (gsm_subscr_remove ms).2.trace =
        ms.trace ++
          (if ms.subscr.sim_type = gsm_subscr_sim_type.SAP then [effect.sap_close] else []) ++
          [effect.signal l23_subscr_signal.S_L23_SUBSCR_SIM_DETACHED]) := by
  refine ⟨rfl, rfl, ?_⟩
  intro hv
  unfold gsm_subscr_remove gsm_subscr_remove_sapcard sap_close osmo_signal_dispatch
  simp only [hv, not_true_eq_false, if_false]
  split_ifs <;> simp

/-- Witness of C24 amended: the card with one entry in each list. -/
theorem exit_flushes_lists_remove_detaches_witness :
    (gsm_subscr_exit ms_lists).2.subscr.plmn_na = [] ∧
    (gsm_subscr_remove ms_lists).2.subscr = ms_lists.subscr :=
  ⟨(exit_flushes_lists_remove_detaches ms_lists).2.1,
   ((exit_flushes_lists_remove_detaches ms_lists).2.2 rfl).2.1⟩

/-- C25: for every state (any cursor) and every error response on the query handle
whose cause is PIN1_REQUIRED, PIN1_BLOCKED or PUC_BLOCKED, `subscr_sim_query_cb`
changes the record in `sim_pin_required` only, which it sets, and appends to the
trace nothing but user notices: no job, no attach or detach signal. -/
theorem query_cb_pin_causes_wait (ms : osmocom_ms) (msg : msgb)
    (herr : msg.sh.job_type = SIM_JOB_ERROR)
    (hc : rd msg.payload 0 = SIM_CAUSE_PIN1_REQUIRED ∨ rd msg.payload 0 = SIM_CAUSE_PIN1_BLOCKED ∨
          rd msg.payload 0 = SIM_CAUSE_PUC_BLOCKED) :
    (subscr_sim_query_cb ms msg).subscr = { ms.subscr with sim_pin_required := true } ∧
    ∃ notes : List vty_notice,
      (subscr_sim_query_cb ms msg).trace = ms.trace ++ notes.map effect.notify := by
  unfold subscr_sim_query_cb
  rcases hc with hc | hc | hc
  · simp only [herr, if_true, hc, l23_vty_ms_notify]
    refine ⟨by trivial, [vty_notice.clear, vty_notice.give_pin ms.subscr.iccid (rd msg.payload 1)],
      ?_⟩
    simp
  · have h1 : ¬ SIM_CAUSE_PIN1_BLOCKED = SIM_CAUSE_PIN1_REQUIRED := by decide
    simp only [herr, if_true, hc, h1, if_false, l23_vty_ms_notify]
    by_cases hp : rd msg.payload 1 ≠ 0
    · rw [if_pos hp]
      refine ⟨by trivial, [vty_notice.clear, vty_notice.pin_blocked,
        vty_notice.give_puc ms.subscr.iccid (rd msg.payload 1)], ?_⟩
      simp
    · rw [if_neg hp]
      refine ⟨by trivial, [vty_notice.clear, vty_notice.pin_blocked], ?_⟩
      simp
  · have h1 : ¬ SIM_CAUSE_PUC_BLOCKED = SIM_CAUSE_PIN1_REQUIRED := by decide
    have h2 : ¬ SIM_CAUSE_PUC_BLOCKED = SIM_CAUSE_PIN1_BLOCKED := by decide
    simp only [herr, if_true, hc, h1, h2, if_false, l23_vty_ms_notify]
    refine ⟨by trivial, [vty_notice.clear, vty_notice.puc_blocked], ?_⟩
    simp

/-- Witness of C25: the card asks for the PIN while the IMSI, row 1, is requested. -/
theorem query_cb_pin_causes_wait_witness :
    (subscr_sim_query_cb (ms_reading 1) (sim_rsp_error SIM_CAUSE_PIN1_REQUIRED 3)).subscr =
      { (ms_reading 1).subscr with sim_pin_required := true } :=
  (query_cb_pin_causes_wait (ms_reading 1) (sim_rsp_error SIM_CAUSE_PIN1_REQUIRED 3) rfl
    (Or.inl (by decide))).1

/-- C26, as stated, fails for each of the three handles, with no response consumed
in between: one call of `gsm_subscr_add_forbidden_plmn` for a listed PLMN issues two
jobs on the update handle; `gsm_subscr_sim_pin` (enable PIN) right after
`gsm_subscr_insert` issues a second job on the query handle; two calls of
`gsm_subscr_generate_kc` issue two jobs on the key handle. -/
theorem handles_get_second_request :
    (ms_home [na_of 262 2]).trace = [] ∧
    (ms_home [na_of 262 2]).subscr.sim_handle_update = 2 ∧
    (jobs_on 2 (gsm_subscr_add_forbidden_plmn (ms_home [na_of 262 2]) plmn_262_02
      11).2.trace).length = 2 ∧
    (gsm_subscr_insert ms_boot).2.subscr.sim_handle_query = 1 ∧
    (jobs_on 1 (gsm_subscr_insert ms_boot).2.trace).length = 1 ∧
    (jobs_on 1 (gsm_subscr_sim_pin (gsm_subscr_insert ms_boot).2 "1234".toList [] 1).2.trace).length
      = 2 ∧
    (ms_home []).subscr.sim_handle_key = 3 ∧
    (jobs_on 3 (gsm_subscr_generate_kc auth_gen_fixed
      (gsm_subscr_generate_kc auth_gen_fixed (ms_home []) 1 rand_example false).2 2 rand_example
      false).2.trace).length = 2 := by
  decide

/-- C26, amended: the read sequence itself issues at most one request for each
response it consumes.  For every state and every list of responses delivered to
`subscr_sim_query_cb`, the number of jobs issued on the query handle grows by at
most the number of responses, and no job is issued on any other handle `h`; the
same holds from `gsm_subscr_insert` on, which issues at most one job: after an
insertion and `n` consumed responses at most `1 + n` jobs were issued on the query
handle. -/
theorem read_sequence_one_job_per_response (ms : osmocom_ms) (msgs : List msgb) (h : Nat) :
    (jobs_on ms.subscr.sim_handle_query (sim_query_run ms msgs).trace).length ≤
      (jobs_on ms.subscr.sim_handle_query ms.trace).length + msgs.length ∧
    (h ≠ ms.subscr.sim_handle_query →
      jobs_on h (sim_query_run ms msgs).trace = jobs_on h ms.trace) ∧
    (jobs_on (gsm_subscr_insert ms).2.subscr.sim_handle_query
        (sim_query_run (gsm_subscr_insert ms).2 msgs).trace).length ≤
      (jobs_on (gsm_subscr_insert ms).2.subscr.sim_handle_query ms.trace).length +
        (1 + msgs.length) ∧
    (h ≠ (gsm_subscr_insert ms).2.subscr.sim_handle_query →
      jobs_on h (sim_query_run (gsm_subscr_insert ms).2 msgs).trace = jobs_on h ms.trace) := by
  obtain ⟨⟨d, a1, a2, a3⟩, -⟩ := sim_query_run_jobs msgs ms
  obtain ⟨d0, b1, b2, b3⟩ := gsm_subscr_insert_jobs ms
  obtain ⟨⟨d1, c1, c2, c3⟩, -⟩ := sim_query_run_jobs msgs (gsm_subscr_insert ms).2
  have hall : (sim_query_run (gsm_subscr_insert ms).2 msgs).trace = ms.trace ++ (d0 ++ d1) := by
    rw [c1, b1, List.append_assoc]
  have hn : (jobs (d0 ++ d1)).length ≤ 1 + msgs.length := by
    rw [jobs_append, List.length_append]
    omega
  have hq : ∀ m ∈ jobs (d0 ++ d1),
      m.sh.handle = (gsm_subscr_insert ms).2.subscr.sim_handle_query := by
    intro m hm
    rw [jobs_append, List.mem_append] at hm
    rcases hm with hm | hm
    · exact b3 m hm
    · exact c3 m hm
  rw [a1, hall]
  exact ⟨(jobs_on_bound _ h _ _ _ a2 a3).1, (jobs_on_bound _ h _ _ _ a2 a3).2,
    (jobs_on_bound _ h _ _ _ hn hq).1, (jobs_on_bound _ h _ _ _ hn hq).2⟩

/-- Witness of C26 amended: the insertion at program start and twelve responses. -/
theorem read_sequence_one_job_per_response_witness :
    (jobs_on 1 (sim_query_run (gsm_subscr_insert ms_boot).2 sim_rsps_accepted).trace).length ≤
      (jobs_on 1 ms_boot.trace).length + (1 + sim_rsps_accepted.length) ∧
    jobs_on 2 (sim_query_run (gsm_subscr_insert ms_boot).2 sim_rsps_accepted).trace =
      jobs_on 2 ms_boot.trace :=
  ⟨(read_sequence_one_job_per_response ms_boot sim_rsps_accepted 2).2.2.1,
   (read_sequence_one_job_per_response ms_boot sim_rsps_accepted 2).2.2.2 (by decide)⟩

/-- C27, as stated, fails: for a response of an unsupported type with the result
code OK, `gsm_subscr_sap_rsp_cb` returns `-ENOTSUP`, not 0. -/
theorem sap_rsp_unsupported_returns_error :
    (gsm_subscr_sap_rsp_cb sim_apdu_resp_ok (ms_sap_card 0) SAP_RESULT_OK_REQ_PROC_CORR 0x55 0
      none).1 = -ENOTSUP ∧
    -ENOTSUP ≠ 0 := by
  decide

/-- C27, amended: for every call of `gsm_subscr_sap_rsp_cb` whose result code is
not SAP_RESULT_OK_REQ_PROC_CORR, or whose response type is neither the APDU nor the
ATR response, the state of the station is unchanged (record, trace: no job, no
signal); the call returns 0 for the relay error and `-ENOTSUP` for the unsupported
type under an OK result code. -/
theorem sap_rsp_ignored (sim_apdu_resp : osmocom_ms → List Nat → Int × osmocom_ms)
    (ms : osmocom_ms) (res_code : Int) (res_type param_len : Nat)
    (param_val : Option (List Nat)) (hty : res_type < 256)
    (h : res_code ≠ SAP_RESULT_OK_REQ_PROC_CORR ∨
         (res_type ≠ SAP_TRANSFER_APDU_RESP ∧ res_type ≠ SAP_TRANSFER_ATR_RESP)) :
    (gsm_subscr_sap_rsp_cb sim_apdu_resp ms res_code res_type param_len param_val).2 = ms ∧
    (gsm_subscr_sap_rsp_cb sim_apdu_resp ms res_code res_type param_len param_val).1 =
      if res_code ≠ SAP_RESULT_OK_REQ_PROC_CORR then 0 else -ENOTSUP := by
  unfold gsm_subscr_sap_rsp_cb
  rw [Nat.mod_eq_of_lt hty]
  by_cases hr : res_code ≠ SAP_RESULT_OK_REQ_PROC_CORR
  · rw [if_pos hr, if_pos hr]
    exact ⟨rfl, rfl⟩
  · rcases h with h | ⟨h1, h2⟩
    · exact absurd h hr
    · rw [if_neg hr, if_neg h1, if_neg h2, if_neg hr]
      exact ⟨rfl, rfl⟩

/-- Witness of C27 amended: an ATR response with the result code 1. -/
theorem sap_rsp_ignored_witness :
    (gsm_subscr_sap_rsp_cb sim_apdu_resp_ok (ms_sap_card 0) 1 SAP_TRANSFER_ATR_RESP 0 none).2 =
      ms_sap_card 0 ∧
    (gsm_subscr_sap_rsp_cb sim_apdu_resp_ok (ms_sap_card 0) 1 SAP_TRANSFER_ATR_RESP 0 none).1 =
      if (1 : Int) ≠ SAP_RESULT_OK_REQ_PROC_CORR then 0 else -ENOTSUP :=
  sap_rsp_ignored sim_apdu_resp_ok (ms_sap_card 0) 1 SAP_TRANSFER_ATR_RESP 0 none (by decide)
    (Or.inl (by decide))

/-- C28: for every state, PLMN `p` and 8 bit cause `c`, when the allocations succeed
the last entry of the forbidden list after `gsm_subscr_add_forbidden_plmn` has the
PLMN `p` and the cause `c` if `c ≠ 0`, the value -1 the source writes for
"unspecified" if `c = 0`; its cause is never 0. -/
theorem add_forbidden_tail_cause (ms : osmocom_ms) (p : osmo_plmn_id) (c : Nat)
    (hc : c < 256) (hal : allocs_ok ms) :
    ∃ rest na, (gsm_subscr_add_forbidden_plmn ms p c).2.subscr.plmn_na = rest ++ [na] ∧
      na.plmn = p ∧ (c ≠ 0 → na.cause = (c : Int)) ∧ (c = 0 → na.cause = -1) ∧
      na.cause ≠ 0 := by
  refine ⟨_, _, gsm_subscr_add_forbidden_plmn_list ms p c hal, rfl, ?_, ?_, ?_⟩
  · intro h
    simp [Nat.mod_eq_of_lt hc, h]
  · intro h
    simp [h]
  · rw [Nat.mod_eq_of_lt hc]
    by_cases h : c ≠ 0
    · rw [if_pos h]
      show (c : Int) ≠ 0
      exact_mod_cast h
    · rw [if_neg h]
      show (-1 : Int) ≠ 0
      decide

/-- Witness of C28: 262-02 is added with the cause 0. -/
theorem add_forbidden_tail_cause_witness :
    ∃ rest na,
      (gsm_subscr_add_forbidden_plmn (ms_home [na_of 262 2]) plmn_262_02 0).2.subscr.plmn_na =
        rest ++ [na] ∧
      na.plmn = plmn_262_02 ∧ (0 ≠ 0 → na.cause = ((0 : Nat) : Int)) ∧ (0 = 0 → na.cause = -1) ∧
      na.cause ≠ 0 :=
  add_forbidden_tail_cause (ms_home [na_of 262 2]) plmn_262_02 0 (by decide) (by decide)

/-- C29: if the forbidden list is `pre ++ x :: post`, where no entry of `pre` equals
`p` and `x` does (by `osmo_plmn_cmp`: MCC, MNC and MNC digit count), the list after
`gsm_subscr_del_forbidden_plmn(p)` is `pre ++ post`: the first equal entry is
removed, later equal entries and all others stay, in their order. -/
theorem del_forbidden_removes_first_match (ms : osmocom_ms) (p : osmo_plmn_id)
    (pre post : List gsm_sub_plmn_na) (x : gsm_sub_plmn_na)
    (hl : ms.subscr.plmn_na = pre ++ x :: post)
    (hpre : ∀ y ∈ pre, osmo_plmn_cmp y.plmn p ≠ 0)
    (hx : osmo_plmn_cmp x.plmn p = 0) :
    (gsm_subscr_del_forbidden_plmn ms (some p)).2.subscr.plmn_na = pre ++ post := by
  rw [(gsm_subscr_del_forbidden_plmn_state ms p).1, hl,
    del_forbidden_loop_first p pre post x hpre hx]

/-- Witness of C29: 262-02 is listed twice; the first of the two entries goes. -/
theorem del_forbidden_removes_first_match_witness :
    (gsm_subscr_del_forbidden_plmn
        (ms_forbidden [na_of 262 1, { plmn := plmn_262_02, cause := 11 }, na_of 262 3,
          { plmn := plmn_262_02, cause := 13 }])
        (some plmn_262_02)).2.subscr.plmn_na =
      [na_of 262 1] ++ [na_of 262 3, { plmn := plmn_262_02, cause := 13 }] :=
  del_forbidden_removes_first_match _ plmn_262_02 [na_of 262 1]
    [na_of 262 3, { plmn := plmn_262_02, cause := 13 }] { plmn := plmn_262_02, cause := 11 }
    rfl (by decide) (by decide)

/-- C30, the code at failing inputs.  The one byte payload 00 is accepted
(`strlen(imsi) - 1 < 6` is evaluated in `size_t`, where 0 - 1 is not below 6) and
the IMSI stored is what the static buffer of `sim_decode_bcd` holds behind its first
byte: nothing on a fresh buffer, the ICCID digits 2 to 16 after the ICCID was
decoded.  A payload with a nibble 0xA is accepted as well and gives an IMSI with the
character `:`. -/
theorem imsi_decoder_accepts_invalid :
    (subscr_sim_imsi (ms_reading 1) [0x00] 1).1 = 0 ∧
    (subscr_sim_imsi (ms_reading 1) [0x00] 1).2.subscr.imsi = [] ∧
    (subscr_sim_iccid (ms_reading 0)
        [0x98, 0x94, 0x20, 0x00, 0x10, 0x32, 0x54, 0x76, 0x98, 0x10] 10).2.subscr.iccid =
      "89490200012345678901".toList ∧
    (subscr_sim_imsi (subscr_sim_iccid (ms_reading 0)
        [0x98, 0x94, 0x20, 0x00, 0x10, 0x32, 0x54, 0x76, 0x98, 0x10] 10).2 [0x00] 1).1 = 0 ∧
    (subscr_sim_imsi (subscr_sim_iccid (ms_reading 0)
        [0x98, 0x94, 0x20, 0x00, 0x10, 0x32, 0x54, 0x76, 0x98, 0x10] 10).2 [0x00]
        1).2.subscr.imsi = "949020001234567".toList ∧
    (subscr_sim_imsi (ms_reading 1) [8, 0x29, 0x26, 0x10, 0xA1, 0x32, 0x54, 0x76, 0xF8] 9).1 = 0 ∧
    (subscr_sim_imsi (ms_reading 1) [8, 0x29, 0x26, 0x10, 0xA1, 0x32, 0x54, 0x76, 0xF8]
        9).2.subscr.imsi = "262011:2345678".toList := by
  decide

/-! ## Lemmas for the decoders, the cursor and the distinct entries -/

/-- The forbidden list after the loop of `subscr_sim_fplmn`: the entries it had,
followed by zero-allocated entries with the cause -1 only. -/
theorem subscr_sim_fplmn_loop_list (fuel : Nat) :
    ∀ (ms : osmocom_ms) (data : List Nat) (length : Nat),
      ∃ k, (subscr_sim_fplmn_loop fuel ms data length).2.subscr.plmn_na =
        ms.subscr.plmn_na ++ List.replicate k { plmn := osmo_plmn_id_zero, cause := -1 } := by
  induction fuel with
  | zero => intro ms data length; exact ⟨0, by simp [subscr_sim_fplmn_loop]⟩
  | succ n ih =>
    intro ms data length
    unfold subscr_sim_fplmn_loop
    dsimp only
    obtain ⟨hs, -, -, -⟩ := try_alloc_frame ms
    split_ifs with h1 h2 h3
    · exact ⟨0, by simp⟩
    · obtain ⟨k, hk⟩ := ih
        { (try_alloc ms).2 with
          subscr := { (try_alloc ms).2.subscr with
                      plmn_na := (try_alloc ms).2.subscr.plmn_na ++
                        [{ plmn := osmo_plmn_id_zero, cause := -1 }] } }
        ((osmo_plmn_to_bcd osmo_plmn_id_zero ++ data.drop 3).drop 3) (length - 3)
      refine ⟨k + 1, ?_⟩
      rw [hk]
      simp only [hs, List.append_assoc, List.singleton_append, List.replicate_succ]
    · exact ⟨0, by simp [hs]⟩
    · exact ⟨0, by simp⟩

theorem load_be_4 (data : List Nat) :
    load_be data 0 4 =
      rd data 0 * 16777216 + rd data 1 * 65536 + rd data 2 * 256 + rd data 3 := by
  simp only [load_be, Nat.zero_add]
  ring

theorem osmo_plmn_cmp_eq_zero_iff (a b : osmo_plmn_id) :
    osmo_plmn_cmp a b = 0 ↔
      a.mcc = b.mcc ∧ a.mnc = b.mnc ∧ (99 < a.mnc ∨ a.mnc_3_digits = b.mnc_3_digits) := by
  unfold osmo_plmn_cmp osmo_mnc_cmp
  constructor
  · intro h
    split_ifs at h with h1 h2 h3 h4 h5 h6 h7 <;>
      first
      | exact absurd h (by decide)
      | exact ⟨by omega, by omega, Or.inl (by omega)⟩
      | exact ⟨by omega, by omega, Or.inr h6⟩
  · rintro ⟨h1, h2, h3⟩
    rw [if_neg (by omega), if_neg (by omega), if_neg (by omega), if_neg (by omega)]
    rcases h3 with h3 | h3
    · rw [if_pos (by omega)]
    · by_cases h9 : a.mnc > 99
      · rw [if_pos h9]
      · rw [if_neg h9, if_pos h3]

theorem osmo_plmn_cmp_refl (p : osmo_plmn_id) : osmo_plmn_cmp p p = 0 :=
  (osmo_plmn_cmp_eq_zero_iff p p).mpr ⟨rfl, rfl, Or.inr rfl⟩

/-- Two PLMNs that equal a third one are equal. -/
theorem osmo_plmn_cmp_trans (a b p : osmo_plmn_id) (ha : osmo_plmn_cmp a p = 0)
    (hb : osmo_plmn_cmp b p = 0) : osmo_plmn_cmp a b = 0 := by
  rw [osmo_plmn_cmp_eq_zero_iff] at ha hb ⊢
  obtain ⟨a1, a2, a3⟩ := ha
  obtain ⟨b1, b2, b3⟩ := hb
  refine ⟨by omega, by omega, ?_⟩
  rcases a3 with a3 | a3
  · exact Or.inl a3
  · rcases b3 with b3 | b3
    · exact Or.inl (by omega)
    · exact Or.inr (a3.trans b3.symm)

theorem del_forbidden_loop_sublist (plmn : Option osmo_plmn_id) (l : List gsm_sub_plmn_na) :
    (del_forbidden_loop plmn l).1.Sublist l := by
  induction l with
  | nil => exact List.Sublist.slnil
  | cons a l ih =>
    unfold del_forbidden_loop
    cases plmn with
    | none => exact List.Sublist.cons a ih
    | some p =>
      dsimp only
      split_ifs
      · exact List.sublist_cons_self a l
      · exact List.Sublist.cons₂ a ih

/-- After the removal of `p` from a list without equal entries no entry equals `p`. -/
theorem del_forbidden_loop_clears (p : osmo_plmn_id) (l : List gsm_sub_plmn_na)
    (hd : plmn_na_distinct l) :
    ∀ y ∈ (del_forbidden_loop (some p) l).1, osmo_plmn_cmp y.plmn p ≠ 0 := by
  by_cases h : ∃ na ∈ l, osmo_plmn_cmp na.plmn p = 0
  · obtain ⟨pre, x, post, hsplit, hx, hpre, hdel⟩ := del_forbidden_loop_present p l h
    rw [hdel]
    intro y hy
    rcases List.mem_append.mp hy with hy | hy
    · exact hpre y hy
    · intro hyp
      unfold plmn_na_distinct at hd
      rw [hsplit, List.pairwise_append] at hd
      have hxy := (List.pairwise_cons.mp hd.2.1).1 y hy
      exact hxy (osmo_plmn_cmp_trans x.plmn y.plmn p hx hyp)
  · have habs : ∀ na ∈ l, osmo_plmn_cmp na.plmn p ≠ 0 := by
      intro na hna hc
      exact h ⟨na, hna, hc⟩
    rw [del_forbidden_loop_absent p l habs]
    exact habs

/-- The two outcomes of `gsm_subscr_add_forbidden_plmn`: the entry could not be
allocated, or it is the new tail of the list. -/
theorem gsm_subscr_add_forbidden_plmn_cases (ms : osmocom_ms) (p : osmo_plmn_id) (cause : Nat) :
    ((gsm_subscr_add_forbidden_plmn ms p cause).1 = -ENOMEM ∧
      (gsm_subscr_add_forbidden_plmn ms p cause).2.subscr.plmn_na =
        (del_forbidden_loop (some p) ms.subscr.plmn_na).1) ∨
    (gsm_subscr_add_forbidden_plmn ms p cause).2.subscr.plmn_na =
      (del_forbidden_loop (some p) ms.subscr.plmn_na).1 ++
        [{ plmn := p, cause := if cause % 256 ≠ 0 then ((cause % 256 : Nat) : Int) else -1 }] := by
  obtain ⟨d1, -, -, -⟩ := gsm_subscr_del_forbidden_plmn_state ms p
  obtain ⟨ms1, hms1⟩ : ∃ y : osmocom_ms,
      y = (gsm_subscr_del_forbidden_plmn ms (some p)).2 := ⟨_, rfl⟩
  rw [← hms1] at d1
  obtain ⟨hs, -, -, -⟩ := try_alloc_frame ms1
  have hl1 : ms1.subscr.plmn_na = (del_forbidden_loop (some p) ms.subscr.plmn_na).1 := by
    rw [d1]
  obtain ⟨ms2, hms2⟩ : ∃ y : osmocom_ms,
      y = { (try_alloc ms1).2 with
            subscr := { (try_alloc ms1).2.subscr with
                        plmn_na := (try_alloc ms1).2.subscr.plmn_na ++
                          [{ plmn := p,
                             cause := if cause % 256 ≠ 0 then ((cause % 256 : Nat) : Int)
                                      else -1 }] } } := ⟨_, rfl⟩
  have hl2 : ms2.subscr.plmn_na = (del_forbidden_loop (some p) ms.subscr.plmn_na).1 ++
      [{ plmn := p, cause := if cause % 256 ≠ 0 then ((cause % 256 : Nat) : Int) else -1 }] := by
    rw [hms2]
    simp only [hs, hl1]
  have key : gsm_subscr_add_forbidden_plmn ms p cause =
      if (try_alloc ms1).1 = true then
        (if (ms2.subscr.sim_valid &&
            gsm_match_mnc p.mcc p.mnc p.mnc_3_digits ms2.subscr.imsi) = true then (-EINVAL, ms2)
         else (0, (subscr_write_plmn_na ms2).2))
      else (-ENOMEM, (try_alloc ms1).2) := by
    unfold gsm_subscr_add_forbidden_plmn
    simp only [← hms1]
    rw [← hms2]
    have hv2 : ms2.subscr.sim_valid = (try_alloc ms1).2.subscr.sim_valid := by rw [hms2]
    have hi2 : ms2.subscr.imsi = (try_alloc ms1).2.subscr.imsi := by rw [hms2]
    rw [hv2, hi2]
  rw [key]
  by_cases ha : (try_alloc ms1).1 = true
  · rw [if_pos ha]
    right
    by_cases hh : (ms2.subscr.sim_valid &&
        gsm_match_mnc p.mcc p.mnc p.mnc_3_digits ms2.subscr.imsi) = true
    · rw [if_pos hh]
      exact hl2
    · rw [if_neg hh, (subscr_write_plmn_na_frame ms2).1]
      exact hl2
  · rw [if_neg ha]
    left
    exact ⟨rfl, by rw [hs, hl1]⟩

/-- The cursor after one call of `subscr_sim_query_cb`: it stays or advances by one,
and it stays inside the table. -/
theorem subscr_sim_query_cb_index (ms : osmocom_ms) (msg : msgb)
    (h12 : ms.subscr.sim_file_index ≤ 12) :
    ms.subscr.sim_file_index ≤ (subscr_sim_query_cb ms msg).subscr.sim_file_index ∧
    (subscr_sim_query_cb ms msg).subscr.sim_file_index ≤ ms.subscr.sim_file_index + 1 ∧
    (subscr_sim_query_cb ms msg).subscr.sim_file_index ≤ 12 := by
  have hnext : ∀ x : osmocom_ms, x.subscr.sim_file_index = ms.subscr.sim_file_index →
      (sim_file_at ms.subscr.sim_file_index).func.isSome = true →
      ms.subscr.sim_file_index ≤ (subscr_sim_query_next x).subscr.sim_file_index ∧
      (subscr_sim_query_next x).subscr.sim_file_index ≤ ms.subscr.sim_file_index + 1 ∧
      (subscr_sim_query_next x).subscr.sim_file_index ≤ 12 := by
    intro x hx hsome
    have hlt := sim_file_at_lt _ hsome
    unfold subscr_sim_query_next
    rw [(subscr_sim_request_frame _).1]
    show _ ≤ (x.subscr.sim_file_index + 1) % 256 ∧ (x.subscr.sim_file_index + 1) % 256 ≤ _ ∧
      (x.subscr.sim_file_index + 1) % 256 ≤ 12
    rw [hx, Nat.mod_eq_of_lt (by omega)]
    omega
  unfold subscr_sim_query_cb
  dsimp only
  by_cases herr : msg.sh.job_type = SIM_JOB_ERROR
  · rw [if_pos herr]
    by_cases h1 : rd msg.payload 0 = SIM_CAUSE_PIN1_REQUIRED
    · rw [if_pos h1]
      exact ⟨le_refl _, Nat.le_succ _, h12⟩
    · rw [if_neg h1]
      by_cases h2 : rd msg.payload 0 = SIM_CAUSE_PIN1_BLOCKED
      · rw [if_pos h2]
        by_cases hp : rd msg.payload 1 ≠ 0
        · rw [if_pos hp]
          exact ⟨le_refl _, Nat.le_succ _, h12⟩
        · rw [if_neg hp]
          exact ⟨le_refl _, Nat.le_succ _, h12⟩
      · rw [if_neg h2]
        by_cases h3 : rd msg.payload 0 = SIM_CAUSE_PUC_BLOCKED
        · rw [if_pos h3]
          exact ⟨le_refl _, Nat.le_succ _, h12⟩
        · rw [if_neg h3]
          split_ifs with h4
          · exact hnext ms rfl h4.1
          · exact ⟨le_refl _, Nat.le_succ _, h12⟩
  · rw [if_neg herr]
    by_cases hpin : ms.subscr.sim_pin_required = true
    · rw [if_pos hpin, (subscr_sim_request_frame _).1]
      exact ⟨le_refl _, Nat.le_succ _, h12⟩
    · rw [if_neg hpin]
      cases hf : (sim_file_at ms.subscr.sim_file_index).func with
      | none => exact ⟨le_refl _, Nat.le_succ _, h12⟩
      | some f =>
        obtain ⟨d1, -, -, -, -, -⟩ := subscr_sim_files_frame _ f hf ms msg.payload
          (msg.payload.length % 65536 % 256)
        dsimp only
        split_ifs with hc
        · simp only [l23_vty_ms_notify, d1]
          exact ⟨le_refl _, Nat.le_succ _, h12⟩
        · exact hnext _ d1 (by rw [hf]; rfl)

/-- The cursor after a run of `subscr_sim_query_cb` stays inside the table. -/
theorem sim_query_run_index :
    ∀ (msgs : List msgb) (ms : osmocom_ms), ms.subscr.sim_file_index ≤ 12 →
      (sim_query_run ms msgs).subscr.sim_file_index ≤ 12 := by
  intro msgs
  induction msgs with
  | nil => intro ms h; exact h
  | cons m rest ih =>
    intro ms h
    exact ih (subscr_sim_query_cb ms m) (subscr_sim_query_cb_index ms m h).2.2

/-- The cursor after `gsm_subscr_insert` when no card was present. -/
theorem gsm_subscr_insert_index (ms : osmocom_ms) (hv : ms.subscr.sim_valid = false) :
    (gsm_subscr_insert ms).2.subscr.sim_file_index = 0 := by
  obtain ⟨i1, -, -, -, -⟩ := gsm_subscr_init_frame (gsm_subscr_exit ms).2
  obtain ⟨ms2, hms2⟩ : ∃ x : osmocom_ms, x = (gsm_subscr_init (gsm_subscr_exit ms).2).2 :=
    ⟨_, rfl⟩
  rw [← hms2] at i1
  obtain ⟨ms3, hms3⟩ : ∃ x : osmocom_ms,
      x = { ms2 with subscr := { ms2.subscr with sim_valid := true } } := ⟨_, rfl⟩
  have hi3 : ms3.subscr.sim_file_index = 0 := by rw [hms3]; exact i1
  have key : gsm_subscr_insert ms =
      match (if ms2.settings.sim_type = GSM_SIM_TYPE_L1PHY then
               some (gsm_subscr_insert_simcard ms3)
             else if ms2.settings.sim_type = GSM_SIM_TYPE_TEST then
               some (gsm_subscr_insert_testcard ms3)
             else if ms2.settings.sim_type = GSM_SIM_TYPE_SAP then
               some (gsm_subscr_insert_sapcard ms3)
             else none : Option (Int × osmocom_ms)) with
      | none => (-EINVAL, ms3)
      | some r =>
        if r.1 < 0 then (r.1, { r.2 with subscr := { r.2.subscr with sim_valid := false } })
        else (r.1, r.2) := by
    unfold gsm_subscr_insert
    simp only [hv, Bool.false_eq_true, if_false, ← hms2]
    rw [← hms3]
  have hback : ∀ r : Int × osmocom_ms, r.2.subscr.sim_file_index = 0 →
      (if r.1 < 0 then
        (r.1, { r.2 with subscr := { r.2.subscr with sim_valid := false } })
       else (r.1, r.2)).2.subscr.sim_file_index = 0 := by
    intro r h
    split_ifs
    · exact h
    · exact h
  rw [key]
  by_cases h1 : ms2.settings.sim_type = GSM_SIM_TYPE_L1PHY
  · rw [if_pos h1]
    apply hback
    unfold gsm_subscr_insert_simcard
    rw [(subscr_sim_request_frame _).1]
  · rw [if_neg h1]
    by_cases h2 : ms2.settings.sim_type = GSM_SIM_TYPE_TEST
    · rw [if_pos h2]
      apply hback
      unfold gsm_subscr_insert_testcard
      dsimp only
      by_cases hi : ¬ osmo_imsi_str_valid ms3.settings.test_sim.imsi = true
      · rw [if_pos hi]
        exact hi3
      · rw [if_neg hi]
        exact hi3
    · rw [if_neg h2]
      by_cases h3 : ms2.settings.sim_type = GSM_SIM_TYPE_SAP
      · rw [if_pos h3]
        apply hback
        unfold gsm_subscr_insert_sapcard
        dsimp only
        split_ifs
        · exact hi3
        · exact hi3
      · rw [if_neg h3]
        exact hi3

theorem sim_decode_bcd_zero (result data : List Nat) :
    sim_decode_bcd result data 0 = sim_decode_bcd result [] 0 := by
  unfold sim_decode_bcd
  simp [sim_decode_bcd_loop]

/-- A decode function of the file table that is handed the length 0 does not read
the payload. -/
theorem subscr_sim_files_zero_length (i : Nat)
    (f : osmocom_ms → List Nat → Nat → Int × osmocom_ms)
    (h : (sim_file_at i).func = some f) (ms : osmocom_ms) (data : List Nat) :
    f ms data 0 = f ms [] 0 := by
  have hi : i < 12 := sim_file_at_lt i (by rw [h]; rfl)
  interval_cases i <;> simp [sim_file_at, subscr_sim_files] at h <;> subst h
  · simp only [subscr_sim_iccid, sim_decode_bcd_zero ms.bcd_result data]
  · simp [subscr_sim_imsi]
  · simp [subscr_sim_loci]
  · simp [subscr_sim_locigprs]
  · simp [subscr_sim_kc]
  · simp [subscr_sim_plmnsel, subscr_sim_plmnsel_loop]
  · simp [subscr_sim_hpplmn]
  · simp [subscr_sim_spn]
  · simp [subscr_sim_acc]
  · simp [subscr_sim_fplmn, subscr_sim_fplmn_loop]
  · simp [subscr_sim_msisdn, sizeof_gsm1111_ef_adn]
  · simp [subscr_sim_smsp, sizeof_gsm1111_ef_smsp]

/-! ## The claims C31 to C40 -/

/-- C31, the code at failing inputs.  The 4 byte payload 07 29 26 10 announces 7
bytes and holds 3: the check `data[0] + 1 < length` lets it pass, `sim_decode_bcd`
reads 7 bytes from `data + 1`, and the decoder returns 0.  The IMSI stored ends with
the nibbles of the four bytes behind the payload: zeros in a zero-filled buffer, the
digits 23456789 when the buffer holds 32 54 76 98 there.  The padded payload of a
short IMSI, 04 29 26 10 f1 ff ff ff ff, is what the check rejects. -/
theorem imsi_decoder_reads_past_payload :
    rd [7, 0x29, 0x26, 0x10] 0 = 7 ∧
    (subscr_sim_imsi (ms_reading 1) [7, 0x29, 0x26, 0x10] 4).1 = 0 ∧
    (subscr_sim_imsi (ms_reading 1) [7, 0x29, 0x26, 0x10] 4).2.subscr.imsi =
      "2620100000000".toList ∧
    (subscr_sim_imsi (ms_reading 1) [7, 0x29, 0x26, 0x10, 0x32, 0x54, 0x76, 0x98] 4).1 = 0 ∧
    (subscr_sim_imsi (ms_reading 1) [7, 0x29, 0x26, 0x10, 0x32, 0x54, 0x76, 0x98]
      4).2.subscr.imsi = "2620123456789".toList ∧
    (subscr_sim_imsi (ms_reading 1) [4, 0x29, 0x26, 0x10, 0xf1, 0xff, 0xff, 0xff, 0xff]
      9).1 = -EINVAL := by
  decide

/-- C32: `subscr_sim_loci` returns `-EINVAL` and leaves the state unchanged for
every length below 11; for every length of at least 11 it returns 0, sets `tmsi` to
the big-endian value of bytes 0..3 and sets `ustate` from the low three bits of the
status byte (byte 10): UPDATED gives U1_UPDATED, PLMN_NOT_ALLOWED and
LA_NOT_ALLOWED give U3_ROAMING_NA, every other value gives U2_NOT_UPDATED. -/
theorem loci_decoder_status (ms : osmocom_ms) (data : List Nat) (length : Nat) :
    (length < 11 → subscr_sim_loci ms data length = (-EINVAL, ms)) ∧
    (11 ≤ length →
      (subscr_sim_loci ms data length).1 = 0 ∧
      (subscr_sim_loci ms data length).2.subscr.tmsi =
        rd data 0 * 16777216 + rd data 1 * 65536 + rd data 2 * 256 + rd data 3 ∧
      (rd data 10 % 8 = GSM1111_EF_LOCI_LUPD_ST_UPDATED →
        (subscr_sim_loci ms data length).2.subscr.ustate = GSM_SIM_U1_UPDATED) ∧
      (rd data 10 % 8 = GSM1111_EF_LOCI_LUPD_ST_PLMN_NOT_ALLOWED ∨
        rd data 10 % 8 = GSM1111_EF_LOCI_LUPD_ST_LA_NOT_ALLOWED →
        (subscr_sim_loci ms data length).2.subscr.ustate = GSM_SIM_U3_ROAMING_NA) ∧
      (rd data 10 % 8 ≠ GSM1111_EF_LOCI_LUPD_ST_UPDATED →
        rd data 10 % 8 ≠ GSM1111_EF_LOCI_LUPD_ST_PLMN_NOT_ALLOWED →
        rd data 10 % 8 ≠ GSM1111_EF_LOCI_LUPD_ST_LA_NOT_ALLOWED →
        (subscr_sim_loci ms data length).2.subscr.ustate = GSM_SIM_U2_NOT_UPDATED)) := by
  constructor
  · intro h
    unfold subscr_sim_loci
    rw [if_pos h]
  · intro h
    have hn : ¬ length < 11 := by omega
    unfold subscr_sim_loci
    rw [if_neg hn]
    refine ⟨rfl, load_be_4 data, ?_, ?_, ?_⟩
    · intro h0
      simp only [h0, if_true]
    · intro h1
      have hne : ¬ rd data 10 % 8 = GSM1111_EF_LOCI_LUPD_ST_UPDATED := by
        rcases h1 with h1 | h1 <;> rw [h1] <;> decide
      simp only [hne, if_false, h1, if_true]
    · intro h0 h1 h2
      simp only [h0, if_false, h1, h2, or_self]

/-- Witness of C32: a payload of 10 bytes, and one of 11 bytes with the status 3. -/
theorem loci_decoder_status_witness :
    subscr_sim_loci (ms_reading 2) [1, 2, 3, 4, 0x62, 0xf2, 0x10, 0x12, 0x34, 0xff] 10 =
      (-EINVAL, ms_reading 2) ∧
    (subscr_sim_loci (ms_reading 2) [1, 2, 3, 4, 0x62, 0xf2, 0x10, 0x12, 0x34, 0xff, 0x03]
      11).2.subscr.ustate = GSM_SIM_U3_ROAMING_NA :=
  ⟨(loci_decoder_status (ms_reading 2) [1, 2, 3, 4, 0x62, 0xf2, 0x10, 0x12, 0x34, 0xff] 10).1
      (by decide),
   ((loci_decoder_status (ms_reading 2) [1, 2, 3, 4, 0x62, 0xf2, 0x10, 0x12, 0x34, 0xff, 0x03]
      11).2 (by decide)).2.2.2.1 (Or.inr (by decide))⟩

/-- C33, the code: `gsm_subscr_insert_testcard` never writes `gprs.gu_state`, for
every state it is the value from before the call (the GPRS part assigns
`subscr->ustate` instead).  At the failing input, a test card configured as GPRS
attached with a valid routing area, `gsm_subscr_insert` returns 0 and `gu_state` is
GU0_NULL, the value left by `gsm_subscr_init`, not GU1_UPDATED; with the flags clear
it is GU0_NULL as well, not GU2_NOT_UPDATED. -/
theorem insert_testcard_gu_state_not_set (ms : osmocom_ms) :
    (gsm_subscr_insert_testcard ms).2.subscr.gprs.gu_state = ms.subscr.gprs.gu_state ∧
    ms_boot_test_gprs.settings.test_sim.locigprs.imsi_attached = true ∧
    ms_boot_test_gprs.settings.test_sim.locigprs.valid = true ∧
    (gsm_subscr_insert ms_boot_test_gprs).1 = 0 ∧
    (gsm_subscr_insert ms_boot_test_gprs).2.subscr.gprs.gu_state = GSM_SIM_GU0_NULL ∧
    ms_boot_test.settings.test_sim.locigprs.imsi_attached = false ∧
    (gsm_subscr_insert ms_boot_test).2.subscr.gprs.gu_state = GSM_SIM_GU0_NULL := by
  refine ⟨?_, by decide, by decide, by decide, by decide, by decide, by decide⟩
  unfold gsm_subscr_insert_testcard
  dsimp only
  by_cases hi : ¬ osmo_imsi_str_valid ms.settings.test_sim.imsi = true
  · rw [if_pos hi]
  · rw [if_neg hi]
    rfl

/-- C34: after `gsm_subscr_insert` with no card present the cursor is 0; in the state
reached from there by any list `msgs` of responses delivered to
`subscr_sim_query_cb` the cursor is at most 12, the index of the terminating row,
and any further response `m` leaves it as it is or advances it by one, never beyond
12. -/
theorem query_cursor_within_table (ms : osmocom_ms) (msgs : List msgb) (m : msgb)
    (hv : ms.subscr.sim_valid = false) :
    (gsm_subscr_insert ms).2.subscr.sim_file_index = 0 ∧
    (sim_query_run (gsm_subscr_insert ms).2 msgs).subscr.sim_file_index ≤ 12 ∧
    (sim_query_run (gsm_subscr_insert ms).2 msgs).subscr.sim_file_index ≤
      (subscr_sim_query_cb (sim_query_run (gsm_subscr_insert ms).2 msgs) m).subscr.sim_file_index ∧
    (subscr_sim_query_cb (sim_query_run (gsm_subscr_insert ms).2 msgs) m).subscr.sim_file_index ≤
      (sim_query_run (gsm_subscr_insert ms).2 msgs).subscr.sim_file_index + 1 ∧
    (subscr_sim_query_cb (sim_query_run (gsm_subscr_insert ms).2 msgs) m).subscr.sim_file_index
      ≤ 12 := by
  have h0 := gsm_subscr_insert_index ms hv
  have hr := sim_query_run_index msgs (gsm_subscr_insert ms).2 (by rw [h0]; omega)
  obtain ⟨a, b, c⟩ := subscr_sim_query_cb_index (sim_query_run (gsm_subscr_insert ms).2 msgs) m hr
  exact ⟨h0, hr, a, b, c⟩

/-- Witness of C34: the run of twelve accepted files and one more response. -/
theorem query_cursor_within_table_witness :
    (sim_query_run (gsm_subscr_insert ms_boot).2 sim_rsps_accepted).subscr.sim_file_index ≤ 12 ∧
    (subscr_sim_query_cb (sim_query_run (gsm_subscr_insert ms_boot).2 sim_rsps_accepted)
      (sim_rsp_ok [1, 2, 3])).subscr.sim_file_index ≤ 12 :=
  ⟨(query_cursor_within_table ms_boot sim_rsps_accepted (sim_rsp_ok [1, 2, 3]) rfl).2.1,
   (query_cursor_within_table ms_boot sim_rsps_accepted (sim_rsp_ok [1, 2, 3]) rfl).2.2.2.2⟩

/-- C35: if no two entries of the forbidden list are equal (by `osmo_plmn_cmp`: MCC,
MNC and MNC digit count), the same holds after `gsm_subscr_add_forbidden_plmn` with
any PLMN and cause (also when it fails), and after `gsm_subscr_del_forbidden_plmn`
with any argument; and when the add of `p` returns 0,
`gsm_subscr_is_forbidden_plmn(p)` returns 1 in the state it leaves. -/
theorem forbidden_list_stays_distinct (ms : osmocom_ms) (p : osmo_plmn_id) (cause : Nat)
    (plmn : Option osmo_plmn_id) (hd : plmn_na_distinct ms.subscr.plmn_na) :
    plmn_na_distinct (gsm_subscr_add_forbidden_plmn ms p cause).2.subscr.plmn_na ∧
    plmn_na_distinct (gsm_subscr_del_forbidden_plmn ms plmn).2.subscr.plmn_na ∧
    ((gsm_subscr_add_forbidden_plmn ms p cause).1 = 0 →
      gsm_subscr_is_forbidden_plmn (gsm_subscr_add_forbidden_plmn ms p cause).2 p = 1) := by
  have hdel : ∀ q : Option osmo_plmn_id,
      plmn_na_distinct (del_forbidden_loop q ms.subscr.plmn_na).1 := by
    intro q
    unfold plmn_na_distinct at hd ⊢
    exact hd.sublist (del_forbidden_loop_sublist q _)
  have hadd : plmn_na_distinct ((del_forbidden_loop (some p) ms.subscr.plmn_na).1 ++
      [{ plmn := p, cause := if cause % 256 ≠ 0 then ((cause % 256 : Nat) : Int) else -1 }]) := by
    have h1 := hdel (some p)
    unfold plmn_na_distinct at h1 ⊢
    rw [List.pairwise_append]
    refine ⟨h1, List.pairwise_singleton _ _, ?_⟩
    intro y hy z hz
    rw [List.mem_singleton] at hz
    subst hz
    exact del_forbidden_loop_clears p _ hd y hy
  refine ⟨?_, ?_, ?_⟩
  · rcases gsm_subscr_add_forbidden_plmn_cases ms p cause with ⟨-, h⟩ | h
    · rw [h]; exact hdel (some p)
    · rw [h]; exact hadd
  · cases plmn with
    | none =>
      have : (gsm_subscr_del_forbidden_plmn ms none).2.subscr.plmn_na =
          (del_forbidden_loop none ms.subscr.plmn_na).1 := by
        unfold gsm_subscr_del_forbidden_plmn
        dsimp only
        split_ifs
        · rw [(subscr_write_plmn_na_frame _).1]
        · rfl
      rw [this]
      exact hdel none
    | some q =>
      rw [(gsm_subscr_del_forbidden_plmn_state ms q).1]
      exact hdel (some q)
  · intro h0
    rcases gsm_subscr_add_forbidden_plmn_cases ms p cause with ⟨h, -⟩ | h
    · rw [h0] at h
      exact absurd h (by decide)
    · unfold gsm_subscr_is_forbidden_plmn
      rw [h, if_pos]
      simp [osmo_plmn_cmp_refl]

/-- Witness of C35: 262-02 is added to the list that holds it. -/
theorem forbidden_list_stays_distinct_witness :
    plmn_na_distinct (gsm_subscr_add_forbidden_plmn (ms_home [na_of 262 2]) plmn_262_02
      11).2.subscr.plmn_na ∧
    gsm_subscr_is_forbidden_plmn (gsm_subscr_add_forbidden_plmn (ms_home [na_of 262 2])
      plmn_262_02 11).2 plmn_262_02 = 1 :=
  ⟨(forbidden_list_stays_distinct (ms_home [na_of 262 2]) plmn_262_02 11 none (by decide)).1,
   (forbidden_list_stays_distinct (ms_home [na_of 262 2]) plmn_262_02 11 none (by decide)).2.2
     (by decide)⟩

/-- C36, the code at the failing input: with no card present and the card-kind
selector of the settings at `GSM_SIM_TYPE_NONE`, `gsm_subscr_insert` returns
`-EINVAL` from the `default` arm of its switch, after `sim_valid` was set and before
the code that clears it: `sim_valid` is true on return, and the next insertion is
refused with `-EBUSY`. -/
theorem insert_unknown_kind_leaves_card_present :
    ms_boot_none.subscr.sim_valid = false ∧
    (gsm_subscr_insert ms_boot_none).1 = -EINVAL ∧
    (gsm_subscr_insert ms_boot_none).2.subscr.sim_valid = true ∧
    (gsm_subscr_insert (gsm_subscr_insert ms_boot_none).2).1 = -EBUSY := by
  decide

/-- C37: `gsm_subscr_del_forbidden_plmn` returns `-EINVAL` for every state and
every argument; on a test card with the list 262-01, 262-02 this is the result
when it deleted one entry, when it flushed the list (NULL argument) and when it
found nothing. -/
theorem del_forbidden_returns_einval (ms : osmocom_ms) (plmn : Option osmo_plmn_id) :
    (gsm_subscr_del_forbidden_plmn ms plmn).1 = -EINVAL ∧
    gsm_subscr_del_forbidden_plmn (ms_test_card_list [na_of 262 1, na_of 262 2])
        (some plmn_262_01) =
      (-EINVAL, ms_test_card_list [na_of 262 2]) ∧
    gsm_subscr_del_forbidden_plmn (ms_test_card_list [na_of 262 1, na_of 262 2]) none =
      (-EINVAL, ms_test_card_list []) ∧
    gsm_subscr_del_forbidden_plmn (ms_test_card_list [na_of 262 1, na_of 262 2])
        (some { mcc := 262, mnc := 3, mnc_3_digits := false }) =
      (-EINVAL, ms_test_card_list [na_of 262 1, na_of 262 2]) := by
  refine ⟨rfl, by decide, by decide, by decide⟩

/-- C38, the code: for every record and payload, every entry of the forbidden list
after `subscr_sim_fplmn` is the zero PLMN of `talloc_zero` with the cause -1,
because the decoder calls `osmo_plmn_to_bcd(&data[0], &na->plmn)`.  At the failing
input, the list 262-01, 262-02, the body written by `subscr_write_plmn_na_simcard` is
62 f2 10 62 f2 20 ff ff ff ff ff ff, and the decoder rebuilds from it two entries
000-00. -/
theorem fplmn_round_trip_not_decoded (ms : osmocom_ms) (data : List Nat) (length : Nat) :
    (∃ k, (subscr_sim_fplmn ms data length).2.subscr.plmn_na =
      List.replicate k { plmn := osmo_plmn_id_zero, cause := -1 }) ∧
    plmn_na_body [{ plmn := plmn_262_01, cause := 11 }, { plmn := plmn_262_02, cause := 12 }] =
      [0x62, 0xf2, 0x10, 0x62, 0xf2, 0x20, 0xff, 0xff, 0xff, 0xff, 0xff, 0xff] ∧
    (subscr_sim_fplmn (ms_reading 9)
      (plmn_na_body [{ plmn := plmn_262_01, cause := 11 }, { plmn := plmn_262_02, cause := 12 }])
      12).1 = 0 ∧
    (subscr_sim_fplmn (ms_reading 9)
      (plmn_na_body [{ plmn := plmn_262_01, cause := 11 }, { plmn := plmn_262_02, cause := 12 }])
      12).2.subscr.plmn_na =
      [{ plmn := { mcc := 0, mnc := 0, mnc_3_digits := false }, cause := -1 },
       { plmn := { mcc := 0, mnc := 0, mnc_3_digits := false }, cause := -1 }] := by
  refine ⟨?_, by decide, by decide, by decide⟩
  obtain ⟨k, hk⟩ := subscr_sim_fplmn_loop_list length
    { ms with subscr := { ms.subscr with plmn_na := [] } } data length
  exact ⟨k, by unfold subscr_sim_fplmn; rw [hk]; rfl⟩

/-- C39: on a valid physical or remote card, with the job allocated,
`gsm_subscr_generate_kc` returns 0 and stores the 8 bit `key_seq` of the caller at
once, leaving `key` as it was; after an error response, or a response of fewer than
12 bytes, on the key handle, `key_seq` is the new value and `key` still the previous
one. -/
theorem generate_kc_key_seq_before_answer
    (auth_gen : Nat → List Nat → List Nat → Int × osmo_auth_vector)
    (ms : osmocom_ms) (key_seq : Nat) (rand : List Nat) (msg : msgb)
    (hv : ms.subscr.sim_valid = true)
    (ht : ms.subscr.sim_type = gsm_subscr_sim_type.L1PHY ∨
          ms.subscr.sim_type = gsm_subscr_sim_type.SAP)
    (hk : key_seq < 256) (hal : allocs_ok ms)
    (hmsg : msg.sh.job_type = SIM_JOB_ERROR ∨ msg.payload.length < 12) :
    (gsm_subscr_generate_kc auth_gen ms key_seq rand false).1 = 0 ∧
    (gsm_subscr_generate_kc auth_gen ms key_seq rand false).2.subscr.key_seq = key_seq ∧
    (gsm_subscr_generate_kc auth_gen ms key_seq rand false).2.subscr.key = ms.subscr.key ∧
    (subscr_sim_key_cb (gsm_subscr_generate_kc auth_gen ms key_seq rand false).2 msg).subscr.key_seq
      = key_seq ∧
    (subscr_sim_key_cb (gsm_subscr_generate_kc auth_gen ms key_seq rand false).2 msg).subscr.key
      = ms.subscr.key := by
  have hcb : ∀ s : osmocom_ms, subscr_sim_key_cb s msg = s := by
    intro s
    unfold subscr_sim_key_cb
    rcases hmsg with h | h
    · simp [h]
    · have h2 : msg.payload.length % 65536 < 12 := by
        rw [Nat.mod_eq_of_lt (by omega)]; exact h
      simp [h2]
  rw [hcb]
  obtain ⟨ha, -⟩ := try_alloc_ok ms hal
  obtain ⟨hs, -, -, -⟩ := try_alloc_frame ms
  unfold gsm_subscr_generate_kc gsm_subscr_generate_kc_simcard gsm_sim_msgb_alloc
  rcases ht with ht | ht <;>
    simp [hv, ht, ha, sim_job, hs, Nat.mod_eq_of_lt hk]

/-- Witness of C39: the card answers the request with the key sequence 5 by an
error. -/
theorem generate_kc_key_seq_before_answer_witness :
    (subscr_sim_key_cb (gsm_subscr_generate_kc auth_gen_fixed (ms_reading 12) 5 rand_example
      false).2 (sim_rsp_error SIM_CAUSE_SIM_ERROR 0)).subscr.key_seq = 5 ∧
    (subscr_sim_key_cb (gsm_subscr_generate_kc auth_gen_fixed (ms_reading 12) 5 rand_example
      false).2 (sim_rsp_error SIM_CAUSE_SIM_ERROR 0)).subscr.key = (ms_reading 12).subscr.key :=
  (generate_kc_key_seq_before_answer auth_gen_fixed (ms_reading 12) 5 rand_example
    (sim_rsp_error SIM_CAUSE_SIM_ERROR 0) rfl (Or.inl rfl) (by decide) (by decide)
    (Or.inl rfl)).2.2.2

/-- C40: a success response with a payload of exactly 256 bytes is handled by
`subscr_sim_query_cb` as the same response with an empty payload, because the
decode function receives the length 256 mod 256 = 0; with the length 0 the decoders
IMSI, LOCI, LOCIGPRS, Kc, HPLMN, access classes, MSISDN and SMSP return `-EINVAL`
and SPN returns `-ENOTSUP`, leaving the state unchanged, whatever the payload. -/
theorem query_cb_length_mod_256 (ms : osmocom_ms) (msg : msgb) (data : List Nat)
    (hok : msg.sh.job_type ≠ SIM_JOB_ERROR) (hlen : msg.payload.length = 256) :
    subscr_sim_query_cb ms msg = subscr_sim_query_cb ms { msg with payload := [] } ∧
    subscr_sim_imsi ms data 0 = (-EINVAL, ms) ∧
    subscr_sim_loci ms data 0 = (-EINVAL, ms) ∧
    subscr_sim_locigprs ms data 0 = (-EINVAL, ms) ∧
    subscr_sim_kc ms data 0 = (-EINVAL, ms) ∧
    subscr_sim_hpplmn ms data 0 = (-EINVAL, ms) ∧
    subscr_sim_spn ms data 0 = (-ENOTSUP, ms) ∧
    subscr_sim_acc ms data 0 = (-EINVAL, ms) ∧
    subscr_sim_msisdn ms data 0 = (-EINVAL, ms) ∧
    subscr_sim_smsp ms data 0 = (-EINVAL, ms) := by
  refine ⟨?_, by simp [subscr_sim_imsi], by simp [subscr_sim_loci],
    by simp [subscr_sim_locigprs], by simp [subscr_sim_kc], by simp [subscr_sim_hpplmn],
    by simp [subscr_sim_spn], by simp [subscr_sim_acc],
    by simp [subscr_sim_msisdn, sizeof_gsm1111_ef_adn],
    by simp [subscr_sim_smsp, sizeof_gsm1111_ef_smsp]⟩
  unfold subscr_sim_query_cb
  simp only [hok, if_false, hlen, List.length_nil, Nat.zero_mod,
    (by decide : 256 % 65536 % 256 = 0)]
  cases hf : (sim_file_at ms.subscr.sim_file_index).func with
  | none => rfl
  | some f =>
    simp only [subscr_sim_files_zero_length _ f hf ms msg.payload]

/-- Witness of C40: 256 bytes arrive while EF-Kc, row 4, is requested. -/
theorem query_cb_length_mod_256_witness :
    subscr_sim_query_cb (ms_reading 4) (sim_rsp_ok (List.replicate 256 1)) =
      subscr_sim_query_cb (ms_reading 4) { sim_rsp_ok (List.replicate 256 1) with payload := [] } ∧
    subscr_sim_kc (ms_reading 4) (List.replicate 256 1) 0 = (-EINVAL, ms_reading 4) :=
  ⟨(query_cb_length_mod_256 (ms_reading 4) (sim_rsp_ok (List.replicate 256 1))
      (List.replicate 256 1) (by decide) (List.length_replicate 256 1)).1,
   (query_cb_length_mod_256 (ms_reading 4) (sim_rsp_ok (List.replicate 256 1))
      (List.replicate 256 1) (by decide) (List.length_replicate 256 1)).2.2.2.2.1⟩

end OsmocomBB
